import Mathlib

/-!
# go-boilerplate-rest-api-chi: handler → service → repository core

A shallow embedding of the book and author services, the handlers' error
tables and the response envelope, followed by theorems about them.

Conventions of the embedding

* A Go pointer `*T` is `Option T` (`none` is `nil`); dereferencing `nil` is a
  run-time panic, made explicit by `Outcome.panic`.
* A Go result pair `(*T, error)` is `Option T × Option GoError`.
* A slice is a `List`; the nil slice and the empty slice are both `[]`.
* An interface (`BookRepository`, `AuthorRepository`, `BookService`) is a
  record of functions over an arbitrary implementation state `σ`.
* `context.Context` is passed through unchanged by every function modelled
  here and is left out.
* Every call that a service makes on a repository is appended to
  `World.calls`, so that "is called", "is never called" and "is called once
  with" are statements about that list.
-/

/-! ## External types -/

/-- A `uuid.UUID` value (sixteen bytes), carried as a natural number. -/
structure UUID where
  val : Nat
deriving DecidableEq, Repr

/-- The zero value of `uuid.UUID` (`uuid.Nil`). -/
def UUID.Nil : UUID := ⟨0⟩

/-- The functions of the external package `github.com/google/uuid` that the
program calls. Their code is not part of the repository: they are parameters
of every definition that calls them. `Parse s = none` stands for a non-nil
error. -/
structure UUIDPackage where
  Parse : String → Option UUID
  String : UUID → String

namespace time

/-- A `time.Time` value. -/
structure Time where
  ticks : Int
deriving DecidableEq, Repr

/-- The zero value of `time.Time`. -/
def Time.zero : Time := ⟨0⟩

end time

/-! ## Errors -/

/-- One `validator.FieldError`, reduced to the three accessors the program
reads: `Field()`, `Tag()` and `Param()`. -/
structure FieldError where
  Field : String
  Tag : String
  Param : String
deriving DecidableEq, Repr

/-- A non-nil Go `error` value.

The five package-level values of `book/errors.go` and `author/errors.go` and
the two values of `gorm` that the repositories test for are constructors of
their own (each is a distinct `errors.New` pointer). `other msg` is any other
error value, `wrap msg inner` an error whose `Unwrap()` is `inner`
(`fmt.Errorf` with `%w`), `validationErrors` a `validator.ValidationErrors`.
Errors with several `Unwrap` results (`errors.Join`) or with an `Is` method of
their own are not values of this type; the program builds none. -/
inductive GoError where
  | bookErrNotFound
  | bookErrDuplicate
  | bookErrInvalidAuthorId
  | authorErrNotFound
  | authorErrDuplicate
  | gormErrRecordNotFound
  | gormErrDuplicatedKey
  | validationErrors (ve : List FieldError)
  | other (msg : String)
  | wrap (msg : String) (inner : GoError)
deriving DecidableEq, Repr

namespace errors

/-- The function `errors.Is(err, target)` for non-nil `err` and `target`: `err` or an
error in its `Unwrap` chain equals `target`. -/
def Is : GoError → GoError → Bool
  | .wrap msg inner, target => (GoError.wrap msg inner == target) || Is inner target
  | err, target => err == target

end errors

namespace book

/-- The value `book.ErrNotFound = errors.New("book not found")`. -/
def ErrNotFound : GoError := .bookErrNotFound

/-- The value `book.ErrDuplicate = errors.New("book already exists")`. -/
def ErrDuplicate : GoError := .bookErrDuplicate

/-- The value `book.ErrInvalidAuthorId = errors.New("invalid author ID")`. -/
def ErrInvalidAuthorId : GoError := .bookErrInvalidAuthorId

end book

namespace author

/-- The value `author.ErrNotFound = errors.New("author not found")`. -/
def ErrNotFound : GoError := .authorErrNotFound

/-- The value `author.ErrDuplicate = errors.New("author already exists")`. -/
def ErrDuplicate : GoError := .authorErrDuplicate

end author

namespace gorm

/-- The value `gorm.ErrRecordNotFound`. -/
def ErrRecordNotFound : GoError := .gormErrRecordNotFound

/-- The value `gorm.ErrDuplicatedKey`. -/
def ErrDuplicatedKey : GoError := .gormErrDuplicatedKey

end gorm

/-- The result of running a function body: it returns a value, or it panics
(a nil pointer is dereferenced). -/
inductive Outcome (α : Type) where
  | ok (a : α)
  | panic
deriving DecidableEq, Repr

/-! ## Entities (`internal/entity`) -/

namespace entity

mutual
/-- The struct `entity.Author`. -/
inductive Author : Type where
  | mk (ID : UUID) (Name : String) (Book : List Book)
      (CreatedAt : time.Time) (UpdatedAt : time.Time)
/-- The struct `entity.Book`. -/
inductive Book : Type where
  | mk (ID : UUID) (Title : String) (Description : String) (AuthorID : Option UUID)
      (Author : Option Author) (CreatedAt : time.Time) (UpdatedAt : time.Time)
end

/-- Field `ID` of an author. -/
def Author.ID : Author → UUID
  | .mk i _ _ _ _ => i

/-- Field `Name` of an author. -/
def Author.Name : Author → String
  | .mk _ n _ _ _ => n

/-- Field `Book` of an author. -/
def Author.Book : Author → List Book
  | .mk _ _ b _ _ => b

/-- Field `CreatedAt` of an author. -/
def Author.CreatedAt : Author → time.Time
  | .mk _ _ _ c _ => c

/-- Field `UpdatedAt` of an author. -/
def Author.UpdatedAt : Author → time.Time
  | .mk _ _ _ _ u => u

/-- Field `ID` of a book. -/
def Book.ID : Book → UUID
  | .mk i _ _ _ _ _ _ => i

/-- Field `Title` of a book. -/
def Book.Title : Book → String
  | .mk _ t _ _ _ _ _ => t

/-- Field `Description` of a book. -/
def Book.Description : Book → String
  | .mk _ _ d _ _ _ _ => d

/-- Field `AuthorID` of a book (`*uuid.UUID`). -/
def Book.AuthorID : Book → Option UUID
  | .mk _ _ _ a _ _ _ => a

/-- Field `Author` of a book (`*Author`). -/
def Book.Author : Book → Option Author
  | .mk _ _ _ _ a _ _ => a

/-- Field `CreatedAt` of a book. -/
def Book.CreatedAt : Book → time.Time
  | .mk _ _ _ _ _ c _ => c

/-- Field `UpdatedAt` of a book. -/
def Book.UpdatedAt : Book → time.Time
  | .mk _ _ _ _ _ _ u => u

/-- The assignment `book.Title = v`. -/
def Book.setTitle : Book → String → Book
  | .mk i _ d a au c u, v => .mk i v d a au c u

end entity

/-! ## Request DTOs -/

namespace author.dto

/-- Modelled from the spec: the struct `dto.CreateAuthorRequest` of the author
package, whose file `author/dto/request.go` is missing. The body of
`POST /authors` is `{name}`; the tests build the value with the one field
`Name` and expect the failure `Name is required` for the empty name. -/
structure CreateAuthorRequest where
  Name : String
deriving DecidableEq, Repr

end author.dto

namespace book.dto

/-- The struct `dto.CreateBookRequest`. -/
structure CreateBookRequest where
  Title : String
  Description : String
  AuthorID : String
deriving DecidableEq, Repr

/-- The struct `dto.UpdateBookRequest`. -/
structure UpdateBookRequest where
  Description : String
deriving DecidableEq, Repr

end book.dto

/-! ## Repository interfaces and the world they act on -/

/-- One call on a repository interface, with its arguments. -/
inductive Call where
  | authorCreate (a : entity.Author)
  | authorGetByID (id : UUID)
  | bookCreate (b : entity.Book)
  | bookGetAll
  | bookGetByID (id : UUID)
  | bookUpdate (b : entity.Book)
  | bookDelete (id : UUID)

/-- One record written to the `zerolog` logger: `logger.Error().Err(err).Msg(msg)`. -/
structure LogEntry where
  level : String
  err : Option GoError
  msg : String
deriving DecidableEq, Repr

/-- Everything a request can change outside the response writer: the state
behind the repository interfaces, the repository calls made so far (oldest
first) and the records logged so far. -/
structure World (σ : Type) where
  store : σ
  calls : List Call
  log : List LogEntry

namespace author

/-- The interface `author.AuthorRepository`: any implementation, acting on
its state `σ`. -/
structure AuthorRepository (σ : Type) where
  Create : entity.Author → σ → (Option entity.Author × Option GoError) × σ
  GetByID : UUID → σ → (Option entity.Author × Option GoError) × σ

/-- The call `r.Create(ctx, a)`, recorded in the world. -/
def AuthorRepository.callCreate {σ : Type} (r : AuthorRepository σ) (a : entity.Author)
    (w : World σ) : (Option entity.Author × Option GoError) × World σ :=
  ((r.Create a w.store).1,
    { w with store := (r.Create a w.store).2, calls := w.calls ++ [Call.authorCreate a] })

/-- The call `r.GetByID(ctx, id)`, recorded in the world. -/
def AuthorRepository.callGetByID {σ : Type} (r : AuthorRepository σ) (id : UUID)
    (w : World σ) : (Option entity.Author × Option GoError) × World σ :=
  ((r.GetByID id w.store).1,
    { w with store := (r.GetByID id w.store).2, calls := w.calls ++ [Call.authorGetByID id] })

end author

namespace book

/-- The interface `book.BookRepository`: any implementation, acting on its
state `σ`. `GetAll` returns a slice of pointers. -/
structure BookRepository (σ : Type) where
  Create : entity.Book → σ → (Option entity.Book × Option GoError) × σ
  GetAll : σ → (List (Option entity.Book) × Option GoError) × σ
  GetByID : UUID → σ → (Option entity.Book × Option GoError) × σ
  Update : entity.Book → σ → (Option entity.Book × Option GoError) × σ
  Delete : UUID → σ → Option GoError × σ

/-- The call `r.Create(ctx, b)`, recorded in the world. -/
def BookRepository.callCreate {σ : Type} (r : BookRepository σ) (b : entity.Book)
    (w : World σ) : (Option entity.Book × Option GoError) × World σ :=
  ((r.Create b w.store).1,
    { w with store := (r.Create b w.store).2, calls := w.calls ++ [Call.bookCreate b] })

/-- The call `r.GetAll(ctx)`, recorded in the world. -/
def BookRepository.callGetAll {σ : Type} (r : BookRepository σ)
    (w : World σ) : (List (Option entity.Book) × Option GoError) × World σ :=
  ((r.GetAll w.store).1,
    { w with store := (r.GetAll w.store).2, calls := w.calls ++ [Call.bookGetAll] })

/-- The call `r.GetByID(ctx, id)`, recorded in the world. -/
def BookRepository.callGetByID {σ : Type} (r : BookRepository σ) (id : UUID)
    (w : World σ) : (Option entity.Book × Option GoError) × World σ :=
  ((r.GetByID id w.store).1,
    { w with store := (r.GetByID id w.store).2, calls := w.calls ++ [Call.bookGetByID id] })

/-- The call `r.Update(ctx, b)`, recorded in the world. -/
def BookRepository.callUpdate {σ : Type} (r : BookRepository σ) (b : entity.Book)
    (w : World σ) : (Option entity.Book × Option GoError) × World σ :=
  ((r.Update b w.store).1,
    { w with store := (r.Update b w.store).2, calls := w.calls ++ [Call.bookUpdate b] })

/-- The call `r.Delete(ctx, id)`, recorded in the world. -/
def BookRepository.callDelete {σ : Type} (r : BookRepository σ) (id : UUID)
    (w : World σ) : Option GoError × World σ :=
  ((r.Delete id w.store).1,
    { w with store := (r.Delete id w.store).2, calls := w.calls ++ [Call.bookDelete id] })

end book

/-! ## Services (`author/service.go`, `book/service.go`) -/

namespace author

/-- The struct `authorService` (its logger is never used by its methods). -/
structure authorService (σ : Type) where
  repository : AuthorRepository σ

/-- The method `authorService.CreateAuthor`. -/
def authorService.CreateAuthor {σ : Type} (s : authorService σ)
    (req : dto.CreateAuthorRequest) (w : World σ) :
    Outcome (Option entity.Author × Option GoError) × World σ :=
  let author := entity.Author.mk UUID.Nil req.Name [] time.Time.zero time.Time.zero
  let r := s.repository.callCreate author w
  (.ok r.1, r.2)

/-- The method `authorService.GetAuthorByID`. -/
def authorService.GetAuthorByID {σ : Type} (s : authorService σ) (authorID : UUID)
    (w : World σ) : Outcome (Option entity.Author × Option GoError) × World σ :=
  let r := s.repository.callGetByID authorID w
  match r.1 with
  | (_, some err) => (.ok (none, some err), r.2)
  | (author, none) => (.ok (author, none), r.2)

end author

namespace book

/-- The struct `bookService` (its logger is never used by its methods). -/
structure bookService (σ : Type) where
  repository : BookRepository σ
  authorRepository : author.AuthorRepository σ

/-- The method `bookService.CreateBook`. -/
def bookService.CreateBook {σ : Type} (uuid : UUIDPackage) (s : bookService σ)
    (req : dto.CreateBookRequest) (w : World σ) :
    Outcome (Option entity.Book × Option GoError) × World σ :=
  match uuid.Parse req.AuthorID with
  | none => (.ok (none, some ErrInvalidAuthorId), w)
  | some authorID =>
    let r := s.authorRepository.callGetByID authorID w
    match r.1 with
    | (_, some _) => (.ok (none, some author.ErrNotFound), r.2)
    | (none, none) => (.panic, r.2)
    | (some authorExist, none) =>
      let book := entity.Book.mk UUID.Nil req.Title req.Description (some authorExist.ID)
        none time.Time.zero time.Time.zero
      let c := s.repository.callCreate book r.2
      (.ok c.1, c.2)

/-- The method `bookService.GetAllBooks`. -/
def bookService.GetAllBooks {σ : Type} (s : bookService σ) (w : World σ) :
    Outcome (List (Option entity.Book) × Option GoError) × World σ :=
  let r := s.repository.callGetAll w
  match r.1 with
  | (_, some err) => (.ok ([], some err), r.2)
  | (books, none) =>
    if books.length = 0 then (.ok ([], some ErrNotFound), r.2)
    else (.ok (books, none), r.2)

/-- The method `bookService.GetBookByID`. -/
def bookService.GetBookByID {σ : Type} (s : bookService σ) (bookID : UUID) (w : World σ) :
    Outcome (Option entity.Book × Option GoError) × World σ :=
  let r := s.repository.callGetByID bookID w
  match r.1 with
  | (_, some err) => (.ok (none, some err), r.2)
  | (book, none) => (.ok (book, none), r.2)

/-- The method `bookService.UpdateBook`. -/
def bookService.UpdateBook {σ : Type} (s : bookService σ) (req : dto.UpdateBookRequest)
    (bookID : UUID) (w : World σ) :
    Outcome (Option entity.Book × Option GoError) × World σ :=
  let r := s.repository.callGetByID bookID w
  match r.1 with
  | (_, some err) => (.ok (none, some err), r.2)
  | (none, none) => (.panic, r.2)
  | (some book, none) =>
    let book := book.setTitle req.Description
    let u := s.repository.callUpdate book r.2
    (.ok u.1, u.2)

/-- The method `bookService.DeleteBook`. -/
def bookService.DeleteBook {σ : Type} (s : bookService σ) (bookID : UUID) (w : World σ) :
    Outcome (Option GoError) × World σ :=
  let r := s.repository.callGetByID bookID w
  match r.1 with
  | (_, some err) => (.ok (some err), r.2)
  | (_, none) =>
    let d := s.repository.callDelete bookID r.2
    (.ok d.1, d.2)

end book

/-! ## Response DTOs and envelopes -/

namespace response

/-- The struct `response.SuccessResponse`. -/
structure SuccessResponse where
  Status : String
  Message : String
deriving DecidableEq, Repr

/-- The struct `response.ErrorResponse`. -/
structure ErrorResponse where
  Status : String
  Message : String
deriving DecidableEq, Repr

/-- The struct `response.ValidationErrorDetail`. -/
structure ValidationErrorDetail where
  Field : String
  Message : String
deriving DecidableEq, Repr

/-- The struct `response.ValidationErrorResponse`. -/
structure ValidationErrorResponse where
  Status : String
  Message : String
  Errors : List ValidationErrorDetail
deriving DecidableEq, Repr

end response

namespace author.dto

/-- The struct `dto.AuthorResponse`. -/
structure AuthorResponse where
  ID : String
  Name : String
deriving DecidableEq, Repr

/-- The function `dto.ToAuthorResponse`; a nil argument is dereferenced. -/
def ToAuthorResponse (uuid : UUIDPackage) : Option entity.Author → Outcome AuthorResponse
  | none => .panic
  | some author => .ok { ID := uuid.String author.ID, Name := author.Name }

end author.dto

namespace book.dto

/-- The struct `dto.BookResponse`. -/
structure BookResponse where
  ID : String
  Title : String
  Author : Option author.dto.AuthorResponse
deriving DecidableEq, Repr

/-- The function `dto.ToBookResponse`; a nil argument is dereferenced. -/
def ToBookResponse (uuid : UUIDPackage) : Option entity.Book → Outcome BookResponse
  | none => .panic
  | some book =>
    let author : Option author.dto.AuthorResponse :=
      match book.Author with
      | some a => some { ID := uuid.String a.ID, Name := a.Name }
      | none => none
    .ok { ID := uuid.String book.ID, Title := book.Title, Author := author }

/-- The function `dto.ToBooksResponse`: the loop over the slice, left to right. -/
def ToBooksResponse (uuid : UUIDPackage) : List (Option entity.Book) → Outcome (List BookResponse)
  | [] => .ok []
  | book :: rest =>
    match ToBookResponse uuid book with
    | .panic => .panic
    | .ok r =>
      match ToBooksResponse uuid rest with
      | .panic => .panic
      | .ok rs => .ok (r :: rs)

end book.dto

namespace author

/-- The struct `author.AuthorSuccessResponse`. -/
structure AuthorSuccessResponse where
  Status : String
  Message : String
  Author : Option dto.AuthorResponse
deriving DecidableEq, Repr

end author

namespace book

/-- The struct `book.BookSuccessResponse`. -/
structure BookSuccessResponse where
  Status : String
  Message : String
  Book : Option dto.BookResponse
deriving DecidableEq, Repr

/-- The struct `book.BooksSuccessResponse`. -/
structure BooksSuccessResponse where
  Status : String
  Message : String
  Books : List dto.BookResponse
deriving DecidableEq, Repr

end book

/-- The values the program passes as `data any` to `response.JSON`; the body
of a response holds such values, in the order they were encoded. -/
inductive Data where
  | success (v : response.SuccessResponse)
  | error (v : response.ErrorResponse)
  | validationError (v : response.ValidationErrorResponse)
  | author (v : author.AuthorSuccessResponse)
  | book (v : book.BookSuccessResponse)
  | books (v : book.BooksSuccessResponse)
deriving DecidableEq, Repr

/-- An `http.ResponseWriter`, as `httptest.ResponseRecorder` observes it: the
header map, the status code (fixed by the first `WriteHeader`) and the values
written to the body. -/
structure ResponseWriter where
  header : List (String × String)
  code : Option Nat
  body : List Data
deriving DecidableEq, Repr

/-- A fresh response writer: nothing set, nothing written. -/
def ResponseWriter.new : ResponseWriter := { header := [], code := none, body := [] }

/-- The call `w.Header().Set(key, value)`. -/
def ResponseWriter.SetHeader (w : ResponseWriter) (key value : String) : ResponseWriter :=
  { w with header := (key, value) :: w.header.filter (fun p => p.1 != key) }

/-- The call `w.WriteHeader(statusCode)`: once a status code is written, a later call
changes nothing. -/
def ResponseWriter.WriteHeader (w : ResponseWriter) (statusCode : Nat) : ResponseWriter :=
  match w.code with
  | some _ => w
  | none => { w with code := some statusCode }

/-- The call `w.Write(encoding of d)`: writes status 200 first if none is written yet. -/
def ResponseWriter.Write (w : ResponseWriter) (d : Data) : ResponseWriter :=
  { w.WriteHeader 200 with body := w.body ++ [d] }

namespace response

/-- The function `response.JSON`. Encoding one of the `Data` values to the
writer does not fail, so the `http.Error` branch is not taken. -/
def JSON (w : ResponseWriter) (statusCode : Nat) (data : Data) : ResponseWriter :=
  ((w.SetHeader "Content-Type" "application/json").WriteHeader statusCode).Write data

/-- The function `response.Success`. -/
def Success (w : ResponseWriter) (message : String) : ResponseWriter :=
  JSON w 200 (.success { Status := "success", Message := message })

/-- The function `response.Error`. -/
def Error (w : ResponseWriter) (status : Nat) (message : String) : ResponseWriter :=
  JSON w status (.error { Status := "error", Message := message })

/-- The function `response.ValidationError`. -/
def ValidationError (w : ResponseWriter) (errors : List ValidationErrorDetail) :
    ResponseWriter :=
  JSON w 400 (.validationError
    { Status := "error", Message := "Validation failed", Errors := errors })

end response

/-! ## Validation (`internal/validator`) -/

/-- The values the handlers pass as `s any` to `Validator.Struct`. -/
inductive RequestDTO where
  | createAuthor (req : author.dto.CreateAuthorRequest)
  | createBook (req : book.dto.CreateBookRequest)
  | updateBook (req : book.dto.UpdateBookRequest)
deriving DecidableEq, Repr

namespace validator

/-- The struct `Validator`. Its field is the external engine
`*validator.Validate` of `go-playground/validator`, given by what its method
`Struct` returns (`none` is a nil error). -/
structure Validator where
  validate : RequestDTO → Option GoError

/-- The method `Validator.Struct`. -/
def Validator.Struct (v : Validator) (s : RequestDTO) : Option GoError :=
  v.validate s

/-- The function `getErrorMessage`. -/
def getErrorMessage (fe : FieldError) : String :=
  let field := fe.Field
  match fe.Tag with
  | "required" => field ++ " is required"
  | "email" => field ++ " must be a valid email address"
  | "min" => field ++ " must be at least " ++ fe.Param ++ " characters"
  | "max" => field ++ " must be at most " ++ fe.Param ++ " characters"
  | "url" => field ++ " must be a valid URL"
  | "alpha" => field ++ " must contain only letters"
  | "alphanum" => field ++ " must contain only letters and numbers"
  | "numeric" => field ++ " must be a number"
  | "len" => field ++ " must be exactly " ++ fe.Param ++ " characters"
  | "gt" => field ++ " must be greater than " ++ fe.Param
  | "gte" => field ++ " must be greater than or equal to " ++ fe.Param
  | "lt" => field ++ " must be less than " ++ fe.Param
  | "lte" => field ++ " must be less than or equal to " ++ fe.Param
  | _ => field ++ " is invalid"

/-- The call `errors.As(err, &ve)` for `ve` of type `validator.ValidationErrors`: the
first error of that type in the `Unwrap` chain of `err`. -/
def asValidationErrors : GoError → Option (List FieldError)
  | .validationErrors ve => some ve
  | .wrap _ inner => asValidationErrors inner
  | _ => none

/-- The method `Validator.FormatErrors`. -/
def Validator.FormatErrors (_v : Validator) (err : GoError) :
    List response.ValidationErrorDetail :=
  match asValidationErrors err with
  | some ve => ve.map (fun fe => { Field := fe.Field, Message := getErrorMessage fe })
  | none => []

end validator

/-! ## Handlers (`author/handler.go`, `book/handler.go`) -/

/-- An `*http.Request`, as the handlers read it: the URL parameters that
`chi.URLParam(r, key)` returns and the body. -/
structure Request where
  URLParam : String → String
  Body : String

/-- The calls `json.NewDecoder(r.Body).Decode(&req)` of the external package
`encoding/json`, one for each request type the handlers decode into; `none` is
a non-nil error. -/
structure JSONPackage where
  DecodeCreateAuthorRequest : String → Option author.dto.CreateAuthorRequest
  DecodeCreateBookRequest : String → Option book.dto.CreateBookRequest
  DecodeUpdateBookRequest : String → Option book.dto.UpdateBookRequest

/-- The record logged by `logger.Error().Err(err).Msg(msg)`. -/
def World.logError {σ : Type} (world : World σ) (err : GoError) (msg : String) : World σ :=
  { world with log := world.log ++ [{ level := "error", err := some err, msg := msg }] }

namespace author

/-- The interface `author.AuthorService`. -/
structure AuthorService (σ : Type) where
  CreateAuthor : dto.CreateAuthorRequest → World σ →
    Outcome (Option entity.Author × Option GoError) × World σ
  GetAuthorByID : UUID → World σ →
    Outcome (Option entity.Author × Option GoError) × World σ

/-- The constructor `NewAuthorService`: the interface value of an `authorService`. -/
def NewAuthorService {σ : Type} (repository : AuthorRepository σ) : AuthorService σ :=
  { CreateAuthor := authorService.CreateAuthor { repository := repository }
    GetAuthorByID := authorService.GetAuthorByID { repository := repository } }

/-- The struct `AuthorHandler`; its logger writes to `World.log`. -/
structure AuthorHandler (σ : Type) where
  service : AuthorService σ
  validator : validator.Validator

/-- The method `AuthorHandler.handleError`. -/
def AuthorHandler.handleError {σ : Type} (_h : AuthorHandler σ) (w : ResponseWriter)
    (err : GoError) (world : World σ) : ResponseWriter × World σ :=
  if errors.Is err ErrNotFound then
    (response.Error w 404 "Author not found", world)
  else if errors.Is err ErrDuplicate then
    (response.Error w 409 "Author with this name already exists", world)
  else
    (response.Error w 500 "Internal server error", world.logError err "unexpected error")

/-- The method `AuthorHandler.CreateAuthor` (`POST /authors`). -/
def AuthorHandler.CreateAuthor {σ : Type} (uuid : UUIDPackage) (json : JSONPackage)
    (h : AuthorHandler σ) (w : ResponseWriter) (r : Request) (world : World σ) :
    Outcome Unit × ResponseWriter × World σ :=
  match json.DecodeCreateAuthorRequest r.Body with
  | none => (.ok (), response.Error w 400 "Invalid request body", world)
  | some req =>
    match h.validator.Struct (.createAuthor req) with
    | some err => (.ok (), response.ValidationError w (h.validator.FormatErrors err), world)
    | none =>
      match h.service.CreateAuthor req world with
      | (.panic, world1) => (.panic, w, world1)
      | (.ok (_, some err), world1) =>
        let e := h.handleError w err world1
        (.ok (), e.1, e.2)
      | (.ok (author, none), world1) =>
        match dto.ToAuthorResponse uuid author with
        | .panic => (.panic, w, world1)
        | .ok a =>
          (.ok (), response.JSON w 201 (.author
            { Status := "success", Message := "Author created successfully",
              Author := some a }), world1)

/-- The method `AuthorHandler.GetAuthorByID` (`GET /authors/{author_id}`). -/
def AuthorHandler.GetAuthorByID {σ : Type} (uuid : UUIDPackage)
    (h : AuthorHandler σ) (w : ResponseWriter) (r : Request) (world : World σ) :
    Outcome Unit × ResponseWriter × World σ :=
  match uuid.Parse (r.URLParam "author_id") with
  | none => (.ok (), response.Error w 400 "Invalid uuid", world)
  | some authorID =>
    match h.service.GetAuthorByID authorID world with
    | (.panic, world1) => (.panic, w, world1)
    | (.ok (_, some err), world1) =>
      let e := h.handleError w err world1
      (.ok (), e.1, e.2)
    | (.ok (author, none), world1) =>
      match dto.ToAuthorResponse uuid author with
      | .panic => (.panic, w, world1)
      | .ok a =>
        (.ok (), response.JSON w 200 (.author
          { Status := "success", Message := "Author retrieved successfully",
            Author := some a }), world1)

end author

namespace book

/-- The interface `book.BookService`. -/
structure BookService (σ : Type) where
  CreateBook : dto.CreateBookRequest → World σ →
    Outcome (Option entity.Book × Option GoError) × World σ
  GetAllBooks : World σ → Outcome (List (Option entity.Book) × Option GoError) × World σ
  GetBookByID : UUID → World σ → Outcome (Option entity.Book × Option GoError) × World σ
  UpdateBook : dto.UpdateBookRequest → UUID → World σ →
    Outcome (Option entity.Book × Option GoError) × World σ
  DeleteBook : UUID → World σ → Outcome (Option GoError) × World σ

/-- The constructor `NewBookService`: the interface value of a `bookService`. -/
def NewBookService {σ : Type} (uuid : UUIDPackage) (repository : BookRepository σ)
    (authorRepository : author.AuthorRepository σ) : BookService σ :=
  { CreateBook := bookService.CreateBook uuid ⟨repository, authorRepository⟩
    GetAllBooks := bookService.GetAllBooks ⟨repository, authorRepository⟩
    GetBookByID := bookService.GetBookByID ⟨repository, authorRepository⟩
    UpdateBook := bookService.UpdateBook ⟨repository, authorRepository⟩
    DeleteBook := bookService.DeleteBook ⟨repository, authorRepository⟩ }

/-- The struct `BookHandler`; its logger writes to `World.log`. -/
structure BookHandler (σ : Type) where
  service : BookService σ
  validator : validator.Validator

/-- The method `BookHandler.handleError`. -/
def BookHandler.handleError {σ : Type} (_h : BookHandler σ) (w : ResponseWriter)
    (err : GoError) (world : World σ) : ResponseWriter × World σ :=
  if errors.Is err ErrNotFound then
    (response.Error w 404 "Book not found", world)
  else if errors.Is err ErrDuplicate then
    (response.Error w 409 "Book with this name already exists", world)
  else if errors.Is err ErrInvalidAuthorId then
    (response.Error w 400 "invalid author ID", world)
  else if errors.Is err author.ErrNotFound then
    (response.Error w 404 "Author not found", world)
  else
    (response.Error w 500 "Internal server error", world.logError err "unexpected error")

/-- The method `BookHandler.GetAllBooks` (`GET /books`); it reads nothing of
the request but its context. -/
def BookHandler.GetAllBooks {σ : Type} (uuid : UUIDPackage) (h : BookHandler σ)
    (w : ResponseWriter) (world : World σ) : Outcome Unit × ResponseWriter × World σ :=
  match h.service.GetAllBooks world with
  | (.panic, world1) => (.panic, w, world1)
  | (.ok (_, some err), world1) =>
    let e := h.handleError w err world1
    (.ok (), e.1, e.2)
  | (.ok (books, none), world1) =>
    match dto.ToBooksResponse uuid books with
    | .panic => (.panic, w, world1)
    | .ok responses =>
      (.ok (), response.JSON w 200 (.books
        { Status := "success", Message := "Books retrieved successfully",
          Books := responses }), world1)

/-- The method `BookHandler.CreateBook` (`POST /books`). -/
def BookHandler.CreateBook {σ : Type} (uuid : UUIDPackage) (json : JSONPackage)
    (h : BookHandler σ) (w : ResponseWriter) (r : Request) (world : World σ) :
    Outcome Unit × ResponseWriter × World σ :=
  match json.DecodeCreateBookRequest r.Body with
  | none => (.ok (), response.Error w 400 "Invalid request body", world)
  | some req =>
    match h.validator.Struct (.createBook req) with
    | some err => (.ok (), response.ValidationError w (h.validator.FormatErrors err), world)
    | none =>
      match h.service.CreateBook req world with
      | (.panic, world1) => (.panic, w, world1)
      | (.ok (_, some err), world1) =>
        let e := h.handleError w err world1
        (.ok (), e.1, e.2)
      | (.ok (book, none), world1) =>
        match dto.ToBookResponse uuid book with
        | .panic => (.panic, w, world1)
        | .ok b =>
          (.ok (), response.JSON w 201 (.book
            { Status := "success", Message := "Book created successfully",
              Book := some b }), world1)

/-- The method `BookHandler.GetBookByID` (`GET /books/{book_id}`). The branch
`if err != nil` calls `handleError` and does not return: the statements after
it run in either case, on the writer and the world that branch left. -/
def BookHandler.GetBookByID {σ : Type} (uuid : UUIDPackage) (h : BookHandler σ)
    (w : ResponseWriter) (r : Request) (world : World σ) :
    Outcome Unit × ResponseWriter × World σ :=
  match uuid.Parse (r.URLParam "book_id") with
  | none => (.ok (), response.Error w 400 "Invalid uuid", world)
  | some bookID =>
    match h.service.GetBookByID bookID world with
    | (.panic, world1) => (.panic, w, world1)
    | (.ok (book, err), world1) =>
      let e : ResponseWriter × World σ :=
        match err with
        | some err => h.handleError w err world1
        | none => (w, world1)
      match dto.ToBookResponse uuid book with
      | .panic => (.panic, e.1, e.2)
      | .ok b =>
        (.ok (), response.JSON e.1 200 (.book
          { Status := "success", Message := "Book retrieved successfully",
            Book := some b }), e.2)

/-- The method `BookHandler.UpdateBook` (`PUT /books/{book_id}`). -/
def BookHandler.UpdateBook {σ : Type} (uuid : UUIDPackage) (json : JSONPackage)
    (h : BookHandler σ) (w : ResponseWriter) (r : Request) (world : World σ) :
    Outcome Unit × ResponseWriter × World σ :=
  match uuid.Parse (r.URLParam "book_id") with
  | none => (.ok (), response.Error w 400 "Invalid uuid", world)
  | some bookID =>
    match json.DecodeUpdateBookRequest r.Body with
    | none => (.ok (), response.Error w 400 "Invalid request body", world)
    | some req =>
      match h.validator.Struct (.updateBook req) with
      | some err =>
        (.ok (), response.ValidationError w (h.validator.FormatErrors err), world)
      | none =>
        match h.service.UpdateBook req bookID world with
        | (.panic, world1) => (.panic, w, world1)
        | (.ok (_, some err), world1) =>
          let e := h.handleError w err world1
          (.ok (), e.1, e.2)
        | (.ok (book, none), world1) =>
          match dto.ToBookResponse uuid book with
          | .panic => (.panic, w, world1)
          | .ok b =>
            (.ok (), response.JSON w 200 (.book
              { Status := "success", Message := "Book updated successfully",
                Book := some b }), world1)

/-- The method `BookHandler.DeleteBook`. -/
def BookHandler.DeleteBook {σ : Type} (uuid : UUIDPackage) (h : BookHandler σ)
    (w : ResponseWriter) (r : Request) (world : World σ) :
    Outcome Unit × ResponseWriter × World σ :=
  match uuid.Parse (r.URLParam "book_id") with
  | none => (.ok (), response.Error w 400 "Invalid uuid", world)
  | some bookID =>
    match h.service.DeleteBook bookID world with
    | (.panic, world1) => (.panic, w, world1)
    | (.ok (some err), world1) =>
      let e := h.handleError w err world1
      (.ok (), e.1, e.2)
    | (.ok none, world1) => (.ok (), response.Success w "Book deleted successfully", world1)

/-- The method `BookHandler.AuthTestRoute` (`GET /books/secure`). -/
def BookHandler.AuthTestRoute {σ : Type} (_h : BookHandler σ) (w : ResponseWriter)
    (world : World σ) : Outcome Unit × ResponseWriter × World σ :=
  (.ok (), response.Success w "ok", world)

end book

/-- The writer `w1` is the writer `w` after one error envelope
`{status: "error", message}` was written to it with status code `status`. -/
def AnswersError (w w1 : ResponseWriter) (status : Nat) (message : String) : Prop :=
  w1.code = some status ∧
    w1.body = w.body ++ [Data.error { Status := "error", Message := message }]

/-- The run `res` of a handler returned, answered the writer `w` with one
error envelope and left the world as it was: no call recorded, the store
untouched, nothing logged. -/
def RejectsWith {σ : Type} (w : ResponseWriter) (world : World σ)
    (res : Outcome Unit × ResponseWriter × World σ) (status : Nat) (message : String) : Prop :=
  res.1 = Outcome.ok () ∧ AnswersError w res.2.1 status message ∧ res.2.2 = world

/-- The writer `w1` is the writer `w` after the one value `data` was written
to it with status code `status`. -/
def AnswersWith (w w1 : ResponseWriter) (status : Nat) (data : Data) : Prop :=
  w1.code = some status ∧ w1.body = w.body ++ [data]

/-! ## The persistence layer (`entity` hooks, `author/repository.go`, `book/repository.go`) -/

/-- The function `uuid.New` of the external package `github.com/google/uuid`:
it draws a new identifier from the random source, which is part of the
external state `σ`. -/
structure UUIDGenerator (σ : Type) where
  New : σ → UUID × σ

namespace entity

/-- The method `(*Author).BeforeCreate`: `a.ID = uuid.New()`, `return nil`. -/
def Author.BeforeCreate {σ : Type} (gen : UUIDGenerator σ) (a : Author) (st : σ) :
    (Author × Option GoError) × σ :=
  ((Author.mk (gen.New st).1 a.Name a.Book a.CreatedAt a.UpdatedAt, none), (gen.New st).2)

/-- The method `(*Book).BeforeCreate`: `b.ID = uuid.New()`, `return nil`. -/
def Book.BeforeCreate {σ : Type} (gen : UUIDGenerator σ) (b : Book) (st : σ) :
    (Book × Option GoError) × σ :=
  ((Book.mk (gen.New st).1 b.Title b.Description b.AuthorID b.Author b.CreatedAt b.UpdatedAt,
    none), (gen.New st).2)

end entity

namespace gorm

/-- The external `*gorm.DB`, by the call chains the repositories make on it.
Each field returns what the chain leaves in `.Error` (`none` is nil; the
configuration sets `TranslateError`, so a unique-key violation arrives as
`gorm.ErrDuplicatedKey`) and, where the chain writes through the pointer it is
given, the value it leaves there.

* `insertAuthor`, `insertBook`: what `Create(value)` does once the
  `BeforeCreate` hook of the value has run: time stamps, associations, the
  `INSERT` itself.
* `firstAuthor`: `First(&author, "id = ?", id)`.
* `findBooks`: `Preload("Author").Find(&books)`.
* `firstBook`: `Preload("Author").First(&book, "id = ?", id)`.
* `saveBook`: `Save(book)`.
* `deleteBook`: `Where("id = ?", id).Delete(&entity.Book{})`. -/
structure DB (σ : Type) where
  insertAuthor : entity.Author → σ → (entity.Author × Option GoError) × σ
  insertBook : entity.Book → σ → (entity.Book × Option GoError) × σ
  firstAuthor : UUID → σ → (Option entity.Author × Option GoError) × σ
  findBooks : σ → (List (Option entity.Book) × Option GoError) × σ
  firstBook : UUID → σ → (Option entity.Book × Option GoError) × σ
  saveBook : entity.Book → σ → (entity.Book × Option GoError) × σ
  deleteBook : UUID → σ → Option GoError × σ

/-- The chain `db.WithContext(ctx).Create(value)` for an `*entity.Author`: gorm
calls the `BeforeCreate` hook of the value; an error of the hook ends the
call, otherwise the value is inserted. -/
def DB.CreateAuthor {σ : Type} (gen : UUIDGenerator σ) (db : DB σ) (value : entity.Author)
    (st : σ) : (entity.Author × Option GoError) × σ :=
  match (value.BeforeCreate gen st).1.2 with
  | some err => (((value.BeforeCreate gen st).1.1, some err), (value.BeforeCreate gen st).2)
  | none => db.insertAuthor (value.BeforeCreate gen st).1.1 (value.BeforeCreate gen st).2

/-- The chain `db.WithContext(ctx).Create(value)` for an `*entity.Book`: gorm
calls the `BeforeCreate` hook of the value; an error of the hook ends the
call, otherwise the value is inserted. -/
def DB.CreateBook {σ : Type} (gen : UUIDGenerator σ) (db : DB σ) (value : entity.Book)
    (st : σ) : (entity.Book × Option GoError) × σ :=
  match (value.BeforeCreate gen st).1.2 with
  | some err => (((value.BeforeCreate gen st).1.1, some err), (value.BeforeCreate gen st).2)
  | none => db.insertBook (value.BeforeCreate gen st).1.1 (value.BeforeCreate gen st).2

end gorm

/-- The state behind the two repositories: the external state of the
database and the records their logger has written. -/
structure Backend (σ : Type) where
  db : σ
  log : List LogEntry

/-- The record logged by `r.logger.Error().Err(err).Msg(msg)`. -/
def Backend.logError {σ : Type} (st : Backend σ) (err : GoError) (msg : String) : Backend σ :=
  { st with log := st.log ++ [{ level := "error", err := some err, msg := msg }] }

namespace author

/-- The struct `authorRepository`; its logger writes to `Backend.log`. -/
structure authorRepository (σ : Type) where
  db : gorm.DB σ

/-- The method `authorRepository.Create`. -/
def authorRepository.Create {σ : Type} (gen : UUIDGenerator σ) (r : authorRepository σ)
    (newAuthor : entity.Author) (st : Backend σ) :
    (Option entity.Author × Option GoError) × Backend σ :=
  match (r.db.CreateAuthor gen newAuthor st.db).1.2 with
  | some err =>
    if errors.Is err gorm.ErrDuplicatedKey then
      ((none, some ErrDuplicate), { st with db := (r.db.CreateAuthor gen newAuthor st.db).2 })
    else
      ((none, some err),
        ({ st with db := (r.db.CreateAuthor gen newAuthor st.db).2 } : Backend σ).logError err
          "database error")
  | none =>
    ((some (r.db.CreateAuthor gen newAuthor st.db).1.1, none),
      { st with db := (r.db.CreateAuthor gen newAuthor st.db).2 })

/-- The method `authorRepository.GetByID`. -/
def authorRepository.GetByID {σ : Type} (r : authorRepository σ) (authorID : UUID)
    (st : Backend σ) : (Option entity.Author × Option GoError) × Backend σ :=
  match (r.db.firstAuthor authorID st.db).1.2 with
  | some err =>
    if errors.Is err gorm.ErrRecordNotFound then
      ((none, some ErrNotFound), { st with db := (r.db.firstAuthor authorID st.db).2 })
    else
      ((none, some err),
        ({ st with db := (r.db.firstAuthor authorID st.db).2 } : Backend σ).logError err
          "database error")
  | none =>
    (((r.db.firstAuthor authorID st.db).1.1, none),
      { st with db := (r.db.firstAuthor authorID st.db).2 })

/-- The constructor `NewAuthorRepository`: the interface value of an
`authorRepository`. -/
def NewAuthorRepository {σ : Type} (gen : UUIDGenerator σ) (db : gorm.DB σ) :
    AuthorRepository (Backend σ) :=
  { Create := authorRepository.Create gen { db := db }
    GetByID := authorRepository.GetByID { db := db } }

end author

namespace book

/-- The struct `bookRepository`; its logger writes to `Backend.log`. -/
structure bookRepository (σ : Type) where
  db : gorm.DB σ

/-- The method `bookRepository.Create`. -/
def bookRepository.Create {σ : Type} (gen : UUIDGenerator σ) (r : bookRepository σ)
    (newBook : entity.Book) (st : Backend σ) :
    (Option entity.Book × Option GoError) × Backend σ :=
  match (r.db.CreateBook gen newBook st.db).1.2 with
  | some err =>
    if errors.Is err gorm.ErrDuplicatedKey then
      ((none, some ErrDuplicate),
        ({ st with db := (r.db.CreateBook gen newBook st.db).2 } : Backend σ).logError err
          "record already exist in database")
    else
      ((none, some err),
        ({ st with db := (r.db.CreateBook gen newBook st.db).2 } : Backend σ).logError err
          "database error")
  | none =>
    ((some (r.db.CreateBook gen newBook st.db).1.1, none),
      { st with db := (r.db.CreateBook gen newBook st.db).2 })

/-- The method `bookRepository.GetAll`. -/
def bookRepository.GetAll {σ : Type} (r : bookRepository σ) (st : Backend σ) :
    (List (Option entity.Book) × Option GoError) × Backend σ :=
  match (r.db.findBooks st.db).1.2 with
  | some err =>
    (([], some err),
      ({ st with db := (r.db.findBooks st.db).2 } : Backend σ).logError err
        "error when retreive books on database ")
  | none => (((r.db.findBooks st.db).1.1, none), { st with db := (r.db.findBooks st.db).2 })

/-- The method `bookRepository.GetByID`. -/
def bookRepository.GetByID {σ : Type} (r : bookRepository σ) (bookID : UUID)
    (st : Backend σ) : (Option entity.Book × Option GoError) × Backend σ :=
  match (r.db.firstBook bookID st.db).1.2 with
  | some err =>
    if errors.Is err gorm.ErrRecordNotFound then
      ((none, some ErrNotFound), { st with db := (r.db.firstBook bookID st.db).2 })
    else
      ((none, some err), { st with db := (r.db.firstBook bookID st.db).2 })
  | none =>
    (((r.db.firstBook bookID st.db).1.1, none),
      { st with db := (r.db.firstBook bookID st.db).2 })

/-- The method `bookRepository.Update`. -/
def bookRepository.Update {σ : Type} (r : bookRepository σ) (book : entity.Book)
    (st : Backend σ) : (Option entity.Book × Option GoError) × Backend σ :=
  match (r.db.saveBook book st.db).1.2 with
  | some err => ((none, some err), { st with db := (r.db.saveBook book st.db).2 })
  | none =>
    ((some (r.db.saveBook book st.db).1.1, none),
      { st with db := (r.db.saveBook book st.db).2 })

/-- The method `bookRepository.Delete`. -/
def bookRepository.Delete {σ : Type} (r : bookRepository σ) (bookID : UUID)
    (st : Backend σ) : Option GoError × Backend σ :=
  match (r.db.deleteBook bookID st.db).1 with
  | some err => (some err, { st with db := (r.db.deleteBook bookID st.db).2 })
  | none => (none, { st with db := (r.db.deleteBook bookID st.db).2 })

/-- The constructor `NewBookRepository`: the interface value of a
`bookRepository`. -/
def NewBookRepository {σ : Type} (gen : UUIDGenerator σ) (db : gorm.DB σ) :
    BookRepository (Backend σ) :=
  { Create := bookRepository.Create gen { db := db }
    GetAll := bookRepository.GetAll { db := db }
    GetByID := bookRepository.GetByID { db := db }
    Update := bookRepository.Update { db := db }
    Delete := bookRepository.Delete { db := db } }

end book

/-! ## The route table of the book handler (`book/handler.go`) -/

namespace book

/-- The methods of `BookHandler` that have the signature of an
`http.HandlerFunc`. -/
inductive HandlerFunc where
  | CreateBook
  | GetAllBooks
  | GetBookByID
  | UpdateBook
  | DeleteBook
  | AuthTestRoute
deriving DecidableEq, Repr

/-- One registration on the chi router, `r.Post(pattern, handler)` and the
like: the HTTP method, the pattern and the handler. -/
structure Route where
  method : String
  pattern : String
  handler : HandlerFunc
deriving DecidableEq, Repr

/-- The method `BookHandler.Routes`: the registrations it makes on the new
router, in the order of the source. -/
def BookHandler.Routes {σ : Type} (_h : BookHandler σ) : List Route :=
  [ { method := "POST", pattern := "/", handler := .CreateBook },
    { method := "GET", pattern := "/", handler := .GetAllBooks },
    { method := "GET", pattern := "/{book_id}", handler := .GetBookByID },
    { method := "PUT", pattern := "/{book_id}", handler := .UpdateBook },
    { method := "GET", pattern := "/secure", handler := .AuthTestRoute } ]

end book

namespace chi

/-- The external chi router, by the registration it selects for the method
and the path of a request among those made on it; `none` when it answers the
request itself (404 or 405). -/
structure Mux where
  find : List book.Route → String → String → Option book.Route

end chi

/-! ## The logger (`internal/config`, `internal/logger`) -/

namespace config

/-- The struct `config.ApiConfig`. -/
structure ApiConfig where
  Environement : String
  Host : String
  Port : Int
deriving DecidableEq, Repr

/-- The struct `config.LogConfig`. -/
structure LogConfig where
  Level : String
  Format : String
deriving DecidableEq, Repr

/-- The struct `config.DatabaseConfig`. -/
structure DatabaseConfig where
  Host : String
  Port : Int
  User : String
  Password : String
  Name : String
  LogLevel : String
deriving DecidableEq, Repr

/-- The struct `config.Config`. -/
structure Config where
  Api : ApiConfig
  Log : LogConfig
  Database : DatabaseConfig
deriving DecidableEq, Repr

end config

namespace zerolog

/-- The type `zerolog.Level`. -/
inductive Level where
  | DebugLevel
  | InfoLevel
  | WarnLevel
  | ErrorLevel
  | FatalLevel
  | PanicLevel
  | NoLevel
  | Disabled
  | TraceLevel
deriving DecidableEq, Repr

/-- A `*time.Location`, by its name. -/
structure Location where
  name : String
deriving DecidableEq, Repr

/-- A `zerolog.ConsoleWriter` on `os.Stderr`. -/
structure ConsoleWriter where
  TimeLocation : Location
  TimeFormat : String
deriving DecidableEq, Repr

/-- A `zerolog.Logger` on `os.Stderr`: whether it adds the time stamp and the
caller to each record, and the console writer it formats its output with, if
any. -/
structure Logger where
  timestamp : Bool
  caller : Bool
  console : Option ConsoleWriter
deriving DecidableEq, Repr

/-- The package-level state of zerolog that `NewLogger` writes: the global
level and `CallerMarshalFunc`, which is given the file and the line (the
program counter is not read). -/
structure Globals where
  level : Level
  CallerMarshalFunc : String → Int → String

end zerolog

namespace logger

/-- The external functions that `NewLogger` calls: `zerolog.ParseLevel`,
`filepath.Base`, `time.LoadLocation` (`none` is a non-nil error) and the
location `time.Local`. -/
structure Externals where
  ParseLevel : String → Option zerolog.Level
  Base : String → String
  LoadLocation : String → Option zerolog.Location
  Local : zerolog.Location

/-- The function `logger.NewLogger`; `strconv.Itoa(line)` is the decimal form
of `line`. -/
def NewLogger (ext : Externals) (cfg : config.Config) (g : zerolog.Globals) :
    (zerolog.Logger × Option GoError) × zerolog.Globals :=
  let level : zerolog.Level :=
    match ext.ParseLevel cfg.Log.Level with
    | some level => level
    | none => zerolog.Level.InfoLevel
  let g1 : zerolog.Globals := { g with level := level }
  let g2 : zerolog.Globals :=
    { g1 with CallerMarshalFunc := fun file line => ext.Base file ++ ":" ++ toString line }
  let logger : zerolog.Logger := { timestamp := true, caller := true, console := none }
  let loc : zerolog.Location :=
    match ext.LoadLocation "Europe/Paris" with
    | some loc => loc
    | none => ext.Local
  if cfg.Log.Format = "text" then
    (({ logger with
        console := some { TimeLocation := loc, TimeFormat := "15:04:05 02/01/2006" } }, none),
      g2)
  else ((logger, none), g2)

end logger

/-! ## Fixtures: a UUID package and repositories to run the definitions on -/

namespace sample

/-- The value of one hexadecimal digit. -/
def hexValue (c : Char) : Option Nat :=
  if 48 ≤ c.toNat ∧ c.toNat ≤ 57 then some (c.toNat - 48)
  else if 97 ≤ c.toNat ∧ c.toNat ≤ 102 then some (c.toNat - 87)
  else if 65 ≤ c.toNat ∧ c.toNat ≤ 70 then some (c.toNat - 55)
  else none

/-- Reads the form `xxxxxxxx-xxxx-xxxx-xxxx-xxxxxxxxxxxx` from position `i` on. -/
def parseFrom : List Char → Nat → Nat → Option Nat
  | [], i, acc => if i = 36 then some acc else none
  | c :: cs, i, acc =>
    if i = 8 ∨ i = 13 ∨ i = 18 ∨ i = 23 then
      if c = '-' then parseFrom cs (i + 1) acc else none
    else
      match hexValue c with
      | some d => parseFrom cs (i + 1) (acc * 16 + d)
      | none => none

/-- The lower-case hexadecimal digit of a value below sixteen. -/
def hexChar (d : Nat) : Char :=
  if d < 10 then Char.ofNat (48 + d) else Char.ofNat (87 + d)

/-- The last `k` hexadecimal digits of `n`, most significant first. -/
def hexDigits (n : Nat) : Nat → List Char
  | 0 => []
  | k + 1 => hexDigits (n / 16) k ++ [hexChar (n % 16)]

/-- The 36-character form of a 128-bit value. -/
def format (n : Nat) : String :=
  let d := hexDigits n 32
  String.mk (d.take 8 ++ ['-'] ++ (d.drop 8).take 4 ++ ['-'] ++ (d.drop 12).take 4 ++ ['-']
    ++ (d.drop 16).take 4 ++ ['-'] ++ d.drop 20)

/-- A UUID package that reads and writes the 36-character form. -/
def uuid : UUIDPackage :=
  { Parse := fun s => (parseFrom s.toList 0 0).map UUID.mk
    String := fun u => format u.val }

/-- The identifier `00000000-0000-0000-0000-00000000002a`. -/
def id42 : UUID := ⟨42⟩

/-- An author with identifier `id42`. -/
def tolkien : entity.Author :=
  .mk id42 "J.R.R. Tolkien" [] time.Time.zero time.Time.zero

/-- A stored book, written by `tolkien`. -/
def hobbit : entity.Book :=
  .mk ⟨7⟩ "The Hobbit" "There and back again" (some id42) (some tolkien)
    time.Time.zero time.Time.zero

/-- An author repository over a list of authors: `Create` appends, `GetByID`
looks the identifier up. -/
def authorRepository : author.AuthorRepository (List entity.Author) :=
  { Create := fun a st => ((some a, none), st ++ [a])
    GetByID := fun id st =>
      match st.find? (fun a => a.ID == id) with
      | some a => ((some a, none), st)
      | none => ((none, some author.ErrNotFound), st) }

/-- An author repository whose every call fails with a connection error. -/
def brokenAuthorRepository : author.AuthorRepository (List entity.Author) :=
  { Create := fun _ st => ((none, some (.other "connection refused")), st)
    GetByID := fun _ st => ((none, some (.other "connection refused")), st) }

/-- A book repository that keeps no books: reads find nothing, writes succeed
and return their argument. -/
def emptyBookRepository : book.BookRepository (List entity.Author) :=
  { Create := fun b st => ((some b, none), st)
    GetAll := fun st => (([], none), st)
    GetByID := fun _ st => ((none, some book.ErrNotFound), st)
    Update := fun b st => ((some b, none), st)
    Delete := fun _ st => (none, st) }

/-- A book repository that holds the one book `hobbit`. -/
def hobbitBookRepository : book.BookRepository (List entity.Author) :=
  { Create := fun _ st => ((none, some book.ErrDuplicate), st)
    GetAll := fun st => (([some hobbit], none), st)
    GetByID := fun id st =>
      if id = hobbit.ID then ((some hobbit, none), st) else ((none, some book.ErrNotFound), st)
    Update := fun b st => ((some b, none), st)
    Delete := fun _ st => (none, st) }

/-- A book repository whose every call fails with a connection error. -/
def brokenBookRepository : book.BookRepository (List entity.Author) :=
  { Create := fun _ st => ((none, some (.other "connection refused")), st)
    GetAll := fun st => (([], some (.other "connection refused")), st)
    GetByID := fun _ st => ((none, some (.other "connection refused")), st)
    Update := fun _ st => ((none, some (.other "connection refused")), st)
    Delete := fun _ st => (some (.other "connection refused"), st) }

/-- A validation engine that enforces the `required` tags of the request
types: a field that is the empty string is reported. -/
def validator : validator.Validator :=
  { validate := fun s =>
      let required (field value : String) : List FieldError :=
        if value = "" then [{ Field := field, Tag := "required", Param := "" }] else []
      let ve := match s with
        | .createAuthor req => required "Name" req.Name
        | .createBook req => required "Title" req.Title ++
            required "Description" req.Description ++ required "AuthorID" req.AuthorID
        | .updateBook req => required "Description" req.Description
      if ve = [] then none else some (.validationErrors ve) }

/-- A decoder that rejects the empty body, reads the body `{}` as the request
with every field empty and any other body as the text of every field of the
request. -/
def json : JSONPackage :=
  { DecodeCreateAuthorRequest := fun body =>
      if body = "" then none
      else if body = "{}" then some { Name := "" }
      else some { Name := body }
    DecodeCreateBookRequest := fun body =>
      if body = "" then none
      else if body = "{}" then some { Title := "", Description := "", AuthorID := "" }
      else some { Title := body, Description := body, AuthorID := body }
    DecodeUpdateBookRequest := fun body =>
      if body = "" then none
      else if body = "{}" then some { Description := "" }
      else some { Description := body } }

/-- A world whose store holds the author `tolkien`; no call made, nothing logged. -/
def world : World (List entity.Author) := { store := [tolkien], calls := [], log := [] }

/-- The book handler over the book repository `hobbitBookRepository`. -/
def bookHandler : book.BookHandler (List entity.Author) :=
  { service := book.NewBookService uuid hobbitBookRepository authorRepository
    validator := validator }

/-- The book handler over the book repository that keeps no books. -/
def emptyBookHandler : book.BookHandler (List entity.Author) :=
  { service := book.NewBookService uuid emptyBookRepository authorRepository
    validator := validator }

/-- The author handler over the author repository `authorRepository`. -/
def authorHandler : author.AuthorHandler (List entity.Author) :=
  { service := author.NewAuthorService authorRepository
    validator := validator }

/-- An author handler whose service answers every call with `err`. -/
def failingAuthorHandler (err : GoError) : author.AuthorHandler (List entity.Author) :=
  { service :=
      { CreateAuthor := fun _ world => (.ok (none, some err), world)
        GetAuthorByID := fun _ world => (.ok (none, some err), world) }
    validator := validator }

/-- A request with the given body and the given value for every URL parameter. -/
def request (param body : String) : Request :=
  { URLParam := fun _ => param, Body := body }

/-- The external state of a database with two tables and a random source
that counts. -/
structure Tables where
  authors : List entity.Author
  books : List entity.Book
  drawn : Nat

/-- A generator that returns the identifiers 1, 2, 3, ... -/
def generator : UUIDGenerator Tables :=
  { New := fun t => (⟨t.drawn + 1⟩, { t with drawn := t.drawn + 1 }) }

/-- A database over `Tables`: author names and book titles are unique keys. -/
def db : gorm.DB Tables :=
  { insertAuthor := fun a t =>
      if t.authors.any (fun x => x.Name == a.Name) then
        ((a, some gorm.ErrDuplicatedKey), t)
      else ((a, none), { t with authors := t.authors ++ [a] })
    insertBook := fun b t =>
      if t.books.any (fun x => x.Title == b.Title) then
        ((b, some gorm.ErrDuplicatedKey), t)
      else ((b, none), { t with books := t.books ++ [b] })
    firstAuthor := fun id t =>
      match t.authors.find? (fun x => x.ID == id) with
      | some a => ((some a, none), t)
      | none => ((none, some gorm.ErrRecordNotFound), t)
    findBooks := fun t => ((t.books.map some, none), t)
    firstBook := fun id t =>
      match t.books.find? (fun x => x.ID == id) with
      | some b => ((some b, none), t)
      | none => ((none, some gorm.ErrRecordNotFound), t)
    saveBook := fun b t =>
      if t.books.any (fun x => x.Title == b.Title && x.ID != b.ID) then
        ((b, some gorm.ErrDuplicatedKey), t)
      else ((b, none), { t with books := t.books.filter (fun x => x.ID != b.ID) ++ [b] })
    deleteBook := fun id t => (none, { t with books := t.books.filter (fun x => x.ID != id) }) }

/-- A database whose every call fails with `invalid db`. -/
def brokenDB : gorm.DB Tables :=
  { insertAuthor := fun a t => ((a, some (.other "invalid db")), t)
    insertBook := fun b t => ((b, some (.other "invalid db")), t)
    firstAuthor := fun _ t => ((none, some (.other "invalid db")), t)
    findBooks := fun t => (([], some (.other "invalid db")), t)
    firstBook := fun _ t => ((none, some (.other "invalid db")), t)
    saveBook := fun b t => ((b, some (.other "invalid db")), t)
    deleteBook := fun _ t => (some (.other "invalid db"), t) }

/-- A backend that stores the author `tolkien` and the book `hobbit`. -/
def backend : Backend Tables :=
  { db := { authors := [tolkien], books := [hobbit], drawn := 100 }, log := [] }

/-- A book handler whose service answers every call with the book `b` and
the error `err`. -/
def stubBookHandler (b : Option entity.Book) (err : Option GoError) :
    book.BookHandler (List entity.Author) :=
  { service :=
      { CreateBook := fun _ world => (.ok (b, err), world)
        GetAllBooks := fun world => (.ok ([b], err), world)
        GetBookByID := fun _ world => (.ok (b, err), world)
        UpdateBook := fun _ _ world => (.ok (b, err), world)
        DeleteBook := fun _ world => (.ok err, world) }
    validator := validator }

/-- A router that selects the first registration with the request's method
whose pattern is the path itself or, failing that, the first one with that
method whose pattern is a parameter, for a path of one segment. -/
def mux : chi.Mux :=
  { find := fun routes method path =>
      match routes.find? (fun r => r.method == method && r.pattern == path) with
      | some r => some r
      | none =>
        if path != "/" then
          routes.find? (fun r => r.method == method && r.pattern == "/{book_id}")
        else none }

/-- The level names `debug`, `info`, `warn` and `error`, the base name of a
path as the path itself, and the location `Europe/Paris`. -/
def externals : logger.Externals :=
  { ParseLevel := fun s =>
      if s = "debug" then some .DebugLevel
      else if s = "info" then some .InfoLevel
      else if s = "warn" then some .WarnLevel
      else if s = "error" then some .ErrorLevel
      else none
    Base := fun file => file
    LoadLocation := fun name => if name = "Europe/Paris" then some ⟨name⟩ else none
    Local := ⟨"Local"⟩ }

/-- The configuration with the given log level and the JSON format. -/
def cfg (level : String) : config.Config :=
  { Api := { Environement := "development", Host := "localhost", Port := 8080 }
    Log := { Level := level, Format := "json" }
    Database := { Host := "localhost", Port := 3306, User := "library", Password := "secret",
                  Name := "library", LogLevel := "silent" } }

/-- The state of zerolog before `NewLogger`: the level is `TraceLevel`. -/
def globals : zerolog.Globals :=
  { level := .TraceLevel, CallerMarshalFunc := fun file _ => file }

/-- A second stored book, with the identifier 8. -/
def dune : entity.Book :=
  .mk ⟨8⟩ "Dune" "A desert planet" none none time.Time.zero time.Time.zero

/-- A world over the sample database that stores the author `tolkien` and the
books `hobbit` and `dune`. -/
def library : World (Backend Tables) :=
  { store := { db := { authors := [tolkien], books := [hobbit, dune], drawn := 100 },
               log := [] }
    calls := []
    log := [] }

/-- A decoder that reads every body as the request for a book titled "The
Hobbit" by the author `tolkien`, and as the new description "The Hobbit". -/
def fixedJSON : JSONPackage :=
  { DecodeCreateAuthorRequest := fun _ => some { Name := "J.R.R. Tolkien" }
    DecodeCreateBookRequest := fun _ =>
      some { Title := "The Hobbit", Description := "Again",
             AuthorID := "00000000-0000-0000-0000-00000000002a" }
    DecodeUpdateBookRequest := fun _ => some { Description := "The Hobbit" } }

/-- The book handler over the services over the repositories over the sample
database, as `CreateApi` wires them. -/
def libraryHandler : book.BookHandler (Backend Tables) :=
  { service := book.NewBookService uuid (book.NewBookRepository generator db)
      (author.NewAuthorRepository generator db)
    validator := validator }

/-- The author of the repository tests, `eb21d07a-7ab3-40db-bfd3-448093bc5626`. -/
def victorHugo : entity.Author :=
  .mk ⟨0xeb21d07a7ab340dbbfd3448093bc5626⟩ "Victor Hugo" [] time.Time.zero time.Time.zero

/-- The first book of the `GetAll` test, by `victorHugo`. -/
def bookOne : entity.Book :=
  .mk ⟨0xa1b2c3d4e5f67890123456789abcdef0⟩ "Book One" "Description One"
    (some victorHugo.ID) (some victorHugo) time.Time.zero time.Time.zero

/-- The second book of the `GetAll` test, by `victorHugo`. -/
def bookTwo : entity.Book :=
  .mk ⟨0xb1c2d3e4f5a67890123456789abcdef1⟩ "Book Two" "Description Two"
    (some victorHugo.ID) (some victorHugo) time.Time.zero time.Time.zero

/-- The third book of the `GetAll` test, which has no author. -/
def bookThree : entity.Book :=
  .mk ⟨0xc1d2e3f4a5b67890123456789abcdef2⟩ "Book Three" "Description Three"
    none none time.Time.zero time.Time.zero

/-- The author of the handler tests, `aeca0955-bae4-47e9-9f85-6818dc68ca51`. -/
def martin : entity.Author :=
  .mk ⟨0xaeca0955bae447e99f856818dc68ca51⟩ "George R.R. Martin" []
    time.Time.zero time.Time.zero

/-- An author handler whose service answers every call with the author `a`. -/
def stubAuthorHandler (a : entity.Author) : author.AuthorHandler (List entity.Author) :=
  { service :=
      { CreateAuthor := fun _ world => (.ok (some a, none), world)
        GetAuthorByID := fun _ world => (.ok (some a, none), world) }
    validator := validator }

end sample

/-! ## Lemmas on `errors.Is` and on the response writer -/

/-- An error that is not a `wrap` matches exactly itself. -/
theorem errors_Is_leaf (e t : GoError) (hleaf : ∀ m i, e ≠ GoError.wrap m i) :
    errors.Is e t = (e == t) := by
  cases e <;> simp [errors.Is] at hleaf ⊢

/-- Every target matches itself. -/
theorem errors_Is_self (t : GoError) : errors.Is t t = true := by
  cases t <;> simp [errors.Is]

/-- An error matches at most one target that is not a `wrap`: the sentinel at
the end of its `Unwrap` chain. -/
theorem errors_Is_exclusive (e t1 t2 : GoError)
    (h1 : ∀ m i, t1 ≠ GoError.wrap m i) (h2 : ∀ m i, t2 ≠ GoError.wrap m i)
    (hne : t1 ≠ t2) (hmatch : errors.Is e t1 = true) : errors.Is e t2 = false := by
  induction e with
  | wrap msg inner ih =>
    simp only [errors.Is, Bool.or_eq_true, beq_iff_eq] at hmatch
    rcases hmatch with hm | hm
    · exact absurd hm.symm (h1 msg inner)
    · simp only [errors.Is, Bool.or_eq_false_iff, beq_eq_false_iff_ne, ne_eq]
      exact ⟨fun hc => h2 msg inner hc.symm, ih hm⟩
  | _ =>
    simp only [errors.Is, beq_iff_eq] at hmatch
    simp only [errors.Is, beq_eq_false_iff_ne, ne_eq]
    rw [hmatch]
    exact hne

/-- On a writer with no status code yet, `response.Error` answers with the
given status code and appends one error envelope to the body. -/
theorem response_Error_answers (w : ResponseWriter) (status : Nat) (message : String)
    (hw : w.code = none) : AnswersError w (response.Error w status message) status message := by
  simp [AnswersError, response.Error, response.JSON, ResponseWriter.Write,
    ResponseWriter.WriteHeader, ResponseWriter.SetHeader, hw]

/-! ## Theorems: `bookService.CreateBook` -/

/-- C1: when the request's `AuthorID` does not parse as a UUID, `CreateBook`
returns `(nil, ErrInvalidAuthorId)` and makes no repository call at all: the
world, and with it the list of calls, is the one it started from. -/
theorem createBook_malformed_author_id {σ : Type} (uuid : UUIDPackage)
    (s : book.bookService σ) (req : book.dto.CreateBookRequest) (w : World σ)
    (hparse : uuid.Parse req.AuthorID = none) :
    s.CreateBook uuid req w = (Outcome.ok (none, some book.ErrInvalidAuthorId), w) ∧
      (s.CreateBook uuid req w).2.calls = w.calls := by
  simp [book.bookService.CreateBook, hparse]

/-- C1 at a request with author id `invalid-uuid`. -/
theorem createBook_malformed_author_id_witness :
    sample.uuid.Parse "invalid-uuid" = none ∧
    book.bookService.CreateBook sample.uuid
        ⟨sample.emptyBookRepository, sample.authorRepository⟩
        ⟨"Dune", "A desert planet", "invalid-uuid"⟩ sample.world
      = (Outcome.ok (none, some book.ErrInvalidAuthorId), sample.world) :=
  ⟨by decide, (createBook_malformed_author_id sample.uuid
    ⟨sample.emptyBookRepository, sample.authorRepository⟩
    ⟨"Dune", "A desert planet", "invalid-uuid"⟩ sample.world (by decide)).1⟩

/-- C2: when the `AuthorID` parses and the author repository's `GetByID` returns
an error `e`, whatever it is, `CreateBook` returns `(nil, author.ErrNotFound)`:
the result does not depend on `e`; the only repository call made is that
`GetByID`, so the book repository's `Create` is not called. -/
theorem createBook_author_lookup_fails {σ : Type} (uuid : UUIDPackage)
    (s : book.bookService σ) (req : book.dto.CreateBookRequest) (w : World σ)
    (authorID : UUID) (e : GoError)
    (hparse : uuid.Parse req.AuthorID = some authorID)
    (hget : (s.authorRepository.GetByID authorID w.store).1.2 = some e) :
    (s.CreateBook uuid req w).1 = Outcome.ok (none, some author.ErrNotFound) ∧
      (s.CreateBook uuid req w).2.calls = w.calls ++ [Call.authorGetByID authorID] ∧
      (s.CreateBook uuid req w).2.store = (s.authorRepository.GetByID authorID w.store).2 := by
  have h1 : (s.authorRepository.callGetByID authorID w).1.2 = some e := hget
  unfold book.bookService.CreateBook
  simp only [hparse]
  split
  · exact ⟨rfl, rfl, rfl⟩
  · rename_i heq; rw [heq] at h1; simp at h1
  · rename_i heq; rw [heq] at h1; simp at h1

/-- C2 at a lookup that fails with a connection error, not with the
not-found sentinel. -/
theorem createBook_author_lookup_fails_witness :
    (book.bookService.CreateBook sample.uuid
        ⟨sample.emptyBookRepository, sample.brokenAuthorRepository⟩
        ⟨"Dune", "A desert planet", "00000000-0000-0000-0000-00000000002a"⟩ sample.world).1
      = Outcome.ok (none, some author.ErrNotFound) :=
  (createBook_author_lookup_fails sample.uuid
    ⟨sample.emptyBookRepository, sample.brokenAuthorRepository⟩
    ⟨"Dune", "A desert planet", "00000000-0000-0000-0000-00000000002a"⟩ sample.world
    sample.id42 (.other "connection refused") (by decide) rfl).1

/-- C3: when the `AuthorID` parses and the author lookup returns the author `a`
without error, `CreateBook` calls the book repository's `Create` exactly once,
after the lookup, with the book whose `Title` and `Description` are the
request's, whose `AuthorID` points to `a.ID` and whose other fields (`ID`
included) are zero values, and returns the pair that call returned. -/
theorem createBook_persists_book {σ : Type} (uuid : UUIDPackage)
    (s : book.bookService σ) (req : book.dto.CreateBookRequest) (w : World σ)
    (authorID : UUID) (a : entity.Author)
    (hparse : uuid.Parse req.AuthorID = some authorID)
    (hget : (s.authorRepository.GetByID authorID w.store).1 = (some a, none)) :
    (s.CreateBook uuid req w).1 =
        Outcome.ok (s.repository.Create
          (entity.Book.mk UUID.Nil req.Title req.Description (some a.ID) none
            time.Time.zero time.Time.zero)
          (s.authorRepository.GetByID authorID w.store).2).1 ∧
      (s.CreateBook uuid req w).2.calls = w.calls ++
        [Call.authorGetByID authorID,
         Call.bookCreate (entity.Book.mk UUID.Nil req.Title req.Description (some a.ID) none
            time.Time.zero time.Time.zero)] ∧
      (s.CreateBook uuid req w).2.store = (s.repository.Create
          (entity.Book.mk UUID.Nil req.Title req.Description (some a.ID) none
            time.Time.zero time.Time.zero)
          (s.authorRepository.GetByID authorID w.store).2).2 := by
  have h1 : (s.authorRepository.callGetByID authorID w).1 = (some a, none) := hget
  unfold book.bookService.CreateBook
  simp only [hparse]
  split
  · rename_i heq; rw [heq] at h1; simp at h1
  · rename_i heq; rw [heq] at h1; simp at h1
  · rename_i heq
    rw [heq] at h1
    simp only [Prod.mk.injEq, Option.some.injEq, and_true] at h1
    subst h1
    refine ⟨rfl, ?_, rfl⟩
    simp [book.BookRepository.callCreate, author.AuthorRepository.callGetByID]

/-- C3 at a request naming the stored author `tolkien`, once on a repository
that accepts the book and once on one that answers `ErrDuplicate`. -/
theorem createBook_persists_book_witness :
    (book.bookService.CreateBook sample.uuid
        ⟨sample.emptyBookRepository, sample.authorRepository⟩
        ⟨"Dune", "A desert planet", "00000000-0000-0000-0000-00000000002a"⟩ sample.world).1
      = Outcome.ok (some (entity.Book.mk UUID.Nil "Dune" "A desert planet" (some sample.id42)
          none time.Time.zero time.Time.zero), none) ∧
    (book.bookService.CreateBook sample.uuid
        ⟨sample.hobbitBookRepository, sample.authorRepository⟩
        ⟨"The Hobbit", "Again", "00000000-0000-0000-0000-00000000002a"⟩ sample.world).1
      = Outcome.ok (none, some book.ErrDuplicate) :=
  ⟨(createBook_persists_book sample.uuid
      ⟨sample.emptyBookRepository, sample.authorRepository⟩
      ⟨"Dune", "A desert planet", "00000000-0000-0000-0000-00000000002a"⟩ sample.world
      sample.id42 sample.tolkien (by decide) rfl).1,
   (createBook_persists_book sample.uuid
      ⟨sample.hobbitBookRepository, sample.authorRepository⟩
      ⟨"The Hobbit", "Again", "00000000-0000-0000-0000-00000000002a"⟩ sample.world
      sample.id42 sample.tolkien (by decide) rfl).1⟩

/-! ## Theorems: the handlers' error tables -/

/-- C9: `BookHandler.handleError` answers by a fixed table. An error matching
`book.ErrNotFound` gives 404 "Book not found", `book.ErrDuplicate` gives 409
"Book with this name already exists", `book.ErrInvalidAuthorId` gives 400
"invalid author ID", `author.ErrNotFound` gives 404 "Author not found", an
error matching none of the four gives 500 "Internal server error"; in every
case the body written is one error envelope with status "error". -/
theorem bookHandler_handleError_table {σ : Type} (h : book.BookHandler σ)
    (w : ResponseWriter) (err : GoError) (world : World σ) (hw : w.code = none) :
    (errors.Is err book.ErrNotFound = true →
        AnswersError w (h.handleError w err world).1 404 "Book not found") ∧
    (errors.Is err book.ErrDuplicate = true →
        AnswersError w (h.handleError w err world).1 409
          "Book with this name already exists") ∧
    (errors.Is err book.ErrInvalidAuthorId = true →
        AnswersError w (h.handleError w err world).1 400 "invalid author ID") ∧
    (errors.Is err author.ErrNotFound = true →
        AnswersError w (h.handleError w err world).1 404 "Author not found") ∧
    (errors.Is err book.ErrNotFound = false → errors.Is err book.ErrDuplicate = false →
      errors.Is err book.ErrInvalidAuthorId = false →
      errors.Is err author.ErrNotFound = false →
        AnswersError w (h.handleError w err world).1 500 "Internal server error") ∧
    (∃ status message, AnswersError w (h.handleError w err world).1 status message) := by
  have leaf1 : ∀ m i, book.ErrNotFound ≠ GoError.wrap m i := by intro m i hc; cases hc
  have leaf2 : ∀ m i, book.ErrDuplicate ≠ GoError.wrap m i := by intro m i hc; cases hc
  have leaf3 : ∀ m i, book.ErrInvalidAuthorId ≠ GoError.wrap m i := by intro m i hc; cases hc
  have leaf4 : ∀ m i, author.ErrNotFound ≠ GoError.wrap m i := by intro m i hc; cases hc
  refine ⟨?_, ?_, ?_, ?_, ?_, ?_⟩
  · intro h1
    simpa [book.BookHandler.handleError, h1] using response_Error_answers w 404 _ hw
  · intro h2
    have n1 := errors_Is_exclusive err _ book.ErrNotFound leaf2 leaf1 (by decide) h2
    simpa [book.BookHandler.handleError, h2, n1] using response_Error_answers w 409 _ hw
  · intro h3
    have n1 := errors_Is_exclusive err _ book.ErrNotFound leaf3 leaf1 (by decide) h3
    have n2 := errors_Is_exclusive err _ book.ErrDuplicate leaf3 leaf2 (by decide) h3
    simpa [book.BookHandler.handleError, h3, n1, n2] using response_Error_answers w 400 _ hw
  · intro h4
    have n1 := errors_Is_exclusive err _ book.ErrNotFound leaf4 leaf1 (by decide) h4
    have n2 := errors_Is_exclusive err _ book.ErrDuplicate leaf4 leaf2 (by decide) h4
    have n3 := errors_Is_exclusive err _ book.ErrInvalidAuthorId leaf4 leaf3 (by decide) h4
    simpa [book.BookHandler.handleError, h4, n1, n2, n3] using
      response_Error_answers w 404 _ hw
  · intro n1 n2 n3 n4
    simpa [book.BookHandler.handleError, n1, n2, n3, n4] using
      response_Error_answers w 500 _ hw
  · unfold book.BookHandler.handleError
    split
    · exact ⟨404, _, response_Error_answers w 404 _ hw⟩
    · split
      · exact ⟨409, _, response_Error_answers w 409 _ hw⟩
      · split
        · exact ⟨400, _, response_Error_answers w 400 _ hw⟩
        · split
          · exact ⟨404, _, response_Error_answers w 404 _ hw⟩
          · exact ⟨500, _, response_Error_answers w 500 _ hw⟩

/-- The book handler answers `book.ErrNotFound` with 404 "Book not found". -/
theorem bookHandler_handleError_answers_not_found {σ : Type} (h : book.BookHandler σ)
    (w : ResponseWriter) (world : World σ) (hw : w.code = none) :
    AnswersError w (h.handleError w book.ErrNotFound world).1 404 "Book not found" := by
  simpa [book.BookHandler.handleError, errors_Is_self] using
    response_Error_answers w 404 _ hw

/-- The book handler answers `author.ErrNotFound` with 404 "Author not found". -/
theorem bookHandler_handleError_answers_author_not_found {σ : Type} (h : book.BookHandler σ)
    (w : ResponseWriter) (world : World σ) (hw : w.code = none) :
    AnswersError w (h.handleError w author.ErrNotFound world).1 404 "Author not found" := by
  have n1 : errors.Is author.ErrNotFound book.ErrNotFound = false := by decide
  have n2 : errors.Is author.ErrNotFound book.ErrDuplicate = false := by decide
  have n3 : errors.Is author.ErrNotFound book.ErrInvalidAuthorId = false := by decide
  simpa [book.BookHandler.handleError, errors_Is_self, n1, n2, n3] using
    response_Error_answers w 404 _ hw

/-- The book handler answers an error that matches none of the four values it
tests for with 500 "Internal server error". -/
theorem bookHandler_handleError_answers_internal {σ : Type} (h : book.BookHandler σ)
    (w : ResponseWriter) (err : GoError) (world : World σ) (hw : w.code = none)
    (n1 : errors.Is err book.ErrNotFound = false)
    (n2 : errors.Is err book.ErrDuplicate = false)
    (n3 : errors.Is err book.ErrInvalidAuthorId = false)
    (n4 : errors.Is err author.ErrNotFound = false) :
    AnswersError w (h.handleError w err world).1 500 "Internal server error" := by
  simpa [book.BookHandler.handleError, n1, n2, n3, n4] using
    response_Error_answers w 500 _ hw

/-- C9 on a fresh response, at the duplicate sentinel wrapped once and at a
connection error. -/
theorem bookHandler_handleError_table_witness :
    AnswersError ResponseWriter.new
      (sample.bookHandler.handleError ResponseWriter.new
        (.wrap "create book" book.ErrDuplicate) sample.world).1
      409 "Book with this name already exists" ∧
    AnswersError ResponseWriter.new
      (sample.bookHandler.handleError ResponseWriter.new
        (.other "connection refused") sample.world).1
      500 "Internal server error" :=
  ⟨(bookHandler_handleError_table sample.bookHandler ResponseWriter.new
      (.wrap "create book" book.ErrDuplicate) sample.world rfl).2.1 (by decide),
   (bookHandler_handleError_table sample.bookHandler ResponseWriter.new
      (.other "connection refused") sample.world rfl).2.2.2.2.1
      (by decide) (by decide) (by decide) (by decide)⟩

/-- The table of `AuthorHandler.handleError`: 404 for an error matching
`author.ErrNotFound`, 409 for one matching `author.ErrDuplicate`, 500 for
every other error. -/
theorem authorHandler_handleError_answers {σ : Type} (h : author.AuthorHandler σ)
    (w : ResponseWriter) (err : GoError) (world : World σ) (hw : w.code = none) :
    (errors.Is err author.ErrNotFound = true →
        AnswersError w (h.handleError w err world).1 404 "Author not found") ∧
    (errors.Is err author.ErrDuplicate = true →
        AnswersError w (h.handleError w err world).1 409
          "Author with this name already exists") ∧
    (errors.Is err author.ErrNotFound = false → errors.Is err author.ErrDuplicate = false →
        AnswersError w (h.handleError w err world).1 500 "Internal server error") := by
  have leaf1 : ∀ m i, author.ErrNotFound ≠ GoError.wrap m i := by intro m i hc; cases hc
  have leaf2 : ∀ m i, author.ErrDuplicate ≠ GoError.wrap m i := by intro m i hc; cases hc
  refine ⟨?_, ?_, ?_⟩
  · intro h1
    simpa [author.AuthorHandler.handleError, h1] using response_Error_answers w 404 _ hw
  · intro h2
    have n1 := errors_Is_exclusive err _ author.ErrNotFound leaf2 leaf1 (by decide) h2
    simpa [author.AuthorHandler.handleError, h2, n1] using response_Error_answers w 409 _ hw
  · intro n1 n2
    simpa [author.AuthorHandler.handleError, n1, n2] using response_Error_answers w 500 _ hw

/-- When the author service returns the error `err`, `CreateAuthor` writes
what `handleError` writes for `err`. -/
theorem authorHandler_CreateAuthor_on_error {σ : Type} (uuid : UUIDPackage)
    (json : JSONPackage) (h : author.AuthorHandler σ) (w : ResponseWriter) (r : Request)
    (world world1 : World σ) (req : author.dto.CreateAuthorRequest)
    (a : Option entity.Author) (err : GoError)
    (hdecode : json.DecodeCreateAuthorRequest r.Body = some req)
    (hvalid : h.validator.Struct (.createAuthor req) = none)
    (hservice : h.service.CreateAuthor req world = (Outcome.ok (a, some err), world1)) :
    (h.CreateAuthor uuid json w r world).2.1 = (h.handleError w err world1).1 := by
  simp [author.AuthorHandler.CreateAuthor, hdecode, hvalid, hservice]

/-- When the author service returns the error `err`, `GetAuthorByID` writes
what `handleError` writes for `err`. -/
theorem authorHandler_GetAuthorByID_on_error {σ : Type} (uuid : UUIDPackage)
    (h : author.AuthorHandler σ) (w : ResponseWriter) (r : Request)
    (world world1 : World σ) (authorID : UUID)
    (a : Option entity.Author) (err : GoError)
    (hparse : uuid.Parse (r.URLParam "author_id") = some authorID)
    (hservice : h.service.GetAuthorByID authorID world = (Outcome.ok (a, some err), world1)) :
    (h.GetAuthorByID uuid w r world).2.1 = (h.handleError w err world1).1 := by
  simp [author.AuthorHandler.GetAuthorByID, hparse, hservice]

/-- C10: for every error `err` that the author service returns, both author
handlers (`CreateAuthor` on a body that decodes and validates, `GetAuthorByID`
on a path identifier that parses) answer with one error envelope: 404 "Author
not found" when `err` matches `author.ErrNotFound`, 409 "Author with this name
already exists" when it matches `author.ErrDuplicate`, 500 "Internal server
error" for every other error. -/
theorem authorHandlers_error_table {σ : Type} (uuid : UUIDPackage) (json : JSONPackage)
    (h : author.AuthorHandler σ) (w : ResponseWriter) (world : World σ) (err : GoError)
    (hw : w.code = none) :
    (∀ (r : Request) (req : author.dto.CreateAuthorRequest) (a : Option entity.Author)
        (world1 : World σ),
      json.DecodeCreateAuthorRequest r.Body = some req →
      h.validator.Struct (.createAuthor req) = none →
      h.service.CreateAuthor req world = (Outcome.ok (a, some err), world1) →
        (errors.Is err author.ErrNotFound = true →
          AnswersError w (h.CreateAuthor uuid json w r world).2.1 404 "Author not found") ∧
        (errors.Is err author.ErrDuplicate = true →
          AnswersError w (h.CreateAuthor uuid json w r world).2.1 409
            "Author with this name already exists") ∧
        (errors.Is err author.ErrNotFound = false →
          errors.Is err author.ErrDuplicate = false →
          AnswersError w (h.CreateAuthor uuid json w r world).2.1 500
            "Internal server error")) ∧
    (∀ (r : Request) (authorID : UUID) (a : Option entity.Author) (world1 : World σ),
      uuid.Parse (r.URLParam "author_id") = some authorID →
      h.service.GetAuthorByID authorID world = (Outcome.ok (a, some err), world1) →
        (errors.Is err author.ErrNotFound = true →
          AnswersError w (h.GetAuthorByID uuid w r world).2.1 404 "Author not found") ∧
        (errors.Is err author.ErrDuplicate = true →
          AnswersError w (h.GetAuthorByID uuid w r world).2.1 409
            "Author with this name already exists") ∧
        (errors.Is err author.ErrNotFound = false →
          errors.Is err author.ErrDuplicate = false →
          AnswersError w (h.GetAuthorByID uuid w r world).2.1 500
            "Internal server error")) := by
  constructor
  · intro r req a world1 hdecode hvalid hservice
    rw [authorHandler_CreateAuthor_on_error uuid json h w r world world1 req a err
      hdecode hvalid hservice]
    exact authorHandler_handleError_answers h w err world1 hw
  · intro r authorID a world1 hparse hservice
    rw [authorHandler_GetAuthorByID_on_error uuid h w r world world1 authorID a err
      hparse hservice]
    exact authorHandler_handleError_answers h w err world1 hw

/-- C10 on fresh responses: a service that reports a duplicate name is
answered 409 by `CreateAuthor`, an identifier that was never issued is
answered 404 by `GetAuthorByID`, and a connection error is answered 500. -/
theorem authorHandlers_error_table_witness :
    AnswersError ResponseWriter.new
      ((sample.failingAuthorHandler author.ErrDuplicate).CreateAuthor sample.uuid sample.json
        ResponseWriter.new (sample.request "" "J.R.R. Tolkien") sample.world).2.1
      409 "Author with this name already exists" ∧
    AnswersError ResponseWriter.new
      (sample.authorHandler.GetAuthorByID sample.uuid ResponseWriter.new
        (sample.request "00000000-0000-0000-0000-000000000001" "") sample.world).2.1
      404 "Author not found" ∧
    AnswersError ResponseWriter.new
      ((sample.failingAuthorHandler (.other "connection refused")).GetAuthorByID sample.uuid
        ResponseWriter.new
        (sample.request "00000000-0000-0000-0000-000000000001" "") sample.world).2.1
      500 "Internal server error" :=
  ⟨((authorHandlers_error_table sample.uuid sample.json
        (sample.failingAuthorHandler author.ErrDuplicate) ResponseWriter.new sample.world
        author.ErrDuplicate rfl).1
      (sample.request "" "J.R.R. Tolkien") ⟨"J.R.R. Tolkien"⟩ none sample.world
      (by decide) (by decide) rfl).2.1 (by decide),
   ((authorHandlers_error_table sample.uuid sample.json sample.authorHandler
        ResponseWriter.new sample.world author.ErrNotFound rfl).2
      (sample.request "00000000-0000-0000-0000-000000000001" "") ⟨1⟩ none
      { sample.world with calls := [Call.authorGetByID ⟨1⟩] }
      (by decide) rfl).1 (by decide),
   ((authorHandlers_error_table sample.uuid sample.json
        (sample.failingAuthorHandler (.other "connection refused")) ResponseWriter.new
        sample.world (.other "connection refused") rfl).2
      (sample.request "00000000-0000-0000-0000-000000000001" "") ⟨1⟩ none sample.world
      (by decide) rfl).2.2 (by decide) (by decide)⟩

/-! ## Lemmas: what each service method returns, by the repository's answers -/

/-- The method `GetAllBooks` after a failed `GetAll`. -/
theorem getAllBooks_of_error {σ : Type} (s : book.bookService σ) (w : World σ)
    (books : List (Option entity.Book)) (e : GoError)
    (hall : (s.repository.GetAll w.store).1 = (books, some e)) :
    s.GetAllBooks w = (Outcome.ok ([], some e), (s.repository.callGetAll w).2) := by
  have h1 : (s.repository.callGetAll w).1 = (books, some e) := hall
  unfold book.bookService.GetAllBooks
  simp only
  split
  · rename_i heq; rw [heq] at h1; simp at h1; rw [h1.2]
  · rename_i heq; rw [heq] at h1; simp at h1

/-- The method `GetAllBooks` after a `GetAll` that returned a list. -/
theorem getAllBooks_of_list {σ : Type} (s : book.bookService σ) (w : World σ)
    (books : List (Option entity.Book))
    (hall : (s.repository.GetAll w.store).1 = (books, none)) :
    s.GetAllBooks w =
      (if books.length = 0 then Outcome.ok ([], some book.ErrNotFound)
        else Outcome.ok (books, none), (s.repository.callGetAll w).2) := by
  have h1 : (s.repository.callGetAll w).1 = (books, none) := hall
  unfold book.bookService.GetAllBooks
  simp only
  split
  · rename_i heq; rw [heq] at h1; simp at h1
  · rename_i heq
    rw [heq] at h1
    simp only [Prod.mk.injEq, and_true] at h1
    subst h1
    split <;> rfl

/-- The method `GetBookByID` after a failed `GetByID`. -/
theorem getBookByID_of_error {σ : Type} (s : book.bookService σ) (bookID : UUID)
    (w : World σ) (b : Option entity.Book) (e : GoError)
    (hget : (s.repository.GetByID bookID w.store).1 = (b, some e)) :
    s.GetBookByID bookID w =
      (Outcome.ok (none, some e), (s.repository.callGetByID bookID w).2) := by
  have h1 : (s.repository.callGetByID bookID w).1 = (b, some e) := hget
  unfold book.bookService.GetBookByID
  simp only
  split
  · rename_i heq; rw [heq] at h1; simp at h1; rw [h1.2]
  · rename_i heq; rw [heq] at h1; simp at h1

/-- The method `UpdateBook` after a failed `GetByID`: `Update` is not called. -/
theorem updateBook_of_error {σ : Type} (s : book.bookService σ)
    (req : book.dto.UpdateBookRequest) (bookID : UUID)
    (w : World σ) (b : Option entity.Book) (e : GoError)
    (hget : (s.repository.GetByID bookID w.store).1 = (b, some e)) :
    s.UpdateBook req bookID w =
      (Outcome.ok (none, some e), (s.repository.callGetByID bookID w).2) := by
  have h1 : (s.repository.callGetByID bookID w).1 = (b, some e) := hget
  unfold book.bookService.UpdateBook
  simp only
  split
  · rename_i heq; rw [heq] at h1; simp at h1; rw [h1.2]
  · rename_i heq; rw [heq] at h1; simp at h1
  · rename_i heq; rw [heq] at h1; simp at h1

/-- The method `UpdateBook` after `GetByID` returned the book `b`: `Update` is
called with `b` whose title is set to the request's description. -/
theorem updateBook_of_book {σ : Type} (s : book.bookService σ)
    (req : book.dto.UpdateBookRequest) (bookID : UUID)
    (w : World σ) (b : entity.Book)
    (hget : (s.repository.GetByID bookID w.store).1 = (some b, none)) :
    s.UpdateBook req bookID w =
      (Outcome.ok (s.repository.callUpdate (b.setTitle req.Description)
          (s.repository.callGetByID bookID w).2).1,
        (s.repository.callUpdate (b.setTitle req.Description)
          (s.repository.callGetByID bookID w).2).2) := by
  have h1 : (s.repository.callGetByID bookID w).1 = (some b, none) := hget
  unfold book.bookService.UpdateBook
  simp only
  split
  · rename_i heq; rw [heq] at h1; simp at h1
  · rename_i heq; rw [heq] at h1; simp at h1
  · rename_i heq
    rw [heq] at h1
    simp only [Prod.mk.injEq, Option.some.injEq, and_true] at h1
    subst h1
    rfl

/-- The method `DeleteBook` after a failed `GetByID`: `Delete` is not called. -/
theorem deleteBook_of_error {σ : Type} (s : book.bookService σ) (bookID : UUID)
    (w : World σ) (b : Option entity.Book) (e : GoError)
    (hget : (s.repository.GetByID bookID w.store).1 = (b, some e)) :
    s.DeleteBook bookID w =
      (Outcome.ok (some e), (s.repository.callGetByID bookID w).2) := by
  have h1 : (s.repository.callGetByID bookID w).1 = (b, some e) := hget
  unfold book.bookService.DeleteBook
  simp only
  split
  · rename_i heq; rw [heq] at h1; simp at h1; rw [h1.2]
  · rename_i heq; rw [heq] at h1; simp at h1

/-- The method `DeleteBook` after a `GetByID` without error: `Delete` is called. -/
theorem deleteBook_of_found {σ : Type} (s : book.bookService σ) (bookID : UUID)
    (w : World σ) (b : Option entity.Book)
    (hget : (s.repository.GetByID bookID w.store).1 = (b, none)) :
    s.DeleteBook bookID w =
      (Outcome.ok (s.repository.callDelete bookID (s.repository.callGetByID bookID w).2).1,
        (s.repository.callDelete bookID (s.repository.callGetByID bookID w).2).2) := by
  have h1 : (s.repository.callGetByID bookID w).1 = (b, none) := hget
  unfold book.bookService.DeleteBook
  simp only
  split
  · rename_i heq; rw [heq] at h1; simp at h1
  · rfl

/-- The method `GetAuthorByID` after a failed `GetByID`. -/
theorem getAuthorByID_of_error {σ : Type} (t : author.authorService σ) (authorID : UUID)
    (w : World σ) (a : Option entity.Author) (e : GoError)
    (hget : (t.repository.GetByID authorID w.store).1 = (a, some e)) :
    t.GetAuthorByID authorID w =
      (Outcome.ok (none, some e), (t.repository.callGetByID authorID w).2) := by
  have h1 : (t.repository.callGetByID authorID w).1 = (a, some e) := hget
  unfold author.authorService.GetAuthorByID
  simp only
  split
  · rename_i heq; rw [heq] at h1; simp at h1; rw [h1.2]
  · rename_i heq; rw [heq] at h1; simp at h1

/-! ## Theorems: `GetAllBooks`, `DeleteBook`, `UpdateBook` -/

/-- C5: `bookService.GetAllBooks` returns `(nil, ErrNotFound)` when the
repository's `GetAll` returns an empty list without error, the repository's
list itself when that list is not empty, and `(nil, err)` with the
repository's own error when `GetAll` fails. Hence the handler of `GET /books`,
over this service, answers an empty store with 404 "Book not found". -/
theorem getAllBooks_empty_is_not_found {σ : Type} (uuid : UUIDPackage)
    (s : book.bookService σ) (v : validator.Validator) (w : World σ) (rw : ResponseWriter)
    (hrw : rw.code = none) :
    ((s.repository.GetAll w.store).1 = ([], none) →
        (s.GetAllBooks w).1 = Outcome.ok ([], some book.ErrNotFound)) ∧
    (∀ books : List (Option entity.Book), books ≠ [] →
      (s.repository.GetAll w.store).1 = (books, none) →
        (s.GetAllBooks w).1 = Outcome.ok (books, none)) ∧
    (∀ (books : List (Option entity.Book)) (e : GoError),
      (s.repository.GetAll w.store).1 = (books, some e) →
        (s.GetAllBooks w).1 = Outcome.ok ([], some e)) ∧
    ((s.repository.GetAll w.store).1 = ([], none) →
        AnswersError rw
          (book.BookHandler.GetAllBooks uuid
            { service := book.NewBookService uuid s.repository s.authorRepository
              validator := v } rw w).2.1
          404 "Book not found") := by
  refine ⟨?_, ?_, ?_, ?_⟩
  · intro hall
    rw [getAllBooks_of_list s w [] hall]
    rfl
  · intro books hne hall
    rw [getAllBooks_of_list s w books hall]
    have : books.length ≠ 0 := by simpa using hne
    simp [this]
  · intro books e hall
    rw [getAllBooks_of_error s w books e hall]
  · intro hall
    have hs : book.bookService.GetAllBooks ⟨s.repository, s.authorRepository⟩ w =
        (Outcome.ok ([], some book.ErrNotFound), (s.repository.callGetAll w).2) := by
      rw [getAllBooks_of_list ⟨s.repository, s.authorRepository⟩ w [] hall]
      rfl
    simp only [book.BookHandler.GetAllBooks, book.NewBookService, hs]
    exact (bookHandler_handleError_answers_not_found _ rw _ hrw)

/-- C5 on the repository that keeps no books, on the one that holds `hobbit`
and on the one that fails. -/
theorem getAllBooks_empty_is_not_found_witness :
    (book.bookService.GetAllBooks ⟨sample.emptyBookRepository, sample.authorRepository⟩
        sample.world).1 = Outcome.ok ([], some book.ErrNotFound) ∧
    (book.bookService.GetAllBooks ⟨sample.hobbitBookRepository, sample.authorRepository⟩
        sample.world).1 = Outcome.ok ([some sample.hobbit], none) ∧
    (book.bookService.GetAllBooks ⟨sample.brokenBookRepository, sample.authorRepository⟩
        sample.world).1 = Outcome.ok ([], some (.other "connection refused")) ∧
    AnswersError ResponseWriter.new
      (sample.emptyBookHandler.GetAllBooks sample.uuid ResponseWriter.new sample.world).2.1
      404 "Book not found" :=
  ⟨(getAllBooks_empty_is_not_found sample.uuid
      ⟨sample.emptyBookRepository, sample.authorRepository⟩ sample.validator sample.world
      ResponseWriter.new rfl).1 rfl,
   (getAllBooks_empty_is_not_found sample.uuid
      ⟨sample.hobbitBookRepository, sample.authorRepository⟩ sample.validator sample.world
      ResponseWriter.new rfl).2.1 [some sample.hobbit] (by simp) rfl,
   (getAllBooks_empty_is_not_found sample.uuid
      ⟨sample.brokenBookRepository, sample.authorRepository⟩ sample.validator sample.world
      ResponseWriter.new rfl).2.2.1 [] (.other "connection refused") rfl,
   (getAllBooks_empty_is_not_found sample.uuid
      ⟨sample.emptyBookRepository, sample.authorRepository⟩ sample.validator sample.world
      ResponseWriter.new rfl).2.2.2 rfl⟩

/-- C6: `bookService.DeleteBook` first calls the repository's `GetByID`. If
that call returns an error, `DeleteBook` returns that error and `Delete` is
not called: `GetByID` is the only call made. Otherwise it calls `Delete` once,
with the same identifier, and returns what `Delete` returned. -/
theorem deleteBook_reads_before_delete {σ : Type} (s : book.bookService σ) (bookID : UUID)
    (w : World σ) :
    (∀ (b : Option entity.Book) (e : GoError),
      (s.repository.GetByID bookID w.store).1 = (b, some e) →
        (s.DeleteBook bookID w).1 = Outcome.ok (some e) ∧
        (s.DeleteBook bookID w).2.calls = w.calls ++ [Call.bookGetByID bookID]) ∧
    (∀ b : Option entity.Book,
      (s.repository.GetByID bookID w.store).1 = (b, none) →
        (s.DeleteBook bookID w).1 =
          Outcome.ok (s.repository.Delete bookID (s.repository.GetByID bookID w.store).2).1 ∧
        (s.DeleteBook bookID w).2.calls =
          w.calls ++ [Call.bookGetByID bookID, Call.bookDelete bookID]) := by
  constructor
  · intro b e hget
    rw [deleteBook_of_error s bookID w b e hget]
    exact ⟨rfl, rfl⟩
  · intro b hget
    rw [deleteBook_of_found s bookID w b hget]
    refine ⟨rfl, ?_⟩
    simp [book.BookRepository.callDelete, book.BookRepository.callGetByID]

/-- C6 on the repository that holds `hobbit`: an unknown identifier is
answered `ErrNotFound` after the one read, the identifier of `hobbit` is
deleted after the read. -/
theorem deleteBook_reads_before_delete_witness :
    ((book.bookService.DeleteBook ⟨sample.hobbitBookRepository, sample.authorRepository⟩
        ⟨9⟩ sample.world).1 = Outcome.ok (some book.ErrNotFound) ∧
      (book.bookService.DeleteBook ⟨sample.hobbitBookRepository, sample.authorRepository⟩
        ⟨9⟩ sample.world).2.calls = sample.world.calls ++ [Call.bookGetByID ⟨9⟩]) ∧
    ((book.bookService.DeleteBook ⟨sample.hobbitBookRepository, sample.authorRepository⟩
        ⟨7⟩ sample.world).1 = Outcome.ok none ∧
      (book.bookService.DeleteBook ⟨sample.hobbitBookRepository, sample.authorRepository⟩
        ⟨7⟩ sample.world).2.calls =
          sample.world.calls ++ [Call.bookGetByID ⟨7⟩, Call.bookDelete ⟨7⟩]) :=
  ⟨(deleteBook_reads_before_delete
      ⟨sample.hobbitBookRepository, sample.authorRepository⟩ ⟨9⟩ sample.world).1
      none book.ErrNotFound rfl,
   (deleteBook_reads_before_delete
      ⟨sample.hobbitBookRepository, sample.authorRepository⟩ ⟨7⟩ sample.world).2
      (some sample.hobbit) rfl⟩

/-- C7, the code at a failing input: for the stored book titled "The Hobbit"
with description "There and back again" and the request description "A new
description", the entity that `UpdateBook` passes to `Update` has the title
"A new description" and still the description "There and back again". -/
theorem updateBook_changes_title_keeps_description :
    (book.bookService.UpdateBook ⟨sample.hobbitBookRepository, sample.authorRepository⟩
        ⟨"A new description"⟩ ⟨7⟩ sample.world).2.calls =
      [Call.bookGetByID ⟨7⟩,
       Call.bookUpdate (entity.Book.mk ⟨7⟩ "A new description" "There and back again"
          (some sample.id42) (some sample.tolkien) time.Time.zero time.Time.zero)] ∧
    (sample.hobbitBookRepository.GetByID ⟨7⟩ sample.world.store).1 =
      (some (entity.Book.mk ⟨7⟩ "The Hobbit" "There and back again"
          (some sample.id42) (some sample.tolkien) time.Time.zero time.Time.zero), none) :=
  ⟨rfl, rfl⟩

/-- C8: for a book `b` read by `GetByID` and every request, `UpdateBook` passes
to the repository's `Update` an entity whose `Title` is the request's
`Description` and whose `ID`, `Description`, `AuthorID` and `Author` are those
of `b`. -/
theorem updateBook_sets_title_to_description {σ : Type} (s : book.bookService σ)
    (req : book.dto.UpdateBookRequest) (bookID : UUID) (w : World σ) (b : entity.Book)
    (hget : (s.repository.GetByID bookID w.store).1 = (some b, none)) :
    ∃ passed : entity.Book,
      (s.UpdateBook req bookID w).2.calls =
        w.calls ++ [Call.bookGetByID bookID, Call.bookUpdate passed] ∧
      passed.Title = req.Description ∧ passed.ID = b.ID ∧
      passed.Description = b.Description ∧ passed.AuthorID = b.AuthorID ∧
      passed.Author = b.Author := by
  refine ⟨b.setTitle req.Description, ?_, ?_⟩
  · rw [updateBook_of_book s req bookID w b hget]
    simp [book.BookRepository.callUpdate, book.BookRepository.callGetByID]
  · cases b
    exact ⟨rfl, rfl, rfl, rfl, rfl⟩

/-- C8 at the stored book `hobbit`. -/
theorem updateBook_sets_title_to_description_witness :
    ∃ passed : entity.Book,
      (book.bookService.UpdateBook ⟨sample.hobbitBookRepository, sample.authorRepository⟩
        ⟨"A new description"⟩ ⟨7⟩ sample.world).2.calls =
        sample.world.calls ++ [Call.bookGetByID ⟨7⟩, Call.bookUpdate passed] ∧
      passed.Title = "A new description" ∧ passed.ID = sample.hobbit.ID ∧
      passed.Description = sample.hobbit.Description ∧
      passed.AuthorID = sample.hobbit.AuthorID ∧ passed.Author = sample.hobbit.Author :=
  updateBook_sets_title_to_description
    ⟨sample.hobbitBookRepository, sample.authorRepository⟩ ⟨"A new description"⟩ ⟨7⟩
    sample.world sample.hobbit rfl

/-! ## Theorems: store failures -/

/-- The method `CreateBook` after a failed author lookup. -/
theorem createBook_of_lookup_error {σ : Type} (uuid : UUIDPackage) (s : book.bookService σ)
    (req : book.dto.CreateBookRequest) (w : World σ) (authorID : UUID)
    (a : Option entity.Author) (e : GoError)
    (hparse : uuid.Parse req.AuthorID = some authorID)
    (hget : (s.authorRepository.GetByID authorID w.store).1 = (a, some e)) :
    s.CreateBook uuid req w =
      (Outcome.ok (none, some author.ErrNotFound),
        (s.authorRepository.callGetByID authorID w).2) := by
  have h1 : (s.authorRepository.callGetByID authorID w).1 = (a, some e) := hget
  unfold book.bookService.CreateBook
  simp only [hparse]
  split
  · rfl
  · rename_i heq; rw [heq] at h1; simp at h1
  · rename_i heq; rw [heq] at h1; simp at h1

/-- The method `CreateBook` after the author lookup returned the author `a`. -/
theorem createBook_of_author {σ : Type} (uuid : UUIDPackage) (s : book.bookService σ)
    (req : book.dto.CreateBookRequest) (w : World σ) (authorID : UUID) (a : entity.Author)
    (hparse : uuid.Parse req.AuthorID = some authorID)
    (hget : (s.authorRepository.GetByID authorID w.store).1 = (some a, none)) :
    s.CreateBook uuid req w =
      (Outcome.ok (s.repository.callCreate
          (entity.Book.mk UUID.Nil req.Title req.Description (some a.ID) none
            time.Time.zero time.Time.zero)
          (s.authorRepository.callGetByID authorID w).2).1,
        (s.repository.callCreate
          (entity.Book.mk UUID.Nil req.Title req.Description (some a.ID) none
            time.Time.zero time.Time.zero)
          (s.authorRepository.callGetByID authorID w).2).2) := by
  have h1 : (s.authorRepository.callGetByID authorID w).1 = (some a, none) := hget
  unfold book.bookService.CreateBook
  simp only [hparse]
  split
  · rename_i heq; rw [heq] at h1; simp at h1
  · rename_i heq; rw [heq] at h1; simp at h1
  · rename_i heq
    rw [heq] at h1
    simp only [Prod.mk.injEq, Option.some.injEq, and_true] at h1
    subst h1
    rfl

/-- C4 as stated fails at `CreateBook`: the author lookup fails with a
connection error, which matches none of the sentinels, and `CreateBook`
returns `author.ErrNotFound`, which the book handler answers with 404 "Author
not found", not with 500. -/
theorem createBook_store_failure_answered_404 :
    (sample.brokenAuthorRepository.GetByID sample.id42 sample.world.store).1 =
      (none, some (.other "connection refused")) ∧
    errors.Is (.other "connection refused") book.ErrNotFound = false ∧
    errors.Is (.other "connection refused") book.ErrDuplicate = false ∧
    errors.Is (.other "connection refused") book.ErrInvalidAuthorId = false ∧
    errors.Is (.other "connection refused") author.ErrNotFound = false ∧
    errors.Is (.other "connection refused") author.ErrDuplicate = false ∧
    (book.bookService.CreateBook sample.uuid
        ⟨sample.emptyBookRepository, sample.brokenAuthorRepository⟩
        ⟨"Dune", "A desert planet", "00000000-0000-0000-0000-00000000002a"⟩ sample.world).1
      = Outcome.ok (none, some author.ErrNotFound) ∧
    (sample.bookHandler.handleError ResponseWriter.new author.ErrNotFound sample.world).1
      = { header := [("Content-Type", "application/json")], code := some 404,
          body := [Data.error { Status := "error", Message := "Author not found" }] } := by
  exact ⟨rfl, by decide, by decide, by decide, by decide, by decide, rfl, by decide⟩

/-- C4, amended. Let `e` be a store error: an error that matches none of the
sentinels of the book and author packages. Both handlers answer `e` with 500
"Internal server error". `GetAllBooks`, `GetBookByID`, `UpdateBook`,
`DeleteBook`, `CreateAuthor` and `GetAuthorByID` return `e` when a repository
call of theirs fails with `e`, and so does `CreateBook` when the book
repository's `Create` fails with `e`. When the author lookup of `CreateBook`
fails, with any error, `CreateBook` returns `author.ErrNotFound`, which the
book handler answers with 404 "Author not found". -/
theorem store_failure_answered_500 {σ : Type} (uuid : UUIDPackage)
    (s : book.bookService σ) (t : author.authorService σ)
    (bh : book.BookHandler σ) (ah : author.AuthorHandler σ)
    (rw : ResponseWriter) (w world : World σ) (e : GoError)
    (hrw : rw.code = none)
    (n1 : errors.Is e book.ErrNotFound = false)
    (n2 : errors.Is e book.ErrDuplicate = false)
    (n3 : errors.Is e book.ErrInvalidAuthorId = false)
    (n4 : errors.Is e author.ErrNotFound = false)
    (n5 : errors.Is e author.ErrDuplicate = false) :
    AnswersError rw (bh.handleError rw e world).1 500 "Internal server error" ∧
    AnswersError rw (ah.handleError rw e world).1 500 "Internal server error" ∧
    (∀ books : List (Option entity.Book),
      (s.repository.GetAll w.store).1 = (books, some e) →
        (s.GetAllBooks w).1 = Outcome.ok ([], some e)) ∧
    (∀ (bookID : UUID) (b : Option entity.Book),
      (s.repository.GetByID bookID w.store).1 = (b, some e) →
        (s.GetBookByID bookID w).1 = Outcome.ok (none, some e)) ∧
    (∀ (req : book.dto.UpdateBookRequest) (bookID : UUID) (b : Option entity.Book),
      (s.repository.GetByID bookID w.store).1 = (b, some e) →
        (s.UpdateBook req bookID w).1 = Outcome.ok (none, some e)) ∧
    (∀ (req : book.dto.UpdateBookRequest) (bookID : UUID) (b : entity.Book)
        (updated : Option entity.Book),
      (s.repository.GetByID bookID w.store).1 = (some b, none) →
      (s.repository.Update (b.setTitle req.Description)
          (s.repository.GetByID bookID w.store).2).1 = (updated, some e) →
        (s.UpdateBook req bookID w).1 = Outcome.ok (updated, some e)) ∧
    (∀ (bookID : UUID) (b : Option entity.Book),
      (s.repository.GetByID bookID w.store).1 = (b, some e) →
        (s.DeleteBook bookID w).1 = Outcome.ok (some e)) ∧
    (∀ (bookID : UUID) (b : Option entity.Book),
      (s.repository.GetByID bookID w.store).1 = (b, none) →
      (s.repository.Delete bookID (s.repository.GetByID bookID w.store).2).1 = some e →
        (s.DeleteBook bookID w).1 = Outcome.ok (some e)) ∧
    (∀ (req : book.dto.CreateBookRequest) (authorID : UUID) (a : entity.Author)
        (created : Option entity.Book),
      uuid.Parse req.AuthorID = some authorID →
      (s.authorRepository.GetByID authorID w.store).1 = (some a, none) →
      (s.repository.Create
          (entity.Book.mk UUID.Nil req.Title req.Description (some a.ID) none
            time.Time.zero time.Time.zero)
          (s.authorRepository.GetByID authorID w.store).2).1 = (created, some e) →
        (s.CreateBook uuid req w).1 = Outcome.ok (created, some e)) ∧
    (∀ (req : author.dto.CreateAuthorRequest) (created : Option entity.Author),
      (t.repository.Create
          (entity.Author.mk UUID.Nil req.Name [] time.Time.zero time.Time.zero)
          w.store).1 = (created, some e) →
        (t.CreateAuthor req w).1 = Outcome.ok (created, some e)) ∧
    (∀ (authorID : UUID) (a : Option entity.Author),
      (t.repository.GetByID authorID w.store).1 = (a, some e) →
        (t.GetAuthorByID authorID w).1 = Outcome.ok (none, some e)) ∧
    (∀ (req : book.dto.CreateBookRequest) (authorID : UUID) (a : Option entity.Author)
        (failure : GoError),
      uuid.Parse req.AuthorID = some authorID →
      (s.authorRepository.GetByID authorID w.store).1 = (a, some failure) →
        (s.CreateBook uuid req w).1 = Outcome.ok (none, some author.ErrNotFound) ∧
        AnswersError rw (bh.handleError rw author.ErrNotFound world).1 404
          "Author not found") := by
  refine ⟨?_, ?_, ?_, ?_, ?_, ?_, ?_, ?_, ?_, ?_, ?_, ?_⟩
  · exact bookHandler_handleError_answers_internal bh rw e world hrw n1 n2 n3 n4
  · exact (authorHandler_handleError_answers ah rw e world hrw).2.2 n4 n5
  · intro books hall
    rw [getAllBooks_of_error s w books e hall]
  · intro bookID b hget
    rw [getBookByID_of_error s bookID w b e hget]
  · intro req bookID b hget
    rw [updateBook_of_error s req bookID w b e hget]
  · intro req bookID b updated hget hupdate
    rw [updateBook_of_book s req bookID w b hget]
    exact congrArg Outcome.ok hupdate
  · intro bookID b hget
    rw [deleteBook_of_error s bookID w b e hget]
  · intro bookID b hget hdelete
    rw [deleteBook_of_found s bookID w b hget]
    exact congrArg Outcome.ok hdelete
  · intro req authorID a created hparse hget hcreate
    rw [createBook_of_author uuid s req w authorID a hparse hget]
    exact congrArg Outcome.ok hcreate
  · intro req created hcreate
    exact congrArg Outcome.ok hcreate
  · intro authorID a hget
    rw [getAuthorByID_of_error t authorID w a e hget]
  · intro req authorID a failure hparse hget
    rw [createBook_of_lookup_error uuid s req w authorID a failure hparse hget]
    exact ⟨rfl, bookHandler_handleError_answers_author_not_found bh rw world hrw⟩

/-- C4, amended, at the connection error of the failing repositories: the book
handler answers it with 500, `GetAllBooks` and `DeleteBook` return it, and
`CreateBook` turns the failed author lookup into `author.ErrNotFound`. -/
theorem store_failure_answered_500_witness :
    AnswersError ResponseWriter.new
      (sample.bookHandler.handleError ResponseWriter.new (.other "connection refused")
        sample.world).1 500 "Internal server error" ∧
    (book.bookService.GetAllBooks ⟨sample.brokenBookRepository, sample.brokenAuthorRepository⟩
        sample.world).1 = Outcome.ok ([], some (.other "connection refused")) ∧
    (book.bookService.DeleteBook ⟨sample.brokenBookRepository, sample.brokenAuthorRepository⟩
        ⟨7⟩ sample.world).1 = Outcome.ok (some (.other "connection refused")) ∧
    (author.authorService.CreateAuthor ⟨sample.brokenAuthorRepository⟩ ⟨"Frank Herbert"⟩
        sample.world).1 = Outcome.ok (none, some (.other "connection refused")) ∧
    (book.bookService.CreateBook sample.uuid
        ⟨sample.brokenBookRepository, sample.brokenAuthorRepository⟩
        ⟨"Dune", "A desert planet", "00000000-0000-0000-0000-00000000002a"⟩ sample.world).1
      = Outcome.ok (none, some author.ErrNotFound) :=
  have h := store_failure_answered_500 sample.uuid
    ⟨sample.brokenBookRepository, sample.brokenAuthorRepository⟩
    ⟨sample.brokenAuthorRepository⟩ sample.bookHandler sample.authorHandler
    ResponseWriter.new sample.world sample.world (.other "connection refused")
    rfl (by decide) (by decide) (by decide) (by decide) (by decide)
  ⟨h.1,
   h.2.2.1 [] rfl,
   h.2.2.2.2.2.2.1 ⟨7⟩ none rfl,
   h.2.2.2.2.2.2.2.2.2.1 ⟨"Frank Herbert"⟩ none rfl,
   (h.2.2.2.2.2.2.2.2.2.2.2 ⟨"Dune", "A desert planet", "00000000-0000-0000-0000-00000000002a"⟩
      sample.id42 none (.other "connection refused") (by decide) rfl).1⟩

/-! ## Theorems: what the client sees of an error -/

/-- C11: two errors that match none of the sentinels a handler tests for are
answered alike. `BookHandler.handleError` writes the same response for both,
whatever the worlds it runs in, namely 500 "Internal server error" in the
error envelope; so does `AuthorHandler.handleError`. The response does not
depend on the error. -/
theorem handleError_hides_unclassified_error {σ : Type} (bh : book.BookHandler σ)
    (ah : author.AuthorHandler σ) (w : ResponseWriter) (world1 world2 : World σ)
    (e1 e2 : GoError) (hw : w.code = none) :
    (errors.Is e1 book.ErrNotFound = false → errors.Is e1 book.ErrDuplicate = false →
      errors.Is e1 book.ErrInvalidAuthorId = false →
      errors.Is e1 author.ErrNotFound = false →
      errors.Is e2 book.ErrNotFound = false → errors.Is e2 book.ErrDuplicate = false →
      errors.Is e2 book.ErrInvalidAuthorId = false →
      errors.Is e2 author.ErrNotFound = false →
        (bh.handleError w e1 world1).1 = (bh.handleError w e2 world2).1 ∧
        AnswersError w (bh.handleError w e1 world1).1 500 "Internal server error") ∧
    (errors.Is e1 author.ErrNotFound = false → errors.Is e1 author.ErrDuplicate = false →
      errors.Is e2 author.ErrNotFound = false → errors.Is e2 author.ErrDuplicate = false →
        (ah.handleError w e1 world1).1 = (ah.handleError w e2 world2).1 ∧
        AnswersError w (ah.handleError w e1 world1).1 500 "Internal server error") := by
  constructor
  · intro a1 a2 a3 a4 b1 b2 b3 b4
    refine ⟨?_, bookHandler_handleError_answers_internal bh w e1 world1 hw a1 a2 a3 a4⟩
    simp [book.BookHandler.handleError, a1, a2, a3, a4, b1, b2, b3, b4]
  · intro a1 a2 b1 b2
    refine ⟨?_, (authorHandler_handleError_answers ah w e1 world1 hw).2.2 a1 a2⟩
    simp [author.AuthorHandler.handleError, a1, a2, b1, b2]

/-- C11 at a driver error that names a table and at a connection error. -/
theorem handleError_hides_unclassified_error_witness :
    (sample.bookHandler.handleError ResponseWriter.new
        (.wrap "Error 1146" (.other "Table 'library.books' doesn't exist")) sample.world).1 =
      (sample.bookHandler.handleError ResponseWriter.new
        (.other "connection refused") sample.world).1 ∧
    (sample.authorHandler.handleError ResponseWriter.new
        (.wrap "Error 1146" (.other "Table 'library.books' doesn't exist")) sample.world).1 =
      (sample.authorHandler.handleError ResponseWriter.new
        (.other "connection refused") sample.world).1 :=
  ⟨((handleError_hides_unclassified_error sample.bookHandler sample.authorHandler
      ResponseWriter.new sample.world sample.world
      (.wrap "Error 1146" (.other "Table 'library.books' doesn't exist"))
      (.other "connection refused") rfl).1
      (by decide) (by decide) (by decide) (by decide)
      (by decide) (by decide) (by decide) (by decide)).1,
   ((handleError_hides_unclassified_error sample.bookHandler sample.authorHandler
      ResponseWriter.new sample.world sample.world
      (.wrap "Error 1146" (.other "Table 'library.books' doesn't exist"))
      (.other "connection refused") rfl).2
      (by decide) (by decide) (by decide) (by decide)).1⟩

/-- The book handler answers `book.ErrInvalidAuthorId` with 400 "invalid author ID". -/
theorem bookHandler_handleError_answers_invalid_author_id {σ : Type}
    (h : book.BookHandler σ) (w : ResponseWriter) (world : World σ) (hw : w.code = none) :
    AnswersError w (h.handleError w book.ErrInvalidAuthorId world).1 400
      "invalid author ID" := by
  have n1 : errors.Is book.ErrInvalidAuthorId book.ErrNotFound = false := by decide
  have n2 : errors.Is book.ErrInvalidAuthorId book.ErrDuplicate = false := by decide
  simpa [book.BookHandler.handleError, errors_Is_self, n1, n2] using
    response_Error_answers w 400 _ hw

/-- When the book service returns the error `err`, `CreateBook` writes what
`handleError` writes for `err`. -/
theorem bookHandler_CreateBook_on_error {σ : Type} (uuid : UUIDPackage) (json : JSONPackage)
    (h : book.BookHandler σ) (w : ResponseWriter) (r : Request)
    (world world1 : World σ) (req : book.dto.CreateBookRequest)
    (b : Option entity.Book) (err : GoError)
    (hdecode : json.DecodeCreateBookRequest r.Body = some req)
    (hvalid : h.validator.Struct (.createBook req) = none)
    (hservice : h.service.CreateBook req world = (Outcome.ok (b, some err), world1)) :
    h.CreateBook uuid json w r world =
      (Outcome.ok (), (h.handleError w err world1).1, (h.handleError w err world1).2) := by
  simp [book.BookHandler.CreateBook, hdecode, hvalid, hservice]

/-- C12: for a `POST /books` request whose body decodes to `req` and passes
validation, the handler `CreateBook` over the book service answers 400
"invalid author ID" when `req.AuthorID` does not parse as a UUID, and 404
"Author not found" when it parses and the author repository's `GetByID`
returns an error, that of a missing author in particular. -/
theorem createBook_handler_rejects_author {σ : Type} (uuid : UUIDPackage) (json : JSONPackage)
    (repository : book.BookRepository σ) (authorRepository : author.AuthorRepository σ)
    (v : validator.Validator) (w : ResponseWriter) (r : Request) (world : World σ)
    (req : book.dto.CreateBookRequest) (hw : w.code = none)
    (hdecode : json.DecodeCreateBookRequest r.Body = some req)
    (hvalid : v.Struct (.createBook req) = none) :
    (uuid.Parse req.AuthorID = none →
      AnswersError w
        (book.BookHandler.CreateBook uuid json
          { service := book.NewBookService uuid repository authorRepository
            validator := v } w r world).2.1
        400 "invalid author ID") ∧
    (∀ (authorID : UUID) (a : Option entity.Author) (e : GoError),
      uuid.Parse req.AuthorID = some authorID →
      (authorRepository.GetByID authorID world.store).1 = (a, some e) →
      AnswersError w
        (book.BookHandler.CreateBook uuid json
          { service := book.NewBookService uuid repository authorRepository
            validator := v } w r world).2.1
        404 "Author not found") := by
  constructor
  · intro hparse
    have hs : (book.NewBookService uuid repository authorRepository).CreateBook req world =
        (Outcome.ok (none, some book.ErrInvalidAuthorId), world) := by
      simp [book.NewBookService, book.bookService.CreateBook, hparse]
    rw [bookHandler_CreateBook_on_error uuid json
      { service := book.NewBookService uuid repository authorRepository, validator := v }
      w r world world req none book.ErrInvalidAuthorId hdecode hvalid hs]
    exact bookHandler_handleError_answers_invalid_author_id
      { service := book.NewBookService uuid repository authorRepository, validator := v } w world hw
  · intro authorID a e hparse hget
    have hs : (book.NewBookService uuid repository authorRepository).CreateBook req world =
        (Outcome.ok (none, some author.ErrNotFound),
          (authorRepository.callGetByID authorID world).2) :=
      createBook_of_lookup_error uuid ⟨repository, authorRepository⟩ req world authorID a e
        hparse hget
    rw [bookHandler_CreateBook_on_error uuid json
      { service := book.NewBookService uuid repository authorRepository, validator := v }
      w r world _ req none author.ErrNotFound hdecode hvalid hs]
    exact bookHandler_handleError_answers_author_not_found
      { service := book.NewBookService uuid repository authorRepository, validator := v } w _ hw

/-- C12 on the stored author `tolkien`: the author id `invalid-uuid` is
answered 400, an identifier that names no author 404. -/
theorem createBook_handler_rejects_author_witness :
    AnswersError ResponseWriter.new
      (sample.emptyBookHandler.CreateBook sample.uuid sample.json ResponseWriter.new
        (sample.request "" "invalid-uuid") sample.world).2.1
      400 "invalid author ID" ∧
    AnswersError ResponseWriter.new
      (sample.emptyBookHandler.CreateBook sample.uuid sample.json ResponseWriter.new
        (sample.request "" "00000000-0000-0000-0000-000000000001") sample.world).2.1
      404 "Author not found" :=
  ⟨(createBook_handler_rejects_author sample.uuid sample.json sample.emptyBookRepository
      sample.authorRepository sample.validator ResponseWriter.new
      (sample.request "" "invalid-uuid") sample.world
      ⟨"invalid-uuid", "invalid-uuid", "invalid-uuid"⟩ rfl (by decide) (by decide)).1
      (by decide),
   (createBook_handler_rejects_author sample.uuid sample.json sample.emptyBookRepository
      sample.authorRepository sample.validator ResponseWriter.new
      (sample.request "" "00000000-0000-0000-0000-000000000001") sample.world
      ⟨"00000000-0000-0000-0000-000000000001", "00000000-0000-0000-0000-000000000001",
        "00000000-0000-0000-0000-000000000001"⟩ rfl (by decide) (by decide)).2
      ⟨1⟩ none author.ErrNotFound (by decide) rfl⟩

/-- C13, the code at a failing input. For `GET /books/{book_id}` with an
identifier that names no book, the service returns `(nil, ErrNotFound)`; the
handler writes the 404 envelope and then, having not returned, passes the nil
book to `dto.ToBookResponse` and panics. When a service returns a book
together with an error, the handler writes the success envelope after the
error envelope. -/
theorem getBookByID_handler_runs_on_after_error :
    (sample.bookHandler.GetBookByID sample.uuid ResponseWriter.new
        (sample.request "00000000-0000-0000-0000-000000000009" "") sample.world).1
      = Outcome.panic ∧
    (sample.bookHandler.GetBookByID sample.uuid ResponseWriter.new
        (sample.request "00000000-0000-0000-0000-000000000009" "") sample.world).2.1
      = { header := [("Content-Type", "application/json")], code := some 404,
          body := [Data.error { Status := "error", Message := "Book not found" }] } ∧
    ((sample.stubBookHandler (some sample.hobbit) (some book.ErrNotFound)).GetBookByID
        sample.uuid ResponseWriter.new
        (sample.request "00000000-0000-0000-0000-000000000007" "") sample.world).2.1
      = { header := [("Content-Type", "application/json")], code := some 404,
          body := [Data.error { Status := "error", Message := "Book not found" },
            Data.book
              { Status := "success"
                Message := "Book retrieved successfully"
                Book := some
                  { ID := "00000000-0000-0000-0000-000000000007"
                    Title := "The Hobbit"
                    Author := some
                      { ID := "00000000-0000-0000-0000-00000000002a"
                        Name := "J.R.R. Tolkien" } } }] } := by
  refine ⟨by decide, by decide, by decide⟩

/-! ## Theorems: requests the handlers reject before the service -/

/-- C14: when the path identifier does not parse as a UUID, `GetAuthorByID`
(parameter `author_id`), `GetBookByID`, `UpdateBook` and `DeleteBook`
(parameter `book_id`) answer 400 with the envelope `{status: "error",
message: "Invalid uuid"}` and return with the world as it was. The service is
not called: the run is the same whatever handler, and so whatever service, it
is made on. -/
theorem handlers_reject_malformed_path_id {σ : Type} (uuid : UUIDPackage) (json : JSONPackage)
    (ah : author.AuthorHandler σ) (bh : book.BookHandler σ) (w : ResponseWriter)
    (r : Request) (world : World σ) (hw : w.code = none) :
    (uuid.Parse (r.URLParam "author_id") = none →
      RejectsWith w world (ah.GetAuthorByID uuid w r world) 400 "Invalid uuid" ∧
      ∀ other : author.AuthorHandler σ,
        other.GetAuthorByID uuid w r world = ah.GetAuthorByID uuid w r world) ∧
    (uuid.Parse (r.URLParam "book_id") = none →
      (RejectsWith w world (bh.GetBookByID uuid w r world) 400 "Invalid uuid" ∧
        ∀ other : book.BookHandler σ,
          other.GetBookByID uuid w r world = bh.GetBookByID uuid w r world) ∧
      (RejectsWith w world (bh.UpdateBook uuid json w r world) 400 "Invalid uuid" ∧
        ∀ other : book.BookHandler σ,
          other.UpdateBook uuid json w r world = bh.UpdateBook uuid json w r world) ∧
      (RejectsWith w world (bh.DeleteBook uuid w r world) 400 "Invalid uuid" ∧
        ∀ other : book.BookHandler σ,
          other.DeleteBook uuid w r world = bh.DeleteBook uuid w r world)) := by
  have ans := response_Error_answers w 400 "Invalid uuid" hw
  constructor
  · intro hparse
    have e : ∀ h : author.AuthorHandler σ, h.GetAuthorByID uuid w r world =
        (Outcome.ok (), response.Error w 400 "Invalid uuid", world) := by
      intro h; simp [author.AuthorHandler.GetAuthorByID, hparse]
    refine ⟨?_, fun other => by rw [e other, e ah]⟩
    rw [e ah]; exact ⟨rfl, ans, rfl⟩
  · intro hparse
    have e1 : ∀ h : book.BookHandler σ, h.GetBookByID uuid w r world =
        (Outcome.ok (), response.Error w 400 "Invalid uuid", world) := by
      intro h; simp [book.BookHandler.GetBookByID, hparse]
    have e2 : ∀ h : book.BookHandler σ, h.UpdateBook uuid json w r world =
        (Outcome.ok (), response.Error w 400 "Invalid uuid", world) := by
      intro h; simp [book.BookHandler.UpdateBook, hparse]
    have e3 : ∀ h : book.BookHandler σ, h.DeleteBook uuid w r world =
        (Outcome.ok (), response.Error w 400 "Invalid uuid", world) := by
      intro h; simp [book.BookHandler.DeleteBook, hparse]
    refine ⟨⟨?_, fun other => by rw [e1 other, e1 bh]⟩,
      ⟨?_, fun other => by rw [e2 other, e2 bh]⟩,
      ⟨?_, fun other => by rw [e3 other, e3 bh]⟩⟩
    · rw [e1 bh]; exact ⟨rfl, ans, rfl⟩
    · rw [e2 bh]; exact ⟨rfl, ans, rfl⟩
    · rw [e3 bh]; exact ⟨rfl, ans, rfl⟩

/-- C14 at the path identifier `invalid-uuid`, for `GetAuthorByID` and
`DeleteBook`. -/
theorem handlers_reject_malformed_path_id_witness :
    RejectsWith ResponseWriter.new sample.world
      (sample.authorHandler.GetAuthorByID sample.uuid ResponseWriter.new
        (sample.request "invalid-uuid" "") sample.world) 400 "Invalid uuid" ∧
    RejectsWith ResponseWriter.new sample.world
      (sample.bookHandler.DeleteBook sample.uuid ResponseWriter.new
        (sample.request "invalid-uuid" "") sample.world) 400 "Invalid uuid" :=
  ⟨((handlers_reject_malformed_path_id sample.uuid sample.json sample.authorHandler
      sample.bookHandler ResponseWriter.new (sample.request "invalid-uuid" "") sample.world
      rfl).1 (by decide)).1,
   ((handlers_reject_malformed_path_id sample.uuid sample.json sample.authorHandler
      sample.bookHandler ResponseWriter.new (sample.request "invalid-uuid" "") sample.world
      rfl).2 (by decide)).2.2.1⟩

/-- C15: when the body does not decode as JSON, `CreateAuthor`, `CreateBook`
and, for a path identifier that parses, `UpdateBook` answer 400 with the
envelope `{status: "error", message: "Invalid request body"}` and return with
the world as it was. Neither the validator nor the service is used: the run
is the same whatever handler, and so whatever validator and service, it is
made on. -/
theorem handlers_reject_undecodable_body {σ : Type} (uuid : UUIDPackage) (json : JSONPackage)
    (ah : author.AuthorHandler σ) (bh : book.BookHandler σ) (w : ResponseWriter)
    (r : Request) (world : World σ) (hw : w.code = none) :
    (json.DecodeCreateAuthorRequest r.Body = none →
      RejectsWith w world (ah.CreateAuthor uuid json w r world) 400 "Invalid request body" ∧
      ∀ other : author.AuthorHandler σ,
        other.CreateAuthor uuid json w r world = ah.CreateAuthor uuid json w r world) ∧
    (json.DecodeCreateBookRequest r.Body = none →
      RejectsWith w world (bh.CreateBook uuid json w r world) 400 "Invalid request body" ∧
      ∀ other : book.BookHandler σ,
        other.CreateBook uuid json w r world = bh.CreateBook uuid json w r world) ∧
    (∀ bookID : UUID, uuid.Parse (r.URLParam "book_id") = some bookID →
      json.DecodeUpdateBookRequest r.Body = none →
      RejectsWith w world (bh.UpdateBook uuid json w r world) 400 "Invalid request body" ∧
      ∀ other : book.BookHandler σ,
        other.UpdateBook uuid json w r world = bh.UpdateBook uuid json w r world) := by
  have ans := response_Error_answers w 400 "Invalid request body" hw
  refine ⟨?_, ?_, ?_⟩
  · intro hdecode
    have e : ∀ h : author.AuthorHandler σ, h.CreateAuthor uuid json w r world =
        (Outcome.ok (), response.Error w 400 "Invalid request body", world) := by
      intro h; simp [author.AuthorHandler.CreateAuthor, hdecode]
    refine ⟨?_, fun other => by rw [e other, e ah]⟩
    rw [e ah]; exact ⟨rfl, ans, rfl⟩
  · intro hdecode
    have e : ∀ h : book.BookHandler σ, h.CreateBook uuid json w r world =
        (Outcome.ok (), response.Error w 400 "Invalid request body", world) := by
      intro h; simp [book.BookHandler.CreateBook, hdecode]
    refine ⟨?_, fun other => by rw [e other, e bh]⟩
    rw [e bh]; exact ⟨rfl, ans, rfl⟩
  · intro bookID hparse hdecode
    have e : ∀ h : book.BookHandler σ, h.UpdateBook uuid json w r world =
        (Outcome.ok (), response.Error w 400 "Invalid request body", world) := by
      intro h; simp [book.BookHandler.UpdateBook, hparse, hdecode]
    refine ⟨?_, fun other => by rw [e other, e bh]⟩
    rw [e bh]; exact ⟨rfl, ans, rfl⟩

/-- C15 at the empty body, for `CreateAuthor` and for `UpdateBook` on the
identifier of the stored book. -/
theorem handlers_reject_undecodable_body_witness :
    RejectsWith ResponseWriter.new sample.world
      (sample.authorHandler.CreateAuthor sample.uuid sample.json ResponseWriter.new
        (sample.request "" "") sample.world) 400 "Invalid request body" ∧
    RejectsWith ResponseWriter.new sample.world
      (sample.bookHandler.UpdateBook sample.uuid sample.json ResponseWriter.new
        (sample.request "00000000-0000-0000-0000-000000000007" "") sample.world)
      400 "Invalid request body" :=
  ⟨((handlers_reject_undecodable_body sample.uuid sample.json sample.authorHandler
      sample.bookHandler ResponseWriter.new (sample.request "" "") sample.world
      rfl).1 (by decide)).1,
   ((handlers_reject_undecodable_body sample.uuid sample.json sample.authorHandler
      sample.bookHandler ResponseWriter.new
      (sample.request "00000000-0000-0000-0000-000000000007" "") sample.world
      rfl).2.2 ⟨7⟩ (by decide) (by decide)).1⟩

/-- On a writer with no status code yet, `response.JSON` answers with the
given status code and appends the given value to the body. -/
theorem response_JSON_answers (w : ResponseWriter) (status : Nat) (data : Data)
    (hw : w.code = none) : AnswersWith w (response.JSON w status data) status data := by
  simp [AnswersWith, response.JSON, ResponseWriter.Write, ResponseWriter.WriteHeader,
    ResponseWriter.SetHeader, hw]

/-- C16: when the decoded body fails validation with the failures `ve`,
`CreateAuthor`, `CreateBook` and `UpdateBook` answer 400 with the envelope
`{status: "error", message: "Validation failed", errors}` whose `errors` hold,
in the order of `ve`, one `{field, message}` entry for each failure, with the
failure's field name and its template message; they return with the world as
it was and the run is the same whatever service the handler has. A `required`
failure on `Name` gives the message "Name is required". -/
theorem handlers_answer_validation_failure {σ : Type} (uuid : UUIDPackage)
    (json : JSONPackage) (ah : author.AuthorHandler σ) (bh : book.BookHandler σ)
    (w : ResponseWriter) (r : Request) (world : World σ) (hw : w.code = none) :
    (∀ (req : author.dto.CreateAuthorRequest) (err : GoError) (ve : List FieldError),
      json.DecodeCreateAuthorRequest r.Body = some req →
      ah.validator.Struct (.createAuthor req) = some err →
      validator.asValidationErrors err = some ve →
        (ah.CreateAuthor uuid json w r world).1 = Outcome.ok () ∧
        AnswersWith w (ah.CreateAuthor uuid json w r world).2.1 400
          (.validationError
            { Status := "error", Message := "Validation failed",
              Errors := ve.map (fun fe =>
                { Field := fe.Field, Message := validator.getErrorMessage fe }) }) ∧
        (ah.CreateAuthor uuid json w r world).2.2 = world ∧
        ∀ service : author.AuthorService σ,
          author.AuthorHandler.CreateAuthor uuid json
            { service := service, validator := ah.validator } w r world =
          ah.CreateAuthor uuid json w r world) ∧
    (∀ (req : book.dto.CreateBookRequest) (err : GoError) (ve : List FieldError),
      json.DecodeCreateBookRequest r.Body = some req →
      bh.validator.Struct (.createBook req) = some err →
      validator.asValidationErrors err = some ve →
        (bh.CreateBook uuid json w r world).1 = Outcome.ok () ∧
        AnswersWith w (bh.CreateBook uuid json w r world).2.1 400
          (.validationError
            { Status := "error", Message := "Validation failed",
              Errors := ve.map (fun fe =>
                { Field := fe.Field, Message := validator.getErrorMessage fe }) }) ∧
        (bh.CreateBook uuid json w r world).2.2 = world ∧
        ∀ service : book.BookService σ,
          book.BookHandler.CreateBook uuid json
            { service := service, validator := bh.validator } w r world =
          bh.CreateBook uuid json w r world) ∧
    (∀ (bookID : UUID) (req : book.dto.UpdateBookRequest) (err : GoError)
        (ve : List FieldError),
      uuid.Parse (r.URLParam "book_id") = some bookID →
      json.DecodeUpdateBookRequest r.Body = some req →
      bh.validator.Struct (.updateBook req) = some err →
      validator.asValidationErrors err = some ve →
        (bh.UpdateBook uuid json w r world).1 = Outcome.ok () ∧
        AnswersWith w (bh.UpdateBook uuid json w r world).2.1 400
          (.validationError
            { Status := "error", Message := "Validation failed",
              Errors := ve.map (fun fe =>
                { Field := fe.Field, Message := validator.getErrorMessage fe }) }) ∧
        (bh.UpdateBook uuid json w r world).2.2 = world ∧
        ∀ service : book.BookService σ,
          book.BookHandler.UpdateBook uuid json
            { service := service, validator := bh.validator } w r world =
          bh.UpdateBook uuid json w r world) ∧
    (∀ param : String,
      validator.getErrorMessage { Field := "Name", Tag := "required", Param := param } =
        "Name is required") := by
  refine ⟨?_, ?_, ?_, ?_⟩
  · intro req err ve hdecode hvalid hve
    have e : ∀ service : author.AuthorService σ,
        author.AuthorHandler.CreateAuthor uuid json
          { service := service, validator := ah.validator } w r world =
        (Outcome.ok (), response.ValidationError w
          (ve.map (fun fe => { Field := fe.Field, Message := validator.getErrorMessage fe })),
          world) := by
      intro service
      simp [author.AuthorHandler.CreateAuthor, hdecode, hvalid,
        validator.Validator.FormatErrors, hve]
    have e0 := e ah.service
    refine ⟨by rw [e0], ?_, by rw [e0], fun service => by rw [e service, e0]⟩
    rw [e0]
    exact response_JSON_answers w 400 _ hw
  · intro req err ve hdecode hvalid hve
    have e : ∀ service : book.BookService σ,
        book.BookHandler.CreateBook uuid json
          { service := service, validator := bh.validator } w r world =
        (Outcome.ok (), response.ValidationError w
          (ve.map (fun fe => { Field := fe.Field, Message := validator.getErrorMessage fe })),
          world) := by
      intro service
      simp [book.BookHandler.CreateBook, hdecode, hvalid,
        validator.Validator.FormatErrors, hve]
    have e0 := e bh.service
    refine ⟨by rw [e0], ?_, by rw [e0], fun service => by rw [e service, e0]⟩
    rw [e0]
    exact response_JSON_answers w 400 _ hw
  · intro bookID req err ve hparse hdecode hvalid hve
    have e : ∀ service : book.BookService σ,
        book.BookHandler.UpdateBook uuid json
          { service := service, validator := bh.validator } w r world =
        (Outcome.ok (), response.ValidationError w
          (ve.map (fun fe => { Field := fe.Field, Message := validator.getErrorMessage fe })),
          world) := by
      intro service
      simp [book.BookHandler.UpdateBook, hparse, hdecode, hvalid,
        validator.Validator.FormatErrors, hve]
    have e0 := e bh.service
    refine ⟨by rw [e0], ?_, by rw [e0], fun service => by rw [e service, e0]⟩
    rw [e0]
    exact response_JSON_answers w 400 _ hw
  · intro param
    rfl

/-- C16 at a `CreateAuthorRequest` with the empty name: the one entry is
field "Name", message "Name is required". -/
theorem handlers_answer_validation_failure_witness :
    AnswersWith ResponseWriter.new
      (sample.authorHandler.CreateAuthor sample.uuid sample.json ResponseWriter.new
        (sample.request "" "{}") sample.world).2.1 400
      (.validationError
        { Status := "error", Message := "Validation failed",
          Errors := [{ Field := "Name", Message := "Name is required" }] }) ∧
    (sample.authorHandler.CreateAuthor sample.uuid sample.json ResponseWriter.new
        (sample.request "" "{}") sample.world).2.2 = sample.world :=
  have h := (handlers_answer_validation_failure sample.uuid sample.json sample.authorHandler
    sample.bookHandler ResponseWriter.new (sample.request "" "{}") sample.world rfl).1
    ⟨""⟩ (.validationErrors [{ Field := "Name", Tag := "required", Param := "" }])
    [{ Field := "Name", Tag := "required", Param := "" }] (by decide) (by decide) rfl
  ⟨h.2.1, h.2.2.1⟩

/-! ## Theorems: successful requests -/

/-- C17: for an author `a` that the author service returns without error,
`CreateAuthor` answers 201 with `{status: "success", message: "Author created
successfully", author: ToAuthorResponse(a)}` and `GetAuthorByID` answers 200
with `{status: "success", message: "Author retrieved successfully", author:
ToAuthorResponse(a)}`. Of the book handlers, `CreateBook` answers a success
with 201 and `GetAllBooks`, `GetBookByID`, `UpdateBook`, `DeleteBook` and
`AuthTestRoute` answer it with 200. -/
theorem handlers_answer_success {σ : Type} (uuid : UUIDPackage) (json : JSONPackage)
    (ah : author.AuthorHandler σ) (bh : book.BookHandler σ) (w : ResponseWriter)
    (r : Request) (world : World σ) (hw : w.code = none) :
    (∀ (req : author.dto.CreateAuthorRequest) (a : entity.Author) (world1 : World σ),
      json.DecodeCreateAuthorRequest r.Body = some req →
      ah.validator.Struct (.createAuthor req) = none →
      ah.service.CreateAuthor req world = (Outcome.ok (some a, none), world1) →
        ∃ resp, author.dto.ToAuthorResponse uuid (some a) = Outcome.ok resp ∧
          AnswersWith w (ah.CreateAuthor uuid json w r world).2.1 201
            (.author { Status := "success", Message := "Author created successfully",
                       Author := some resp })) ∧
    (∀ (authorID : UUID) (a : entity.Author) (world1 : World σ),
      uuid.Parse (r.URLParam "author_id") = some authorID →
      ah.service.GetAuthorByID authorID world = (Outcome.ok (some a, none), world1) →
        ∃ resp, author.dto.ToAuthorResponse uuid (some a) = Outcome.ok resp ∧
          AnswersWith w (ah.GetAuthorByID uuid w r world).2.1 200
            (.author { Status := "success", Message := "Author retrieved successfully",
                       Author := some resp })) ∧
    (∀ (req : book.dto.CreateBookRequest) (b : entity.Book) (world1 : World σ),
      json.DecodeCreateBookRequest r.Body = some req →
      bh.validator.Struct (.createBook req) = none →
      bh.service.CreateBook req world = (Outcome.ok (some b, none), world1) →
        ∃ resp, book.dto.ToBookResponse uuid (some b) = Outcome.ok resp ∧
          AnswersWith w (bh.CreateBook uuid json w r world).2.1 201
            (.book { Status := "success", Message := "Book created successfully",
                     Book := some resp })) ∧
    (∀ (books : List (Option entity.Book)) (resps : List book.dto.BookResponse)
        (world1 : World σ),
      bh.service.GetAllBooks world = (Outcome.ok (books, none), world1) →
      book.dto.ToBooksResponse uuid books = Outcome.ok resps →
        AnswersWith w (bh.GetAllBooks uuid w world).2.1 200
          (.books { Status := "success", Message := "Books retrieved successfully",
                    Books := resps })) ∧
    (∀ (bookID : UUID) (b : entity.Book) (world1 : World σ),
      uuid.Parse (r.URLParam "book_id") = some bookID →
      bh.service.GetBookByID bookID world = (Outcome.ok (some b, none), world1) →
        ∃ resp, book.dto.ToBookResponse uuid (some b) = Outcome.ok resp ∧
          AnswersWith w (bh.GetBookByID uuid w r world).2.1 200
            (.book { Status := "success", Message := "Book retrieved successfully",
                     Book := some resp })) ∧
    (∀ (bookID : UUID) (req : book.dto.UpdateBookRequest) (b : entity.Book)
        (world1 : World σ),
      uuid.Parse (r.URLParam "book_id") = some bookID →
      json.DecodeUpdateBookRequest r.Body = some req →
      bh.validator.Struct (.updateBook req) = none →
      bh.service.UpdateBook req bookID world = (Outcome.ok (some b, none), world1) →
        ∃ resp, book.dto.ToBookResponse uuid (some b) = Outcome.ok resp ∧
          AnswersWith w (bh.UpdateBook uuid json w r world).2.1 200
            (.book { Status := "success", Message := "Book updated successfully",
                     Book := some resp })) ∧
    (∀ (bookID : UUID) (world1 : World σ),
      uuid.Parse (r.URLParam "book_id") = some bookID →
      bh.service.DeleteBook bookID world = (Outcome.ok none, world1) →
        AnswersWith w (bh.DeleteBook uuid w r world).2.1 200
          (.success { Status := "success", Message := "Book deleted successfully" })) ∧
    AnswersWith w (bh.AuthTestRoute w world).2.1 200
      (.success { Status := "success", Message := "ok" }) := by
  refine ⟨?_, ?_, ?_, ?_, ?_, ?_, ?_, ?_⟩
  · intro req a world1 hdecode hvalid hservice
    refine ⟨_, rfl, ?_⟩
    simpa [author.AuthorHandler.CreateAuthor, hdecode, hvalid, hservice,
      author.dto.ToAuthorResponse] using response_JSON_answers w 201 _ hw
  · intro authorID a world1 hparse hservice
    refine ⟨_, rfl, ?_⟩
    simpa [author.AuthorHandler.GetAuthorByID, hparse, hservice,
      author.dto.ToAuthorResponse] using response_JSON_answers w 200 _ hw
  · intro req b world1 hdecode hvalid hservice
    refine ⟨_, rfl, ?_⟩
    simpa [book.BookHandler.CreateBook, hdecode, hvalid, hservice,
      book.dto.ToBookResponse] using response_JSON_answers w 201 _ hw
  · intro books resps world1 hservice hresps
    simpa [book.BookHandler.GetAllBooks, hservice, hresps] using
      response_JSON_answers w 200 _ hw
  · intro bookID b world1 hparse hservice
    refine ⟨_, rfl, ?_⟩
    simpa [book.BookHandler.GetBookByID, hparse, hservice,
      book.dto.ToBookResponse] using response_JSON_answers w 200 _ hw
  · intro bookID req b world1 hparse hdecode hvalid hservice
    refine ⟨_, rfl, ?_⟩
    simpa [book.BookHandler.UpdateBook, hparse, hdecode, hvalid, hservice,
      book.dto.ToBookResponse] using response_JSON_answers w 200 _ hw
  · intro bookID world1 hparse hservice
    simpa [book.BookHandler.DeleteBook, hparse, hservice, response.Success] using
      response_JSON_answers w 200 _ hw
  · simpa [book.BookHandler.AuthTestRoute, response.Success] using
      response_JSON_answers w 200 _ hw

/-- C17 at the author of the handler tests: `CreateAuthor` answers 201 and
`GetAuthorByID` 200, both with the author's identifier in its 36-character
form and the author's name. -/
theorem handlers_answer_success_witness :
    AnswersWith ResponseWriter.new
      ((sample.stubAuthorHandler sample.martin).CreateAuthor sample.uuid sample.json
        ResponseWriter.new (sample.request "" "George R.R. Martin") sample.world).2.1 201
      (.author
        { Status := "success", Message := "Author created successfully",
          Author := some { ID := "aeca0955-bae4-47e9-9f85-6818dc68ca51",
                           Name := "George R.R. Martin" } }) ∧
    AnswersWith ResponseWriter.new
      ((sample.stubAuthorHandler sample.martin).GetAuthorByID sample.uuid
        ResponseWriter.new (sample.request "aeca0955-bae4-47e9-9f85-6818dc68ca51" "")
        sample.world).2.1 200
      (.author
        { Status := "success", Message := "Author retrieved successfully",
          Author := some { ID := "aeca0955-bae4-47e9-9f85-6818dc68ca51",
                           Name := "George R.R. Martin" } }) := by
  have hresp : author.dto.ToAuthorResponse sample.uuid (some sample.martin) =
      Outcome.ok { ID := "aeca0955-bae4-47e9-9f85-6818dc68ca51",
                   Name := "George R.R. Martin" } := by decide
  constructor
  · obtain ⟨resp, h1, h2⟩ := (handlers_answer_success sample.uuid sample.json
      (sample.stubAuthorHandler sample.martin) sample.bookHandler ResponseWriter.new
      (sample.request "" "George R.R. Martin") sample.world rfl).1
      ⟨"George R.R. Martin"⟩ sample.martin sample.world (by decide) (by decide) rfl
    rw [hresp] at h1
    rw [← Outcome.ok.inj h1] at h2
    exact h2
  · obtain ⟨resp, h1, h2⟩ := (handlers_answer_success sample.uuid sample.json
      (sample.stubAuthorHandler sample.martin) sample.bookHandler ResponseWriter.new
      (sample.request "aeca0955-bae4-47e9-9f85-6818dc68ca51" "") sample.world rfl).2.1
      ⟨0xaeca0955bae447e99f856818dc68ca51⟩ sample.martin sample.world (by decide) rfl
    rw [hresp] at h1
    rw [← Outcome.ok.inj h1] at h2
    exact h2

/-! ## Theorems: the repositories -/

/-- The hooks return no error, so `Create` on the database always reaches the
insertion, with the value as the hook of the author left it. -/
theorem gorm_CreateAuthor_inserts {σ : Type} (gen : UUIDGenerator σ) (db : gorm.DB σ)
    (a : entity.Author) (s : σ) :
    db.CreateAuthor gen a s =
      db.insertAuthor (entity.Author.mk (gen.New s).1 a.Name a.Book a.CreatedAt a.UpdatedAt)
        (gen.New s).2 := rfl

/-- The hooks return no error, so `Create` on the database always reaches the
insertion, with the value as the hook of the book left it. -/
theorem gorm_CreateBook_inserts {σ : Type} (gen : UUIDGenerator σ) (db : gorm.DB σ)
    (b : entity.Book) (s : σ) :
    db.CreateBook gen b s =
      db.insertBook (entity.Book.mk (gen.New s).1 b.Title b.Description b.AuthorID b.Author
        b.CreatedAt b.UpdatedAt) (gen.New s).2 := rfl

/-- C18: the `Create` of the author and of the book repository. When the call
on the database leaves an error that matches `gorm.ErrDuplicatedKey`, the
result is `(nil, ErrDuplicate)` of the package; when it leaves any other
error, the result is `(nil, that error)`; when it leaves no error, the result
is the entity the call left behind the pointer, with a nil error. That entity
carries the identifier the `BeforeCreate` hook drew, which is not the nil
UUID, and the caller's name (title, description and author id), given that
`uuid.New` never returns the nil UUID and that the insertion itself leaves
those fields as it finds them. -/
theorem repository_create_results {σ : Type} (gen : UUIDGenerator σ)
    (ar : author.authorRepository σ) (br : book.bookRepository σ) (st : Backend σ)
    (a : entity.Author) (b : entity.Book) :
    (∀ e : GoError, (ar.db.CreateAuthor gen a st.db).1.2 = some e →
      errors.Is e gorm.ErrDuplicatedKey = true →
        (ar.Create gen a st).1 = (none, some author.ErrDuplicate)) ∧
    (∀ e : GoError, (ar.db.CreateAuthor gen a st.db).1.2 = some e →
      errors.Is e gorm.ErrDuplicatedKey = false →
        (ar.Create gen a st).1 = (none, some e)) ∧
    ((ar.db.CreateAuthor gen a st.db).1.2 = none →
      (∀ s : σ, (gen.New s).1 ≠ UUID.Nil) →
      (∀ (v : entity.Author) (s : σ),
        (ar.db.insertAuthor v s).1.1.ID = v.ID ∧ (ar.db.insertAuthor v s).1.1.Name = v.Name) →
        ∃ created : entity.Author,
          (ar.Create gen a st).1 = (some created, none) ∧
          created.ID = (gen.New st.db).1 ∧ created.ID ≠ UUID.Nil ∧
          created.Name = a.Name) ∧
    (∀ e : GoError, (br.db.CreateBook gen b st.db).1.2 = some e →
      errors.Is e gorm.ErrDuplicatedKey = true →
        (br.Create gen b st).1 = (none, some book.ErrDuplicate)) ∧
    (∀ e : GoError, (br.db.CreateBook gen b st.db).1.2 = some e →
      errors.Is e gorm.ErrDuplicatedKey = false →
        (br.Create gen b st).1 = (none, some e)) ∧
    ((br.db.CreateBook gen b st.db).1.2 = none →
      (∀ s : σ, (gen.New s).1 ≠ UUID.Nil) →
      (∀ (v : entity.Book) (s : σ),
        (br.db.insertBook v s).1.1.ID = v.ID ∧ (br.db.insertBook v s).1.1.Title = v.Title ∧
        (br.db.insertBook v s).1.1.Description = v.Description ∧
        (br.db.insertBook v s).1.1.AuthorID = v.AuthorID) →
        ∃ created : entity.Book,
          (br.Create gen b st).1 = (some created, none) ∧
          created.ID = (gen.New st.db).1 ∧ created.ID ≠ UUID.Nil ∧
          created.Title = b.Title ∧ created.Description = b.Description ∧
          created.AuthorID = b.AuthorID) := by
  refine ⟨?_, ?_, ?_, ?_, ?_, ?_⟩
  · intro e herr hdup
    simp [author.authorRepository.Create, herr, hdup]
  · intro e herr hdup
    simp [author.authorRepository.Create, herr, hdup]
  · intro herr hnew hkeep
    refine ⟨(ar.db.CreateAuthor gen a st.db).1.1, ?_, ?_, ?_, ?_⟩
    · simp [author.authorRepository.Create, herr]
    · rw [gorm_CreateAuthor_inserts]
      exact (hkeep _ _).1
    · rw [gorm_CreateAuthor_inserts, (hkeep _ _).1]
      exact hnew st.db
    · rw [gorm_CreateAuthor_inserts]
      exact (hkeep _ _).2
  · intro e herr hdup
    simp [book.bookRepository.Create, herr, hdup]
  · intro e herr hdup
    simp [book.bookRepository.Create, herr, hdup]
  · intro herr hnew hkeep
    refine ⟨(br.db.CreateBook gen b st.db).1.1, ?_, ?_, ?_, ?_, ?_, ?_⟩
    · simp [book.bookRepository.Create, herr]
    · rw [gorm_CreateBook_inserts]
      exact (hkeep _ _).1
    · rw [gorm_CreateBook_inserts, (hkeep _ _).1]
      exact hnew st.db
    · rw [gorm_CreateBook_inserts]
      exact (hkeep _ _).2.1
    · rw [gorm_CreateBook_inserts]
      exact (hkeep _ _).2.2.1
    · rw [gorm_CreateBook_inserts]
      exact (hkeep _ _).2.2.2

/-- C18 on the sample database: a second author named like the stored one
gives `ErrDuplicate`, a database that fails with another error gives that
error, and a new author comes back with a generated identifier and its name;
likewise for books. -/
theorem repository_create_results_witness :
    (author.authorRepository.Create sample.generator ⟨sample.db⟩
        (.mk UUID.Nil "J.R.R. Tolkien" [] time.Time.zero time.Time.zero) sample.backend).1
      = (none, some author.ErrDuplicate) ∧
    (author.authorRepository.Create sample.generator ⟨sample.brokenDB⟩
        (.mk UUID.Nil "Victor Hugo" [] time.Time.zero time.Time.zero) sample.backend).1
      = (none, some (.other "invalid db")) ∧
    (∃ created : entity.Author,
      (author.authorRepository.Create sample.generator ⟨sample.db⟩
        (.mk UUID.Nil "Victor Hugo" [] time.Time.zero time.Time.zero) sample.backend).1
        = (some created, none) ∧
      created.ID = ⟨101⟩ ∧ created.ID ≠ UUID.Nil ∧ created.Name = "Victor Hugo") ∧
    (book.bookRepository.Create sample.generator ⟨sample.db⟩
        (.mk UUID.Nil "The Hobbit" "Again" (some sample.id42) none
          time.Time.zero time.Time.zero) sample.backend).1
      = (none, some book.ErrDuplicate) ∧
    (∃ created : entity.Book,
      (book.bookRepository.Create sample.generator ⟨sample.db⟩
        (.mk UUID.Nil "Dune" "A desert planet" (some sample.id42) none
          time.Time.zero time.Time.zero) sample.backend).1
        = (some created, none) ∧
      created.ID = ⟨101⟩ ∧ created.ID ≠ UUID.Nil ∧ created.Title = "Dune" ∧
      created.Description = "A desert planet" ∧ created.AuthorID = some sample.id42) :=
  have hnew : ∀ s : sample.Tables, (sample.generator.New s).1 ≠ UUID.Nil := by
    intro s h
    simp [sample.generator, UUID.Nil] at h
  have hkeepA : ∀ (v : entity.Author) (s : sample.Tables),
      (sample.db.insertAuthor v s).1.1.ID = v.ID ∧
      (sample.db.insertAuthor v s).1.1.Name = v.Name := by
    intro v s
    simp only [sample.db]
    split <;> exact ⟨rfl, rfl⟩
  have hkeepB : ∀ (v : entity.Book) (s : sample.Tables),
      (sample.db.insertBook v s).1.1.ID = v.ID ∧
      (sample.db.insertBook v s).1.1.Title = v.Title ∧
      (sample.db.insertBook v s).1.1.Description = v.Description ∧
      (sample.db.insertBook v s).1.1.AuthorID = v.AuthorID := by
    intro v s
    simp only [sample.db]
    split <;> exact ⟨rfl, rfl, rfl, rfl⟩
  ⟨(repository_create_results sample.generator ⟨sample.db⟩ ⟨sample.db⟩ sample.backend
      (.mk UUID.Nil "J.R.R. Tolkien" [] time.Time.zero time.Time.zero) sample.hobbit).1
      gorm.ErrDuplicatedKey rfl (by decide),
   (repository_create_results sample.generator ⟨sample.brokenDB⟩ ⟨sample.db⟩ sample.backend
      (.mk UUID.Nil "Victor Hugo" [] time.Time.zero time.Time.zero) sample.hobbit).2.1
      (.other "invalid db") rfl (by decide),
   (repository_create_results sample.generator ⟨sample.db⟩ ⟨sample.db⟩ sample.backend
      (.mk UUID.Nil "Victor Hugo" [] time.Time.zero time.Time.zero) sample.hobbit).2.2.1
      rfl hnew hkeepA,
   (repository_create_results sample.generator ⟨sample.db⟩ ⟨sample.db⟩ sample.backend
      sample.tolkien
      (.mk UUID.Nil "The Hobbit" "Again" (some sample.id42) none
        time.Time.zero time.Time.zero)).2.2.2.1
      gorm.ErrDuplicatedKey rfl (by decide),
   (repository_create_results sample.generator ⟨sample.db⟩ ⟨sample.db⟩ sample.backend
      sample.tolkien
      (.mk UUID.Nil "Dune" "A desert planet" (some sample.id42) none
        time.Time.zero time.Time.zero)).2.2.2.2.2
      rfl hnew hkeepB⟩

/-- C19: the `GetByID` of the author and of the book repository. When the
query leaves an error that matches `gorm.ErrRecordNotFound`, the result is
`(nil, ErrNotFound)` of the package; when it leaves any other error, the
result is `(nil, that error)`; when it leaves no error, the result is the row
it read, with a nil error. -/
theorem repository_getByID_results {σ : Type} (ar : author.authorRepository σ)
    (br : book.bookRepository σ) (st : Backend σ) (id : UUID) :
    (∀ e : GoError, (ar.db.firstAuthor id st.db).1.2 = some e →
      errors.Is e gorm.ErrRecordNotFound = true →
        (ar.GetByID id st).1 = (none, some author.ErrNotFound)) ∧
    (∀ e : GoError, (ar.db.firstAuthor id st.db).1.2 = some e →
      errors.Is e gorm.ErrRecordNotFound = false →
        (ar.GetByID id st).1 = (none, some e)) ∧
    (∀ row : Option entity.Author, (ar.db.firstAuthor id st.db).1 = (row, none) →
        (ar.GetByID id st).1 = (row, none)) ∧
    (∀ e : GoError, (br.db.firstBook id st.db).1.2 = some e →
      errors.Is e gorm.ErrRecordNotFound = true →
        (br.GetByID id st).1 = (none, some book.ErrNotFound)) ∧
    (∀ e : GoError, (br.db.firstBook id st.db).1.2 = some e →
      errors.Is e gorm.ErrRecordNotFound = false →
        (br.GetByID id st).1 = (none, some e)) ∧
    (∀ row : Option entity.Book, (br.db.firstBook id st.db).1 = (row, none) →
        (br.GetByID id st).1 = (row, none)) := by
  refine ⟨?_, ?_, ?_, ?_, ?_, ?_⟩
  · intro e herr hnf
    simp [author.authorRepository.GetByID, herr, hnf]
  · intro e herr hnf
    simp [author.authorRepository.GetByID, herr, hnf]
  · intro row hrow
    simp [author.authorRepository.GetByID, hrow]
  · intro e herr hnf
    simp [book.bookRepository.GetByID, herr, hnf]
  · intro e herr hnf
    simp [book.bookRepository.GetByID, herr, hnf]
  · intro row hrow
    simp [book.bookRepository.GetByID, hrow]

/-- C19 on the sample database: an identifier that names no row gives
`ErrNotFound`, a database that fails with another error gives that error, the
identifiers of the stored author and of the stored book give their rows. -/
theorem repository_getByID_results_witness :
    (author.authorRepository.GetByID ⟨sample.db⟩ ⟨1⟩ sample.backend).1
      = (none, some author.ErrNotFound) ∧
    (author.authorRepository.GetByID ⟨sample.brokenDB⟩ ⟨42⟩ sample.backend).1
      = (none, some (.other "invalid db")) ∧
    (author.authorRepository.GetByID ⟨sample.db⟩ ⟨42⟩ sample.backend).1
      = (some sample.tolkien, none) ∧
    (book.bookRepository.GetByID ⟨sample.db⟩ ⟨1⟩ sample.backend).1
      = (none, some book.ErrNotFound) ∧
    (book.bookRepository.GetByID ⟨sample.brokenDB⟩ ⟨7⟩ sample.backend).1
      = (none, some (.other "invalid db")) ∧
    (book.bookRepository.GetByID ⟨sample.db⟩ ⟨7⟩ sample.backend).1
      = (some sample.hobbit, none) :=
  ⟨(repository_getByID_results ⟨sample.db⟩ ⟨sample.db⟩ sample.backend ⟨1⟩).1
      gorm.ErrRecordNotFound rfl (by decide),
   (repository_getByID_results ⟨sample.brokenDB⟩ ⟨sample.db⟩ sample.backend ⟨42⟩).2.1
      (.other "invalid db") rfl (by decide),
   (repository_getByID_results ⟨sample.db⟩ ⟨sample.db⟩ sample.backend ⟨42⟩).2.2.1
      (some sample.tolkien) rfl,
   (repository_getByID_results ⟨sample.db⟩ ⟨sample.db⟩ sample.backend ⟨1⟩).2.2.2.1
      gorm.ErrRecordNotFound rfl (by decide),
   (repository_getByID_results ⟨sample.db⟩ ⟨sample.brokenDB⟩ sample.backend ⟨7⟩).2.2.2.2.1
      (.other "invalid db") rfl (by decide),
   (repository_getByID_results ⟨sample.db⟩ ⟨sample.db⟩ sample.backend ⟨7⟩).2.2.2.2.2
      (some sample.hobbit) rfl⟩

/-! ## Theorems: the author service -/

/-- C20: `authorService.CreateAuthor` calls the repository's `Create` once,
with the author whose `Name` is the request's and whose other fields are zero
values, and returns the pair that call returned. `GetAuthorByID` returns the
repository's author when `GetByID` returns no error, and `(nil, err)` with the
repository's error when it returns one. -/
theorem authorService_delegates {σ : Type} (t : author.authorService σ) (w : World σ)
    (req : author.dto.CreateAuthorRequest) (authorID : UUID) :
    ((t.CreateAuthor req w).1 =
        Outcome.ok (t.repository.Create
          (entity.Author.mk UUID.Nil req.Name [] time.Time.zero time.Time.zero) w.store).1 ∧
      (t.CreateAuthor req w).2.calls = w.calls ++
        [Call.authorCreate
          (entity.Author.mk UUID.Nil req.Name [] time.Time.zero time.Time.zero)] ∧
      (t.CreateAuthor req w).2.store = (t.repository.Create
          (entity.Author.mk UUID.Nil req.Name [] time.Time.zero time.Time.zero) w.store).2) ∧
    (∀ a : Option entity.Author, (t.repository.GetByID authorID w.store).1 = (a, none) →
      (t.GetAuthorByID authorID w).1 = Outcome.ok (a, none) ∧
      (t.GetAuthorByID authorID w).2.calls = w.calls ++ [Call.authorGetByID authorID]) ∧
    (∀ (a : Option entity.Author) (e : GoError),
      (t.repository.GetByID authorID w.store).1 = (a, some e) →
      (t.GetAuthorByID authorID w).1 = Outcome.ok (none, some e) ∧
      (t.GetAuthorByID authorID w).2.calls = w.calls ++ [Call.authorGetByID authorID]) := by
  refine ⟨⟨rfl, rfl, rfl⟩, ?_, ?_⟩
  · intro a hget
    have h1 : (t.repository.callGetByID authorID w).1 = (a, none) := hget
    unfold author.authorService.GetAuthorByID
    simp only
    split
    · rename_i heq; rw [heq] at h1; simp at h1
    · rename_i heq
      rw [heq] at h1
      simp only [Prod.mk.injEq, and_true] at h1
      subst h1
      exact ⟨rfl, rfl⟩
  · intro a e hget
    rw [getAuthorByID_of_error t authorID w a e hget]
    exact ⟨rfl, rfl⟩

/-- C20 on the author repository over a list, which holds `tolkien`: a known
identifier gives the author, an unknown one the repository's `ErrNotFound`,
and a second `tolkien` is passed to `Create` with zero values around the name. -/
theorem authorService_delegates_witness :
    (author.authorService.GetAuthorByID ⟨sample.authorRepository⟩ ⟨42⟩ sample.world).1
      = Outcome.ok (some sample.tolkien, none) ∧
    (author.authorService.GetAuthorByID ⟨sample.authorRepository⟩ ⟨1⟩ sample.world).1
      = Outcome.ok (none, some author.ErrNotFound) ∧
    (author.authorService.CreateAuthor ⟨sample.authorRepository⟩ ⟨"Frank Herbert"⟩
        sample.world).2.calls
      = sample.world.calls ++ [Call.authorCreate
          (entity.Author.mk UUID.Nil "Frank Herbert" [] time.Time.zero time.Time.zero)] :=
  ⟨((authorService_delegates ⟨sample.authorRepository⟩ sample.world ⟨"Frank Herbert"⟩
      ⟨42⟩).2.1 (some sample.tolkien) rfl).1,
   ((authorService_delegates ⟨sample.authorRepository⟩ sample.world ⟨"Frank Herbert"⟩
      ⟨1⟩).2.2 none author.ErrNotFound rfl).1,
   (authorService_delegates ⟨sample.authorRepository⟩ sample.world ⟨"Frank Herbert"⟩
      ⟨1⟩).1.2.1⟩

/-! ## Theorems: the response mappers -/

/-- C21: for every author entity, `ToAuthorResponse` returns the response
whose `ID` is the string form `ID.String()` of the entity's identifier and
whose `Name` is the entity's name. With a package that writes the
36-character form, the author of the test maps to the response of the test. -/
theorem toAuthorResponse_maps_id_and_name (uuid : UUIDPackage) (a : entity.Author) :
    author.dto.ToAuthorResponse uuid (some a) =
        Outcome.ok { ID := uuid.String a.ID, Name := a.Name } ∧
    author.dto.ToAuthorResponse sample.uuid (some sample.martin) =
        Outcome.ok { ID := "aeca0955-bae4-47e9-9f85-6818dc68ca51",
                     Name := "George R.R. Martin" } :=
  ⟨rfl, by decide⟩

/-- What `ToBookResponse` returns for a book that is not nil. -/
theorem toBookResponse_of_book (uuid : UUIDPackage) (b : entity.Book) :
    book.dto.ToBookResponse uuid (some b) =
      Outcome.ok
        { ID := uuid.String b.ID, Title := b.Title,
          Author := b.Author.map (fun a => { ID := uuid.String a.ID, Name := a.Name }) } := by
  unfold book.dto.ToBookResponse
  cases h : b.Author <;> simp [h]

/-- C22: for every book entity `b`, `ToBookResponse` returns a response whose
`ID` is the string form of `b.ID` and whose `Title` is `b.Title`; its `Author`
is absent exactly when `b.Author` is, and otherwise is what `ToAuthorResponse`
returns for `b.Author`. Two books that differ only in their description map
to the same response. -/
theorem toBookResponse_projects_book (uuid : UUIDPackage) (b : entity.Book) :
    (∃ resp : book.dto.BookResponse,
      book.dto.ToBookResponse uuid (some b) = Outcome.ok resp ∧
      resp.ID = uuid.String b.ID ∧ resp.Title = b.Title ∧
      (resp.Author = none ↔ b.Author = none) ∧
      (∀ a : entity.Author, b.Author = some a →
        ∃ r : author.dto.AuthorResponse,
          author.dto.ToAuthorResponse uuid (some a) = Outcome.ok r ∧
          resp.Author = some r)) ∧
    (∀ (id : UUID) (title d1 d2 : String) (authorID : Option UUID)
        (a : Option entity.Author) (c u : time.Time),
      book.dto.ToBookResponse uuid (some (entity.Book.mk id title d1 authorID a c u)) =
      book.dto.ToBookResponse uuid (some (entity.Book.mk id title d2 authorID a c u))) := by
  constructor
  · refine ⟨_, toBookResponse_of_book uuid b, rfl, rfl, ?_, ?_⟩
    · cases b.Author <;> simp
    · intro a ha
      exact ⟨_, rfl, by simp [ha]⟩
  · intro id title d1 d2 authorID a c u
    rfl

/-- What `ToBooksResponse` returns for a slice without nil elements. -/
theorem toBooksResponse_of_books (uuid : UUIDPackage) (bs : List entity.Book) :
    book.dto.ToBooksResponse uuid (bs.map some) =
      Outcome.ok (bs.map (fun b =>
        { ID := uuid.String b.ID, Title := b.Title,
          Author := b.Author.map (fun a => { ID := uuid.String a.ID, Name := a.Name }) })) := by
  induction bs with
  | nil => rfl
  | cons b rest ih =>
    simp only [List.map_cons, book.dto.ToBooksResponse, toBookResponse_of_book, ih]

/-- C22 at the stored book `hobbit`, whose author is `tolkien`. -/
theorem toBookResponse_projects_book_witness :
    ∃ r : author.dto.AuthorResponse,
      author.dto.ToAuthorResponse sample.uuid (some sample.tolkien) = Outcome.ok r ∧
      book.dto.ToBookResponse sample.uuid (some sample.hobbit) =
        Outcome.ok { ID := sample.uuid.String sample.hobbit.ID, Title := "The Hobbit",
                     Author := some r } := by
  obtain ⟨resp, h1, h2, h3, _, h5⟩ :=
    (toBookResponse_projects_book sample.uuid sample.hobbit).1
  obtain ⟨r, hr, hauthor⟩ := h5 sample.tolkien rfl
  refine ⟨r, hr, ?_⟩
  rw [h1]
  cases resp
  simp only [book.dto.BookResponse.mk.injEq, Outcome.ok.injEq] at h2 h3 hauthor ⊢
  exact ⟨h2, h3, hauthor⟩

/-- C23: for every list of books, `ToBooksResponse` returns a list of the same
length whose element at each index is what `ToBookResponse` returns for the
book at that index. For the three books of the `GetAll` test, the third of
which has no author, it returns three responses and the third has no author. -/
theorem toBooksResponse_keeps_every_book (uuid : UUIDPackage) (bs : List entity.Book) :
    (∃ resps : List book.dto.BookResponse,
      book.dto.ToBooksResponse uuid (bs.map some) = Outcome.ok resps ∧
      resps.length = bs.length ∧
      ∀ (i : Nat) (b : entity.Book), bs[i]? = some b →
        ∃ r : book.dto.BookResponse,
          resps[i]? = some r ∧ book.dto.ToBookResponse uuid (some b) = Outcome.ok r) ∧
    book.dto.ToBooksResponse sample.uuid
        [some sample.bookOne, some sample.bookTwo, some sample.bookThree] =
      Outcome.ok
        [ { ID := "a1b2c3d4-e5f6-7890-1234-56789abcdef0", Title := "Book One",
            Author := some { ID := "eb21d07a-7ab3-40db-bfd3-448093bc5626",
                             Name := "Victor Hugo" } },
          { ID := "b1c2d3e4-f5a6-7890-1234-56789abcdef1", Title := "Book Two",
            Author := some { ID := "eb21d07a-7ab3-40db-bfd3-448093bc5626",
                             Name := "Victor Hugo" } },
          { ID := "c1d2e3f4-a5b6-7890-1234-56789abcdef2", Title := "Book Three",
            Author := none } ] := by
  constructor
  · refine ⟨_, toBooksResponse_of_books uuid bs, by simp, ?_⟩
    intro i b hb
    refine ⟨_, ?_, toBookResponse_of_book uuid b⟩
    simp [hb]
  · decide

/-- C23 at the three books of the `GetAll` test, for the third position. -/
theorem toBooksResponse_keeps_every_book_witness :
    ∃ (resps : List book.dto.BookResponse) (r : book.dto.BookResponse),
      book.dto.ToBooksResponse sample.uuid
        ([sample.bookOne, sample.bookTwo, sample.bookThree].map some) = Outcome.ok resps ∧
      resps.length = 3 ∧ resps[2]? = some r ∧
      book.dto.ToBookResponse sample.uuid (some sample.bookThree) = Outcome.ok r := by
  obtain ⟨resps, h1, h2, h3⟩ := (toBooksResponse_keeps_every_book sample.uuid
    [sample.bookOne, sample.bookTwo, sample.bookThree]).1
  obtain ⟨r, hr1, hr2⟩ := h3 2 sample.bookThree rfl
  exact ⟨resps, r, h1, h2, hr1, hr2⟩

/-! ## Theorems: validation messages -/

/-- C24: the message of a field error with field name `f`, tag `t` and
parameter `p` is given by a fixed table of thirteen tags; for every tag that
is not in the table the message is "f is invalid". -/
theorem getErrorMessage_table (f p : String) :
    validator.getErrorMessage ⟨f, "required", p⟩ = f ++ " is required" ∧
    validator.getErrorMessage ⟨f, "email", p⟩ = f ++ " must be a valid email address" ∧
    validator.getErrorMessage ⟨f, "min", p⟩ = f ++ " must be at least " ++ p ++ " characters" ∧
    validator.getErrorMessage ⟨f, "max", p⟩ = f ++ " must be at most " ++ p ++ " characters" ∧
    validator.getErrorMessage ⟨f, "url", p⟩ = f ++ " must be a valid URL" ∧
    validator.getErrorMessage ⟨f, "alpha", p⟩ = f ++ " must contain only letters" ∧
    validator.getErrorMessage ⟨f, "alphanum", p⟩ =
      f ++ " must contain only letters and numbers" ∧
    validator.getErrorMessage ⟨f, "numeric", p⟩ = f ++ " must be a number" ∧
    validator.getErrorMessage ⟨f, "len", p⟩ = f ++ " must be exactly " ++ p ++ " characters" ∧
    validator.getErrorMessage ⟨f, "gt", p⟩ = f ++ " must be greater than " ++ p ∧
    validator.getErrorMessage ⟨f, "gte", p⟩ =
      f ++ " must be greater than or equal to " ++ p ∧
    validator.getErrorMessage ⟨f, "lt", p⟩ = f ++ " must be less than " ++ p ∧
    validator.getErrorMessage ⟨f, "lte", p⟩ = f ++ " must be less than or equal to " ++ p ∧
    (∀ t : String,
      t ∉ ["required", "email", "min", "max", "url", "alpha", "alphanum", "numeric", "len",
        "gt", "gte", "lt", "lte"] →
      validator.getErrorMessage ⟨f, t, p⟩ = f ++ " is invalid") := by
  refine ⟨rfl, rfl, rfl, rfl, rfl, rfl, rfl, rfl, rfl, rfl, rfl, rfl, rfl, ?_⟩
  intro t ht
  simp only [List.mem_cons, List.mem_singleton, List.not_mem_nil, or_false, not_or] at ht
  obtain ⟨h1, h2, h3, h4, h5, h6, h7, h8, h9, h10, h11, h12, h13⟩ := ht
  unfold validator.getErrorMessage
  simp only

/-- C24 at the field `Email` with the parameter `8`: three rows of the table
and a tag outside it. -/
theorem getErrorMessage_table_witness :
    validator.getErrorMessage ⟨"Email", "email", ""⟩ = "Email must be a valid email address" ∧
    validator.getErrorMessage ⟨"Password", "min", "8"⟩ =
      "Password must be at least 8 characters" ∧
    validator.getErrorMessage ⟨"ID", "uuid4", ""⟩ = "ID is invalid" :=
  ⟨(getErrorMessage_table "Email" "").2.1,
   (getErrorMessage_table "Password" "8").2.2.1,
   (getErrorMessage_table "ID" "").2.2.2.2.2.2.2.2.2.2.2.2.2 "uuid4" (by decide)⟩

/-- C25: let the engine keep its contract for struct values, that a non-nil
error of `validate.Struct` is a `ValidationErrors` with at least one failure.
Then for every non-nil error that `Validator.Struct` returns, `FormatErrors`
returns a list that is not empty and holds, in the order of the failures, one
`{field, message}` pair for each failure: the failure's field name and its
template message. -/
theorem formatErrors_one_entry_per_failure (v : validator.Validator)
    (hengine : ∀ (s : RequestDTO) (err : GoError), v.validate s = some err →
      ∃ ve : List FieldError, err = GoError.validationErrors ve ∧ ve ≠ [])
    (s : RequestDTO) (err : GoError) (hstruct : v.Struct s = some err) :
    ∃ ve : List FieldError, err = GoError.validationErrors ve ∧
      v.FormatErrors err =
        ve.map (fun fe => { Field := fe.Field, Message := validator.getErrorMessage fe }) ∧
      v.FormatErrors err ≠ [] ∧
      (v.FormatErrors err).length = ve.length ∧
      ∀ (i : Nat) (fe : FieldError), ve[i]? = some fe →
        (v.FormatErrors err)[i]? =
          some { Field := fe.Field, Message := validator.getErrorMessage fe } := by
  obtain ⟨ve, hve, hne⟩ := hengine s err hstruct
  subst hve
  have hfmt : v.FormatErrors (GoError.validationErrors ve) =
      ve.map (fun fe => { Field := fe.Field, Message := validator.getErrorMessage fe }) := by
    simp [validator.Validator.FormatErrors, validator.asValidationErrors]
  refine ⟨ve, rfl, hfmt, ?_, ?_, ?_⟩
  · rw [hfmt]
    simpa using hne
  · rw [hfmt]
    simp
  · intro i fe hfe
    rw [hfmt]
    simp [hfe]

/-- C25 at a `CreateBookRequest` with an empty title and an empty author id:
two entries, in the order of the fields. -/
theorem formatErrors_one_entry_per_failure_witness :
    sample.validator.FormatErrors
        (.validationErrors [⟨"Title", "required", ""⟩, ⟨"AuthorID", "required", ""⟩]) =
      [{ Field := "Title", Message := "Title is required" },
       { Field := "AuthorID", Message := "AuthorID is required" }] := by
  have hengine : ∀ (s : RequestDTO) (err : GoError), sample.validator.validate s = some err →
      ∃ ve : List FieldError, err = GoError.validationErrors ve ∧ ve ≠ [] := by
    intro s err h
    simp only [sample.validator] at h
    split at h
    · cases h
    · rename_i hne
      exact ⟨_, (Option.some.inj h).symm, hne⟩
  obtain ⟨ve, hve, hfmt, _, _, _⟩ := formatErrors_one_entry_per_failure sample.validator
    hengine (.createBook ⟨"", "A desert planet", ""⟩)
    (.validationErrors [⟨"Title", "required", ""⟩, ⟨"AuthorID", "required", ""⟩])
    (by decide)
  rw [hfmt]
  cases hve
  decide

/-! ## Theorems: the `BeforeCreate` hooks -/

/-- C26: for every author and every book, whatever identifier the caller put
in it, the `BeforeCreate` hook returns no error, sets `ID` to the identifier
that `uuid.New` returns and leaves every other field as it was. The new `ID`
is not the nil UUID, given that `uuid.New` never returns the nil UUID. -/
theorem beforeCreate_sets_only_id {σ : Type} (gen : UUIDGenerator σ) (a : entity.Author)
    (b : entity.Book) (st : σ) :
    ((a.BeforeCreate gen st).1.2 = none ∧
      (a.BeforeCreate gen st).1.1.ID = (gen.New st).1 ∧
      (a.BeforeCreate gen st).1.1.Name = a.Name ∧
      (a.BeforeCreate gen st).1.1.Book = a.Book ∧
      (a.BeforeCreate gen st).1.1.CreatedAt = a.CreatedAt ∧
      (a.BeforeCreate gen st).1.1.UpdatedAt = a.UpdatedAt) ∧
    ((b.BeforeCreate gen st).1.2 = none ∧
      (b.BeforeCreate gen st).1.1.ID = (gen.New st).1 ∧
      (b.BeforeCreate gen st).1.1.Title = b.Title ∧
      (b.BeforeCreate gen st).1.1.Description = b.Description ∧
      (b.BeforeCreate gen st).1.1.AuthorID = b.AuthorID ∧
      (b.BeforeCreate gen st).1.1.Author = b.Author ∧
      (b.BeforeCreate gen st).1.1.CreatedAt = b.CreatedAt ∧
      (b.BeforeCreate gen st).1.1.UpdatedAt = b.UpdatedAt) ∧
    ((∀ s : σ, (gen.New s).1 ≠ UUID.Nil) →
      (a.BeforeCreate gen st).1.1.ID ≠ UUID.Nil ∧
      (b.BeforeCreate gen st).1.1.ID ≠ UUID.Nil) :=
  ⟨⟨rfl, rfl, rfl, rfl, rfl, rfl⟩, ⟨rfl, rfl, rfl, rfl, rfl, rfl, rfl, rfl⟩,
    fun hnew => ⟨hnew st, hnew st⟩⟩

/-- C26 at the stored author and book, which carry identifiers of their own,
with the generator that counts from 100. -/
theorem beforeCreate_sets_only_id_witness :
    (sample.tolkien.BeforeCreate sample.generator sample.backend.db).1.1.ID = ⟨101⟩ ∧
    (sample.tolkien.BeforeCreate sample.generator sample.backend.db).1.1.ID ≠ UUID.Nil ∧
    (sample.hobbit.BeforeCreate sample.generator sample.backend.db).1.1.ID ≠ UUID.Nil :=
  have hnew : ∀ s : sample.Tables, (sample.generator.New s).1 ≠ UUID.Nil := by
    intro s h
    simp [sample.generator, UUID.Nil] at h
  ⟨(beforeCreate_sets_only_id sample.generator sample.tolkien sample.hobbit
      sample.backend.db).1.2.1,
   ((beforeCreate_sets_only_id sample.generator sample.tolkien sample.hobbit
      sample.backend.db).2.2 hnew).1,
   ((beforeCreate_sets_only_id sample.generator sample.tolkien sample.hobbit
      sample.backend.db).2.2 hnew).2⟩

/-! ## Theorems: `UpdateBook`, read then write -/

/-- C27: `bookService.UpdateBook` first reads the book with the repository's
`GetByID`. If the read returns an error, `UpdateBook` returns `(nil, that
error)` and `Update` is not called: the read is the only call made. If the
read returns a book and no error, `UpdateBook` calls `Update` once, after the
read, and returns the pair that `Update` returned. -/
theorem updateBook_reads_then_updates {σ : Type} (s : book.bookService σ)
    (req : book.dto.UpdateBookRequest) (bookID : UUID) (w : World σ) :
    (∀ (b : Option entity.Book) (e : GoError),
      (s.repository.GetByID bookID w.store).1 = (b, some e) →
        (s.UpdateBook req bookID w).1 = Outcome.ok (none, some e) ∧
        (s.UpdateBook req bookID w).2.calls = w.calls ++ [Call.bookGetByID bookID]) ∧
    (∀ b : entity.Book,
      (s.repository.GetByID bookID w.store).1 = (some b, none) →
        ∃ passed : entity.Book,
          (s.UpdateBook req bookID w).1 =
            Outcome.ok (s.repository.Update passed
              (s.repository.GetByID bookID w.store).2).1 ∧
          (s.UpdateBook req bookID w).2.calls =
            w.calls ++ [Call.bookGetByID bookID, Call.bookUpdate passed]) := by
  constructor
  · intro b e hget
    rw [updateBook_of_error s req bookID w b e hget]
    exact ⟨rfl, rfl⟩
  · intro b hget
    refine ⟨b.setTitle req.Description, ?_, ?_⟩
    · rw [updateBook_of_book s req bookID w b hget]
      rfl
    · rw [updateBook_of_book s req bookID w b hget]
      simp [book.BookRepository.callUpdate, book.BookRepository.callGetByID]

/-- C27 on the repository that holds `hobbit`: an unknown identifier ends
after the read with `ErrNotFound`; the identifier of `hobbit` is read, then
updated once, and the updated book is returned. -/
theorem updateBook_reads_then_updates_witness :
    ((book.bookService.UpdateBook ⟨sample.hobbitBookRepository, sample.authorRepository⟩
        ⟨"A new description"⟩ ⟨9⟩ sample.world).1 = Outcome.ok (none, some book.ErrNotFound) ∧
      (book.bookService.UpdateBook ⟨sample.hobbitBookRepository, sample.authorRepository⟩
        ⟨"A new description"⟩ ⟨9⟩ sample.world).2.calls =
          sample.world.calls ++ [Call.bookGetByID ⟨9⟩]) ∧
    (∃ passed : entity.Book,
      (book.bookService.UpdateBook ⟨sample.hobbitBookRepository, sample.authorRepository⟩
        ⟨"A new description"⟩ ⟨7⟩ sample.world).1 =
          Outcome.ok (sample.hobbitBookRepository.Update passed
            (sample.hobbitBookRepository.GetByID ⟨7⟩ sample.world.store).2).1 ∧
      (book.bookService.UpdateBook ⟨sample.hobbitBookRepository, sample.authorRepository⟩
        ⟨"A new description"⟩ ⟨7⟩ sample.world).2.calls =
          sample.world.calls ++ [Call.bookGetByID ⟨7⟩, Call.bookUpdate passed]) :=
  ⟨(updateBook_reads_then_updates ⟨sample.hobbitBookRepository, sample.authorRepository⟩
      ⟨"A new description"⟩ ⟨9⟩ sample.world).1 none book.ErrNotFound rfl,
   (updateBook_reads_then_updates ⟨sample.hobbitBookRepository, sample.authorRepository⟩
      ⟨"A new description"⟩ ⟨7⟩ sample.world).2 sample.hobbit rfl⟩

/-! ## Theorems: the route table -/

/-- C28: the route table that `BookHandler.Routes` builds holds exactly
`POST /`, `GET /`, `GET /{book_id}`, `PUT /{book_id}` and `GET /secure`. No
registration has the method `DELETE` and none names the handler `DeleteBook`;
so a router that serves a request by one of the registrations made on it,
with the method of the request, serves no request by `DeleteBook` and serves
no `DELETE` request at all. -/
theorem routes_leave_out_delete {σ : Type} (h : book.BookHandler σ) (mux : chi.Mux)
    (hmux : ∀ (routes : List book.Route) (method path : String) (r : book.Route),
      mux.find routes method path = some r → r ∈ routes ∧ r.method = method) :
    (h.Routes.map (fun r => (r.method, r.pattern)) =
      [("POST", "/"), ("GET", "/"), ("GET", "/{book_id}"), ("PUT", "/{book_id}"),
       ("GET", "/secure")]) ∧
    (∀ r ∈ h.Routes, r.method ≠ "DELETE" ∧ r.handler ≠ book.HandlerFunc.DeleteBook) ∧
    (∀ (method path : String) (r : book.Route),
      mux.find h.Routes method path = some r → r.handler ≠ book.HandlerFunc.DeleteBook) ∧
    (∀ path : String, mux.find h.Routes "DELETE" path = none) := by
  have hall : ∀ r ∈ h.Routes, r.method ≠ "DELETE" ∧ r.handler ≠ book.HandlerFunc.DeleteBook := by
    intro r hr
    simp only [book.BookHandler.Routes, List.mem_cons, List.mem_singleton,
      List.not_mem_nil, or_false] at hr
    rcases hr with hr | hr | hr | hr | hr <;> subst hr <;> exact ⟨by decide, by decide⟩
  refine ⟨rfl, hall, ?_, ?_⟩
  · intro method path r hfind
    exact (hall r (hmux _ _ _ _ hfind).1).2
  · intro path
    cases hfind : mux.find h.Routes "DELETE" path with
    | none => rfl
    | some r =>
      have hr := hmux _ _ _ _ hfind
      exact absurd hr.2 (hall r hr.1).1

/-- The sample router serves a request by a registration made on it, with
the method of the request. -/
theorem sample_mux_serves_registered (routes : List book.Route) (method path : String)
    (r : book.Route) (hfind : sample.mux.find routes method path = some r) :
    r ∈ routes ∧ r.method = method := by
  simp only [sample.mux] at hfind
  split at hfind
  · rename_i r1 h1
    cases hfind
    have hmem := List.mem_of_find?_eq_some h1
    have hp := List.find?_some h1
    simp only [Bool.and_eq_true, beq_iff_eq] at hp
    exact ⟨hmem, hp.1⟩
  · split at hfind
    · have hmem := List.mem_of_find?_eq_some hfind
      have hp := List.find?_some hfind
      simp only [Bool.and_eq_true, beq_iff_eq] at hp
      exact ⟨hmem, hp.1⟩
    · cases hfind

/-- C28 on the sample router: `DELETE /{id}` is served by no handler, while
`GET` and `PUT` on the same path are served by `GetBookByID` and `UpdateBook`. -/
theorem routes_leave_out_delete_witness :
    sample.mux.find sample.bookHandler.Routes "DELETE"
        "/00000000-0000-0000-0000-000000000007" = none ∧
    (sample.mux.find sample.bookHandler.Routes "GET"
        "/00000000-0000-0000-0000-000000000007").map (fun r => r.handler)
      = some book.HandlerFunc.GetBookByID ∧
    (sample.mux.find sample.bookHandler.Routes "PUT"
        "/00000000-0000-0000-0000-000000000007").map (fun r => r.handler)
      = some book.HandlerFunc.UpdateBook :=
  ⟨(routes_leave_out_delete sample.bookHandler sample.mux sample_mux_serves_registered).2.2.2
      "/00000000-0000-0000-0000-000000000007",
   by decide, by decide⟩

/-! ## Theorems: the logger -/

/-- C29: for every configuration, `NewLogger` returns a nil error. The
global level it sets is the level that `zerolog.ParseLevel` returns for
`cfg.Log.Level` when it returns one, and `InfoLevel` when it returns an error. -/
theorem newLogger_sets_global_level (ext : logger.Externals) (cfg : config.Config)
    (g : zerolog.Globals) :
    (logger.NewLogger ext cfg g).1.2 = none ∧
    (∀ level : zerolog.Level, ext.ParseLevel cfg.Log.Level = some level →
      (logger.NewLogger ext cfg g).2.level = level) ∧
    (ext.ParseLevel cfg.Log.Level = none →
      (logger.NewLogger ext cfg g).2.level = zerolog.Level.InfoLevel) := by
  refine ⟨?_, ?_, ?_⟩
  · unfold logger.NewLogger
    simp only
    split <;> rfl
  · intro level hlevel
    unfold logger.NewLogger
    simp only [hlevel]
    split <;> rfl
  · intro hlevel
    unfold logger.NewLogger
    simp only [hlevel]
    split <;> rfl

/-- C29 with level names read as zerolog reads them: `debug` gives
`DebugLevel`, `unknown` gives `InfoLevel`. -/
theorem newLogger_sets_global_level_witness :
    (logger.NewLogger sample.externals (sample.cfg "debug") sample.globals).2.level
      = zerolog.Level.DebugLevel ∧
    (logger.NewLogger sample.externals (sample.cfg "unknown") sample.globals).2.level
      = zerolog.Level.InfoLevel ∧
    (logger.NewLogger sample.externals (sample.cfg "unknown") sample.globals).1.2 = none :=
  ⟨(newLogger_sets_global_level sample.externals (sample.cfg "debug") sample.globals).2.1
      zerolog.Level.DebugLevel (by decide),
   (newLogger_sets_global_level sample.externals (sample.cfg "unknown") sample.globals).2.2
      (by decide),
   (newLogger_sets_global_level sample.externals (sample.cfg "unknown") sample.globals).1⟩

/-! ## Theorems: a duplicate key on update and on create -/

/-- The method `bookRepository.GetByID` when the query leaves no error. -/
theorem bookRepository_GetByID_of_row {σ : Type} (db : gorm.DB σ) (bookID : UUID)
    (st : Backend σ) (row : Option entity.Book)
    (hfirst : (db.firstBook bookID st.db).1 = (row, none)) :
    book.bookRepository.GetByID ⟨db⟩ bookID st =
      ((row, none), { st with db := (db.firstBook bookID st.db).2 }) := by
  simp [book.bookRepository.GetByID, hfirst]

/-- The method `authorRepository.GetByID` when the query leaves no error. -/
theorem authorRepository_GetByID_of_row {σ : Type} (db : gorm.DB σ) (authorID : UUID)
    (st : Backend σ) (row : Option entity.Author)
    (hfirst : (db.firstAuthor authorID st.db).1 = (row, none)) :
    author.authorRepository.GetByID ⟨db⟩ authorID st =
      ((row, none), { st with db := (db.firstAuthor authorID st.db).2 }) := by
  simp [author.authorRepository.GetByID, hfirst]

/-- The method `bookRepository.Update` when `Save` leaves an error: the error
is returned as it is. -/
theorem bookRepository_Update_of_error {σ : Type} (db : gorm.DB σ) (b : entity.Book)
    (st : Backend σ) (e : GoError) (hsave : (db.saveBook b st.db).1.2 = some e) :
    (book.bookRepository.Update ⟨db⟩ b st).1 = (none, some e) := by
  simp [book.bookRepository.Update, hsave]

/-- The method `bookRepository.Create` when `Create` leaves a duplicate-key
error. -/
theorem bookRepository_Create_of_duplicate {σ : Type} (gen : UUIDGenerator σ)
    (db : gorm.DB σ) (b : entity.Book) (st : Backend σ) (e : GoError)
    (hcreate : (db.CreateBook gen b st.db).1.2 = some e)
    (hdup : errors.Is e gorm.ErrDuplicatedKey = true) :
    (book.bookRepository.Create gen ⟨db⟩ b st).1 = (none, some book.ErrDuplicate) := by
  simp [book.bookRepository.Create, hcreate, hdup]

/-- When the book service returns the error `err`, `UpdateBook` writes what
`handleError` writes for `err`. -/
theorem bookHandler_UpdateBook_on_error {σ : Type} (uuid : UUIDPackage) (json : JSONPackage)
    (h : book.BookHandler σ) (w : ResponseWriter) (r : Request)
    (world world1 : World σ) (bookID : UUID) (req : book.dto.UpdateBookRequest)
    (b : Option entity.Book) (err : GoError)
    (hparse : uuid.Parse (r.URLParam "book_id") = some bookID)
    (hdecode : json.DecodeUpdateBookRequest r.Body = some req)
    (hvalid : h.validator.Struct (.updateBook req) = none)
    (hservice : h.service.UpdateBook req bookID world = (Outcome.ok (b, some err), world1)) :
    h.UpdateBook uuid json w r world =
      (Outcome.ok (), (h.handleError w err world1).1, (h.handleError w err world1).2) := by
  simp [book.BookHandler.UpdateBook, hparse, hdecode, hvalid, hservice]

/-- The book handler answers `book.ErrDuplicate` with 409 "Book with this name
already exists". -/
theorem bookHandler_handleError_answers_duplicate {σ : Type} (h : book.BookHandler σ)
    (w : ResponseWriter) (world : World σ) (hw : w.code = none) :
    AnswersError w (h.handleError w book.ErrDuplicate world).1 409
      "Book with this name already exists" := by
  have n1 : errors.Is book.ErrDuplicate book.ErrNotFound = false := by decide
  simpa [book.BookHandler.handleError, errors_Is_self, n1] using
    response_Error_answers w 409 _ hw

/-- C30: the book repository's `Update` returns every error that `Save`
leaves as it is, a duplicate-key error included. Through the service and the
handler over the two repositories: when the book is read and `Save` then
fails with a duplicate-key error, `PUT /books/{book_id}` answers 500 "Internal
server error"; when the author is read and the insertion of the new book then
fails with a duplicate-key error, `POST /books` answers 409 "Book with this
name already exists". -/
theorem update_duplicate_answers_500 {σ : Type} (uuid : UUIDPackage) (json : JSONPackage)
    (gen : UUIDGenerator σ) (db : gorm.DB σ) (v : validator.Validator)
    (w : ResponseWriter) (r : Request) (world : World (Backend σ)) (hw : w.code = none) :
    (∀ (b : entity.Book) (st : Backend σ) (e : GoError),
      (db.saveBook b st.db).1.2 = some e →
        (book.bookRepository.Update ⟨db⟩ b st).1 = (none, some e)) ∧
    (∀ (bookID : UUID) (req : book.dto.UpdateBookRequest) (b : entity.Book) (e : GoError),
      uuid.Parse (r.URLParam "book_id") = some bookID →
      json.DecodeUpdateBookRequest r.Body = some req →
      v.Struct (.updateBook req) = none →
      (db.firstBook bookID world.store.db).1 = (some b, none) →
      (db.saveBook (b.setTitle req.Description)
          (db.firstBook bookID world.store.db).2).1.2 = some e →
      errors.Is e gorm.ErrDuplicatedKey = true →
        AnswersError w
          (book.BookHandler.UpdateBook uuid json
            { service := book.NewBookService uuid (book.NewBookRepository gen db)
                (author.NewAuthorRepository gen db)
              validator := v } w r world).2.1
          500 "Internal server error") ∧
    (∀ (req : book.dto.CreateBookRequest) (authorID : UUID) (a : entity.Author)
        (e : GoError),
      json.DecodeCreateBookRequest r.Body = some req →
      v.Struct (.createBook req) = none →
      uuid.Parse req.AuthorID = some authorID →
      (db.firstAuthor authorID world.store.db).1 = (some a, none) →
      (db.CreateBook gen
          (entity.Book.mk UUID.Nil req.Title req.Description (some a.ID) none
            time.Time.zero time.Time.zero)
          (db.firstAuthor authorID world.store.db).2).1.2 = some e →
      errors.Is e gorm.ErrDuplicatedKey = true →
        AnswersError w
          (book.BookHandler.CreateBook uuid json
            { service := book.NewBookService uuid (book.NewBookRepository gen db)
                (author.NewAuthorRepository gen db)
              validator := v } w r world).2.1
          409 "Book with this name already exists") := by
  have leafD : ∀ m i, gorm.ErrDuplicatedKey ≠ GoError.wrap m i := by intro m i hc; cases hc
  have leaf1 : ∀ m i, book.ErrNotFound ≠ GoError.wrap m i := by intro m i hc; cases hc
  have leaf2 : ∀ m i, book.ErrDuplicate ≠ GoError.wrap m i := by intro m i hc; cases hc
  have leaf3 : ∀ m i, book.ErrInvalidAuthorId ≠ GoError.wrap m i := by intro m i hc; cases hc
  have leaf4 : ∀ m i, author.ErrNotFound ≠ GoError.wrap m i := by intro m i hc; cases hc
  refine ⟨?_, ?_, ?_⟩
  · intro b st e hsave
    exact bookRepository_Update_of_error db b st e hsave
  · intro bookID req b e hparse hdecode hvalid hfirst hsave hdup
    have hget : ((book.NewBookRepository gen db).GetByID bookID world.store).1 =
        (some b, none) := by
      show (book.bookRepository.GetByID ⟨db⟩ bookID world.store).1 = _
      rw [bookRepository_GetByID_of_row db bookID world.store (some b) hfirst]
    have hupdate : ((book.NewBookRepository gen db).callUpdate (b.setTitle req.Description)
        ((book.NewBookRepository gen db).callGetByID bookID world).2).1 = (none, some e) := by
      show (book.bookRepository.Update ⟨db⟩ (b.setTitle req.Description)
        (book.bookRepository.GetByID ⟨db⟩ bookID world.store).2).1 = _
      rw [bookRepository_GetByID_of_row db bookID world.store (some b) hfirst]
      exact bookRepository_Update_of_error db _ _ e hsave
    have hs : (book.NewBookService uuid (book.NewBookRepository gen db)
        (author.NewAuthorRepository gen db)).UpdateBook req bookID world =
        (Outcome.ok (none, some e),
          ((book.NewBookRepository gen db).callUpdate (b.setTitle req.Description)
            ((book.NewBookRepository gen db).callGetByID bookID world).2).2) := by
      show book.bookService.UpdateBook ⟨_, _⟩ req bookID world = _
      rw [updateBook_of_book ⟨book.NewBookRepository gen db, author.NewAuthorRepository gen db⟩
        req bookID world b hget]
      simp only [hupdate]
    rw [bookHandler_UpdateBook_on_error uuid json
      { service := book.NewBookService uuid (book.NewBookRepository gen db)
          (author.NewAuthorRepository gen db), validator := v }
      w r world _ bookID req none e hparse hdecode hvalid hs]
    exact bookHandler_handleError_answers_internal
      { service := book.NewBookService uuid (book.NewBookRepository gen db)
          (author.NewAuthorRepository gen db), validator := v } w e _ hw
      (errors_Is_exclusive e _ _ leafD leaf1 (by decide) hdup)
      (errors_Is_exclusive e _ _ leafD leaf2 (by decide) hdup)
      (errors_Is_exclusive e _ _ leafD leaf3 (by decide) hdup)
      (errors_Is_exclusive e _ _ leafD leaf4 (by decide) hdup)
  · intro req authorID a e hdecode hvalid hparse hfirst hcreate hdup
    have hget : ((author.NewAuthorRepository gen db).GetByID authorID world.store).1 =
        (some a, none) := by
      show (author.authorRepository.GetByID ⟨db⟩ authorID world.store).1 = _
      rw [authorRepository_GetByID_of_row db authorID world.store (some a) hfirst]
    have hcr : ((book.NewBookRepository gen db).callCreate
        (entity.Book.mk UUID.Nil req.Title req.Description (some a.ID) none
          time.Time.zero time.Time.zero)
        ((author.NewAuthorRepository gen db).callGetByID authorID world).2).1 =
        (none, some book.ErrDuplicate) := by
      show (book.bookRepository.Create gen ⟨db⟩ _
        (author.authorRepository.GetByID ⟨db⟩ authorID world.store).2).1 = _
      rw [authorRepository_GetByID_of_row db authorID world.store (some a) hfirst]
      exact bookRepository_Create_of_duplicate gen db _ _ e hcreate hdup
    have hs : (book.NewBookService uuid (book.NewBookRepository gen db)
        (author.NewAuthorRepository gen db)).CreateBook req world =
        (Outcome.ok (none, some book.ErrDuplicate),
          ((book.NewBookRepository gen db).callCreate
            (entity.Book.mk UUID.Nil req.Title req.Description (some a.ID) none
              time.Time.zero time.Time.zero)
            ((author.NewAuthorRepository gen db).callGetByID authorID world).2).2) := by
      show book.bookService.CreateBook uuid ⟨_, _⟩ req world = _
      rw [createBook_of_author uuid
        ⟨book.NewBookRepository gen db, author.NewAuthorRepository gen db⟩
        req world authorID a hparse hget]
      simp only [hcr]
    rw [bookHandler_CreateBook_on_error uuid json
      { service := book.NewBookService uuid (book.NewBookRepository gen db)
          (author.NewAuthorRepository gen db), validator := v }
      w r world _ req none book.ErrDuplicate hdecode hvalid hs]
    exact bookHandler_handleError_answers_duplicate
      { service := book.NewBookService uuid (book.NewBookRepository gen db)
          (author.NewAuthorRepository gen db), validator := v } w _ hw

/-- C30 on the sample database, which holds the books "The Hobbit" and
"Dune": giving "Dune" the title "The Hobbit" by `PUT` is answered 500, creating
a second "The Hobbit" by `POST` is answered 409. -/
theorem update_duplicate_answers_500_witness :
    AnswersError ResponseWriter.new
      (sample.libraryHandler.UpdateBook sample.uuid sample.fixedJSON ResponseWriter.new
        (sample.request "00000000-0000-0000-0000-000000000008" "{}") sample.library).2.1
      500 "Internal server error" ∧
    AnswersError ResponseWriter.new
      (sample.libraryHandler.CreateBook sample.uuid sample.fixedJSON ResponseWriter.new
        (sample.request "" "{}") sample.library).2.1
      409 "Book with this name already exists" :=
  ⟨(update_duplicate_answers_500 sample.uuid sample.fixedJSON sample.generator sample.db
      sample.validator ResponseWriter.new
      (sample.request "00000000-0000-0000-0000-000000000008" "{}") sample.library rfl).2.1
      ⟨8⟩ ⟨"The Hobbit"⟩ sample.dune gorm.ErrDuplicatedKey
      (by decide) (by decide) (by decide) rfl rfl (by decide),
   (update_duplicate_answers_500 sample.uuid sample.fixedJSON sample.generator sample.db
      sample.validator ResponseWriter.new (sample.request "" "{}") sample.library rfl).2.2
      ⟨"The Hobbit", "Again", "00000000-0000-0000-0000-00000000002a"⟩ sample.id42
      sample.tolkien gorm.ErrDuplicatedKey
      (by decide) (by decide) (by decide) rfl rfl (by decide)⟩
